import Mathlib

/-!
# Heimdall: the request orchestrator of `heimdall.go`

A shallow embedding of the cache-aside decision procedure `getData` and of the
helpers it is built from, together with theorems about what it does.

Conventions of the embedding.

* Go `int64` values (`CacheValue.UpdatedTS`, `time.Duration`, Unix seconds) are
  integers; the one place where the source adds two of them wraps explicitly
  (`wrapInt64`).
* `time.Duration.Seconds` returns a `float64`.  The binary64 values that occur are
  represented exactly as rationals and every float operation rounds to nearest,
  ties to even (`roundFloat64`).
* Effects (cache `Get`/`Set`, the remote call, the clock, metrics, goroutines) are
  made explicit: a program is a state transformer over a `Run`, which carries the
  state of the outside world, the trace of effects performed so far and the list
  of goroutines started so far.
-/

namespace Heimdall

/-! ## Numbers -/

/-- Two's-complement wrap-around of a Go `int64` result. -/
def wrapInt64 (x : Int) : Int := (x + 2 ^ 63) % 2 ^ 64 - 2 ^ 63

/-- Nearest integer to `y`, ties going to the even neighbour. -/
def roundHalfEven (y : ℚ) : ℤ :=
  let f := ⌊y⌋
  let t := y - f
  if t < 1 / 2 then f else if 1 / 2 < t then f + 1 else if f % 2 = 0 then f else f + 1

/-- Rounding of a real result to binary64 (53 bits of precision, round to nearest
even).  Overflow and subnormals do not occur for the magnitudes `Duration.Seconds`
produces and are not represented. -/
def roundFloat64 (x : ℚ) : ℚ :=
  let e := Int.log 2 |x| - 52
  roundHalfEven (x / 2 ^ e) * 2 ^ e

/-- Go `int64(f)` for a `float64` within the `int64` range: the fraction is
discarded (truncation toward zero). -/
def truncToInt64 (f : ℚ) : Int := if 0 ≤ f then ⌊f⌋ else ⌈f⌉

/-- Go `time.Second`, in nanoseconds. -/
def Second : Int := 1000000000

/-- Go `time.Duration.Seconds`:
`sec := d / Second; nsec := d % Second; return float64(sec) + float64(nsec)/1e9`,
where `/` and `%` on integers truncate toward zero. -/
def Duration.Seconds (d : Int) : ℚ :=
  let sec := Int.tdiv d Second
  let nsec := Int.tmod d Second
  roundFloat64 (roundFloat64 sec + roundFloat64 (roundFloat64 nsec / 1000000000))

/-- The expression `int64(d.Seconds())` used by the staleness test. -/
def wholeSeconds (d : Int) : Int := truncToInt64 (Duration.Seconds d)

/-! ## Cache entries and the staleness test -/

/-- Go `CacheValue`: `UpdatedTS int64`, `SoftTTL time.Duration`, `Data string`. -/
structure CacheValue where
  UpdatedTS : Int
  SoftTTL : Int
  Data : String
  deriving DecidableEq, Repr

/-- Go `isPastSoftTTLThreshhold`, with the reading of `time.Now().Unix()` passed in:
`cacheVal.UpdatedTS+int64(cacheVal.SoftTTL.Seconds()) < time.Now().Unix()`. -/
def isPastSoftTTLThreshhold (cacheVal : CacheValue) (now : Int) : Bool :=
  decide (wrapInt64 (cacheVal.UpdatedTS + wholeSeconds cacheVal.SoftTTL) < now)

/-! ## Errors, bytes and collaborators -/

/-- A Go `error` value: either an error created by a collaborator or by
`errors.Errorf`, or `errors.Wrap(cause, msg)`. -/
inductive GoError where
  | mk (msg : String)
  | wrap (cause : GoError) (msg : String)
  deriving DecidableEq, Repr

/-- Go `[]byte`. -/
abbrev Bytes := List UInt8

/-- `constants.NoCompressionType`. -/
def NoCompressionType : Int := 0

/-- `constants.GzipCompressionType`. -/
def GzipCompressionType : Int := 1

/-- `constants.SnappyCompressionType`. -/
def SnappyCompressionType : Int := 2

/-- What the `compress/gzip` writer does with an input: `gzip.NewWriterLevel`,
`writer.Write` or `writer.Close` fails, or the compressed bytes come out. -/
inductive GzipWrite where
  | newWriterErr (err : GoError)
  | writeErr (err : GoError)
  | closeErr (err : GoError)
  | ok (out : Bytes)

/-- What the buffered `snappy` writer does with an input. -/
inductive SnappyWrite where
  | writeErr (err : GoError)
  | closeErr (err : GoError)
  | ok (out : Bytes)

/-- What the `compress/gzip` reader does with an input: `gzip.NewReader`,
`ioutil.ReadAll` or `reader.Close` fails, or the decompressed bytes come out. -/
inductive GzipRead where
  | newReaderErr (err : GoError)
  | readAllErr (err : GoError)
  | closeErr (err : GoError)
  | ok (out : Bytes)

/-- What the `snappy` reader does with an input. -/
inductive SnappyRead where
  | readAllErr (err : GoError)
  | ok (out : Bytes)

/-- The libraries the package calls, for a response type `ρ`: the JSON codec
(`sonic`) on `*response` values and on `*CacheValue`, and the two compression
libraries.  A `*response` is `none` for the nil pointer. -/
structure Lib (ρ : Type) where
  /-- `jsonAPI.MarshalToString(val)` for a `*response` held in an `any`. -/
  MarshalToString : Option ρ → Except GoError String
  /-- `jsonAPI.UnmarshalFromString(data, res)` into `res = new(response)`. -/
  UnmarshalFromString : String → Except GoError ρ
  /-- `json.Marshal(s)` for a `*CacheValue`. -/
  Marshal : CacheValue → Except GoError Bytes
  /-- `json.Unmarshal(b, targetStruct)` into an empty `*CacheValue`. -/
  Unmarshal : Bytes → Except GoError CacheValue
  gzipWriter : Bytes → GzipWrite
  snappyWriter : Bytes → SnappyWrite
  gzipReader : Bytes → GzipRead
  snappyReader : Bytes → SnappyRead

/-- The result pair `(*response, error)` of a Go call. -/
abbrev Result (ρ : Type) := Option ρ × Option GoError

/-- A caller-supplied `func() (*response, error)` acting on the outside world `σ`. -/
abbrev RpcCall (σ ρ : Type) := σ → Result ρ × σ

/-- A caller-supplied `func() bool`. -/
abbrev ReadPredicate (σ : Type) := σ → Bool × σ

/-- A caller-supplied `func(*response) bool`; it is only ever applied to a non-nil
pointer. -/
abbrev WritePredicate (σ ρ : Type) := ρ → σ → Bool × σ

/-- Go `cache.Client`: the two capabilities `GetAPI` and `SetAPI`. -/
structure CacheClient (σ : Type) where
  /-- `GetAPI.Get(ctx, key)`. -/
  GetAPI : String → σ → (Bytes × Option GoError) × σ
  /-- `SetAPI.Set(ctx, key, val, ttl)`. -/
  SetAPI : String → Bytes → Int → σ → Option GoError × σ

/-- Go `metrics.Client`. -/
structure MetricsClient (σ : Type) where
  IncreaseCacheHitMetric : String → σ → σ
  IncreaseCacheMissMetric : String → σ → σ
  IncreaseCacheSoftHitMetric : String → σ → σ

/-- The process-wide policy state of `consts.go` that `getData` reads, the clock and
the libraries.  `cacheProvider` is a configured client; `metricsProvider` is `none`
for the nil pointer. -/
structure Env (σ ρ : Type) where
  skipCache : Bool
  compressionLibrary : Int
  cacheProvider : CacheClient σ
  metricsProvider : Option (MetricsClient σ)
  /-- `time.Now().Unix()`. -/
  timeNowUnix : σ → Int × σ
  lib : Lib ρ

/-! ## Effects -/

/-- An effect on the outside world, as recorded in the trace of a run. -/
inductive Event where
  | cacheGet (key : String)
  | cacheSet (key : String) (val : Bytes) (ttl : Int)
  | rpcCall
  | now (t : Int)
  | hitMetric (metricName : String)
  | missMetric (metricName : String)
  | softHitMetric (metricName : String)
  deriving DecidableEq

/-- A goroutine started by the package, with the values its closure captures:
`go updateCache(ctx, key, resp, softTTL, hardTTL, writeToCache)` of `handleCacheMiss`
and the `go func() { ... }()` of `handleCacheSoftHit`. -/
inductive Task (σ ρ : Type) where
  | updateCache (key : String) (rpcCallResp : Option ρ) (softTTL hardTTL : Int)
      (writeToCache : WritePredicate σ ρ)
  | refresh (key : String) (rpcCall : RpcCall σ ρ) (softTTL hardTTL : Int)
      (writeToCache : WritePredicate σ ρ)

/-- The state of a run: the outside world, the effects performed so far (oldest
first) and the goroutines started so far (oldest first). -/
structure Run (σ ρ : Type) where
  world : σ
  trace : List Event
  spawned : List (Task σ ρ)

/-- A program: a function from the state of the run before it to its result and the
state of the run after it. -/
def Prog (σ ρ α : Type) : Type := Run σ ρ → α × Run σ ρ

/-- Sequencing of programs. -/
instance (σ ρ : Type) : Monad (Prog σ ρ) where
  pure a := fun r => (a, r)
  bind m f := fun r => f (m r).1 (m r).2

/-- Record an effect. -/
def emit {σ ρ : Type} (e : Event) : Prog σ ρ Unit :=
  fun r => ((), { r with trace := r.trace ++ [e] })

/-- The `go` statement. -/
def spawn {σ ρ : Type} (t : Task σ ρ) : Prog σ ρ Unit :=
  fun r => ((), { r with spawned := r.spawned ++ [t] })

/-- Run a collaborator on the outside world. -/
def onWorld {σ ρ α : Type} (f : σ → α × σ) : Prog σ ρ α :=
  fun r => ((f r.world).1, { r with world := (f r.world).2 })

/-- A call of the caller-supplied `rpcCall`. -/
def callRpc {σ ρ : Type} (rpcCall : RpcCall σ ρ) : Prog σ ρ (Result ρ) := do
  emit Event.rpcCall
  onWorld rpcCall

/-- A reading of `time.Now().Unix()`. -/
def timeNowUnix {σ ρ : Type} (env : Env σ ρ) : Prog σ ρ Int := do
  let t ← onWorld env.timeNowUnix
  emit (Event.now t)
  pure t

/-! ## `cache/cache.go` -/

/-- Go `(*cache.Client).Get`. -/
def CacheClient.Get {σ ρ : Type} (c : CacheClient σ) (key : String) :
    Prog σ ρ (Except GoError Bytes) := do
  emit (Event.cacheGet key)
  let r ← onWorld (c.GetAPI key)
  match r.2 with
  | some err => pure (.error (GoError.wrap err "unable to pull from cache"))
  | none => pure (.ok r.1)

/-- Go `(*cache.Client).Set`. -/
def CacheClient.Set {σ ρ : Type} (c : CacheClient σ) (key : String) (val : Bytes)
    (ttl : Int) : Prog σ ρ (Option GoError) := do
  emit (Event.cacheSet key val ttl)
  let err ← onWorld (c.SetAPI key val ttl)
  match err with
  | some e => pure (some (GoError.wrap e "unable to set into cache"))
  | none => pure none

/-! ## `compress.go` and `decompress.go` -/

/-- Go `gzipCompression`. -/
def gzipCompression {ρ : Type} (lib : Lib ρ) (data : Bytes) : Except GoError Bytes :=
  match lib.gzipWriter data with
  | .newWriterErr err => .error (GoError.wrap err "cannot create new gzip writer")
  | .writeErr err => .error (GoError.wrap err "cannot write to gzip")
  | .closeErr err => .error (GoError.wrap err "cannot close writer")
  | .ok out => .ok out

/-- Go `snappyCompression`. -/
def snappyCompression {ρ : Type} (lib : Lib ρ) (data : Bytes) : Except GoError Bytes :=
  match lib.snappyWriter data with
  | .writeErr err => .error (GoError.wrap err "cannot write to snappy")
  | .closeErr err => .error (GoError.wrap err "cannot close writer")
  | .ok out => .ok out

/-- Go `CompressStruct`, for a `*CacheValue`. -/
def CompressStruct {ρ : Type} (lib : Lib ρ) (s : CacheValue) (compressionLibrary : Int) :
    Except GoError Bytes :=
  match lib.Marshal s with
  | .error err => .error (GoError.wrap err "unable to marshal struct")
  | .ok b =>
    if compressionLibrary = GzipCompressionType then gzipCompression lib b
    else if compressionLibrary = SnappyCompressionType then snappyCompression lib b
    else .ok b

/-- Go `gzipDecompression`. -/
def gzipDecompression {ρ : Type} (lib : Lib ρ) (data : Bytes) : Except GoError Bytes :=
  match lib.gzipReader data with
  | .newReaderErr err => .error (GoError.wrap err "cannot create new gzip reader")
  | .readAllErr err => .error (GoError.wrap err "read all failed")
  | .closeErr err => .error (GoError.wrap err "unable to close read all")
  | .ok out => .ok out

/-- Go `snappyDecompression`. -/
def snappyDecompression {ρ : Type} (lib : Lib ρ) (data : Bytes) : Except GoError Bytes :=
  match lib.snappyReader data with
  | .readAllErr err => .error (GoError.wrap err "read all failed")
  | .ok out => .ok out

/-- The `json.Unmarshal` step shared by the three branches of `DecompressStruct`. -/
def unmarshalEntry {ρ : Type} (lib : Lib ρ) (b : Bytes) : Except GoError CacheValue :=
  match lib.Unmarshal b with
  | .error err => .error (GoError.wrap err "unable to unmarshal for struct decompression")
  | .ok v => .ok v

/-- Go `DecompressStruct` into an empty `*CacheValue`: the error, or the value the
target holds afterwards. -/
def DecompressStruct {ρ : Type} (lib : Lib ρ) (data : Bytes) (compressionLibrary : Int) :
    Except GoError CacheValue :=
  if compressionLibrary = GzipCompressionType then
    match gzipDecompression lib data with
    | .error err => .error err
    | .ok b => unmarshalEntry lib b
  else if compressionLibrary = SnappyCompressionType then
    match snappyDecompression lib data with
    | .error err => .error err
    | .ok b => unmarshalEntry lib b
  else unmarshalEntry lib data

/-! ## `heimdall.go` -/

/-- Go `isSkipCache`. -/
def isSkipCache {σ ρ : Type} (env : Env σ ρ) : Bool := env.skipCache

/-- Go `isSkipMetrics`: `metricsProvider == nil`. -/
def isSkipMetrics {σ ρ : Type} (env : Env σ ρ) : Bool := env.metricsProvider.isNone

/-- The statement `if !isSkipMetrics() { metricsProvider.Increase...(ctx, name) }`
shared by the three handlers: `ev` is the effect recorded and `f` the method called. -/
def emitMetric {σ ρ : Type} (env : Env σ ρ) (ev : Event)
    (f : MetricsClient σ → σ → σ) : Prog σ ρ Unit :=
  match env.metricsProvider with
  | none => pure ()
  | some m => do
    emit ev
    onWorld (fun w => ((), f m w))

/-- Go `makeCacheValue`: the JSON of the value, stamped with the clock reading taken
after marshalling has succeeded. -/
def makeCacheValue {σ ρ : Type} (env : Env σ ρ) (val : Option ρ) (softTTL : Int) :
    Prog σ ρ (Except GoError CacheValue) :=
  match env.lib.MarshalToString val with
  | .error err => pure (.error (GoError.wrap err "unable to marshal rpc response"))
  | .ok data => do
    let t ← timeNowUnix env
    pure (.ok { UpdatedTS := t, Data := data, SoftTTL := softTTL })

/-- Go `generateResponseStructFromCacheVal`, into `res = new(response)`. -/
def generateResponseStructFromCacheVal {ρ : Type} (lib : Lib ρ) (cacheVal : CacheValue) :
    Except GoError ρ :=
  match lib.UnmarshalFromString cacheVal.Data with
  | .error err => .error (GoError.wrap err "unable to marshal cache value to rpc response")
  | .ok res => .ok res

/-- Go `generateResp`. -/
def generateResp {ρ : Type} (lib : Lib ρ) (cacheVal : CacheValue) : Result ρ :=
  match generateResponseStructFromCacheVal lib cacheVal with
  | .error err => (none, some err)
  | .ok resp => (some resp, none)

/-- Go `fetchFromCache`. -/
def fetchFromCache {σ ρ : Type} (env : Env σ ρ) (key : String) :
    Prog σ ρ (Except GoError CacheValue) := do
  let r ← env.cacheProvider.Get key
  match r with
  | .error err => pure (.error err)
  | .ok val => pure (DecompressStruct env.lib val env.compressionLibrary)

/-- Go `updateCache`. -/
def updateCache {σ ρ : Type} (env : Env σ ρ) (key : String) (rpcCallResp : Option ρ)
    (softTTL hardTTL : Int) (writeToCache : WritePredicate σ ρ) : Prog σ ρ Unit :=
  match rpcCallResp with
  | none => pure ()
  | some resp => do
    let w ← onWorld (writeToCache resp)
    if w then
      let cacheVal ← makeCacheValue env rpcCallResp softTTL
      match cacheVal with
      | .error _ => pure ()
      | .ok cacheVal =>
        match CompressStruct env.lib cacheVal env.compressionLibrary with
        | .error _ => pure ()
        | .ok compressedData => do
          let _ ← env.cacheProvider.Set key compressedData hardTTL
          pure ()
    else pure ()

/-- Go `handleCacheMiss`. -/
def handleCacheMiss {σ ρ : Type} (env : Env σ ρ) (key : String) (rpcCall : RpcCall σ ρ)
    (softTTL hardTTL : Int) (rpcCallName : String) (writeToCache : WritePredicate σ ρ) :
    Prog σ ρ (Except GoError CacheValue) := do
  emitMetric env (Event.missMetric rpcCallName)
    (fun m => m.IncreaseCacheMissMetric rpcCallName)
  let r ← callRpc rpcCall
  match r.2 with
  | some err => pure (.error (GoError.wrap err "rpc call failed"))
  | none => do
    spawn (Task.updateCache key r.1 softTTL hardTTL writeToCache)
    makeCacheValue env r.1 softTTL

/-- Go `handleCacheSoftHit`. -/
def handleCacheSoftHit {σ ρ : Type} (env : Env σ ρ) (key : String) (rpcCall : RpcCall σ ρ)
    (softTTL hardTTL : Int) (rpcCallName : String) (writeToCache : WritePredicate σ ρ) :
    Prog σ ρ Unit := do
  emitMetric env (Event.softHitMetric rpcCallName)
    (fun m => m.IncreaseCacheSoftHitMetric rpcCallName)
  spawn (Task.refresh key rpcCall softTTL hardTTL writeToCache)

/-- Go `handleCacheHit`. -/
def handleCacheHit {σ ρ : Type} (env : Env σ ρ) (rpcCallName : String) : Prog σ ρ Unit :=
  emitMetric env (Event.hitMetric rpcCallName)
    (fun m => m.IncreaseCacheHitMetric rpcCallName)

/-- The call `isPastSoftTTLThreshhold(result)` inside `getData`: one reading of the
clock, then the comparison. -/
def checkPastSoftTTL {σ ρ : Type} (env : Env σ ρ) (cacheVal : CacheValue) :
    Prog σ ρ Bool := do
  let t ← timeNowUnix env
  pure (isPastSoftTTLThreshhold cacheVal t)

/-- Lines 77 to 83 of `getData`: the statements that follow the `if err != nil` block
of the cache read, run on the entry held in `result`. -/
def getDataAfterRead {σ ρ : Type} (env : Env σ ρ) (rpcCall : RpcCall σ ρ)
    (rpcCallName cacheKey : String) (softTTL hardTTL : Int)
    (writeToCache : WritePredicate σ ρ) (result : CacheValue) : Prog σ ρ (Result ρ) := do
  let past ← checkPastSoftTTL env result
  if past then
    handleCacheSoftHit env cacheKey rpcCall softTTL hardTTL rpcCallName writeToCache
  else pure ()
  handleCacheHit env rpcCallName
  pure (generateResp env.lib result)

/-- Go `getData`. -/
def getData {σ ρ : Type} (env : Env σ ρ) (rpcCall : RpcCall σ ρ) (rpcCallName : String)
    (cacheKey : String) (softTTL hardTTL : Int) (readFromCache : ReadPredicate σ)
    (writeToCache : WritePredicate σ ρ) : Prog σ ρ (Result ρ) := do
  if isSkipCache env then
    callRpc rpcCall
  else
    let rd ← onWorld readFromCache
    if !rd then
      let result ← handleCacheMiss env cacheKey rpcCall softTTL hardTTL rpcCallName writeToCache
      match result with
      | .error err => pure (none, some err)
      | .ok result => pure (generateResp env.lib result)
    else
      let result ← fetchFromCache env cacheKey
      match result with
      | .error _ =>
        let result ← handleCacheMiss env cacheKey rpcCall softTTL hardTTL rpcCallName
          writeToCache
        match result with
        | .error err => pure (none, some err)
        | .ok result =>
          getDataAfterRead env rpcCall rpcCallName cacheKey softTTL hardTTL writeToCache result
      | .ok result =>
        getDataAfterRead env rpcCall rpcCallName cacheKey softTTL hardTTL writeToCache result

/-- What a started goroutine does when it runs: `updateCache` for the write-back of
`handleCacheMiss`; for the closure of `handleCacheSoftHit`,
`resp, err := rpcCall(); if err != nil { return }; updateCache(...)`. -/
def Task.run {σ ρ : Type} (env : Env σ ρ) : Task σ ρ → Prog σ ρ Unit
  | .updateCache key rpcCallResp softTTL hardTTL writeToCache =>
    Heimdall.updateCache env key rpcCallResp softTTL hardTTL writeToCache
  | .refresh key rpcCall softTTL hardTTL writeToCache => do
    let r ← callRpc rpcCall
    match r.2 with
    | some _ => pure ()
    | none => Heimdall.updateCache env key r.1 softTTL hardTTL writeToCache

/-! ## Observations on traces -/

/-- Number of cache `Get` calls in a trace. -/
def numCacheGet (tr : List Event) : Nat :=
  (tr.filter fun e => match e with | .cacheGet _ => true | _ => false).length

/-- Number of cache `Set` calls in a trace. -/
def numCacheSet (tr : List Event) : Nat :=
  (tr.filter fun e => match e with | .cacheSet _ _ _ => true | _ => false).length

/-- Number of invocations of `rpcCall` in a trace. -/
def numRpcCall (tr : List Event) : Nat :=
  (tr.filter fun e => match e with | .rpcCall => true | _ => false).length

/-- Number of metric emissions (hit, miss or soft hit) in a trace. -/
def numMetric (tr : List Event) : Nat :=
  (tr.filter fun e => match e with
    | .hitMetric _ => true | .missMetric _ => true | .softHitMetric _ => true
    | _ => false).length

/-- Number of miss-metric emissions in a trace. -/
def numMissMetric (tr : List Event) : Nat :=
  (tr.filter fun e => match e with | .missMetric _ => true | _ => false).length

/-- Number of clock readings in a trace. -/
def numNow (tr : List Event) : Nat :=
  (tr.filter fun e => match e with | .now _ => true | _ => false).length

/-- The trace entry of a metric emission: present iff a metrics provider is set. -/
def metricEvents {σ ρ : Type} (env : Env σ ρ) (ev : Event) : List Event :=
  match env.metricsProvider with
  | none => []
  | some _ => [ev]

/-- The goroutines among `ts` that are soft-hit refreshes. -/
def refreshes {σ ρ : Type} (ts : List (Task σ ρ)) : List (Task σ ρ) :=
  ts.filter fun t => match t with | .refresh _ _ _ _ _ => true | _ => false

/-- The effects a program adds to the trace when started in `r`. -/
def effects {σ ρ α : Type} (p : Prog σ ρ α) (r : Run σ ρ) : List Event :=
  (p r).2.trace.drop r.trace.length

/-- The goroutines a program starts when started in `r`. -/
def started {σ ρ α : Type} (p : Prog σ ρ α) (r : Run σ ρ) : List (Task σ ρ) :=
  (p r).2.spawned.drop r.spawned.length

/-- The outside world after the statement `emitMetric env ev f`. -/
def metricWorld {σ ρ : Type} (env : Env σ ρ) (f : MetricsClient σ → σ → σ) (w : σ) : σ :=
  match env.metricsProvider with
  | none => w
  | some m => f m w

/-! ## A concrete setting for the examples -/

/-- Three values of one response type that differ in how the JSON codec treats them:
`plain` marshals to `1` and `1` unmarshals to it; `boxed` (a value held behind an
interface-typed field) marshals to `2`, which does not unmarshal into the response
type; `nan` (a NaN float) has no JSON form, so marshalling it fails. -/
inductive Reply where
  | plain
  | boxed
  | nan
  deriving DecidableEq

/-- The libraries of the examples: the JSON codec of `Reply`, a table codec for three
cache entries (stale at time 100, fresh at time 100, fresh with a payload that does not
deserialize) and compression libraries that copy their input. -/
def exLib : Lib Reply where
  MarshalToString := fun val =>
    match val with
    | none => .ok "null"
    | some Reply.plain => .ok "1"
    | some Reply.boxed => .ok "2"
    | some Reply.nan => .error (GoError.mk "json: unsupported value: NaN")
  UnmarshalFromString := fun data =>
    if data = "1" then .ok Reply.plain
    else if data = "null" then .ok Reply.plain
    else .error (GoError.mk "json: cannot unmarshal into Go value")
  Marshal := fun _ => .ok [0]
  Unmarshal := fun b =>
    if b = [1] then .ok ⟨90, 5000000000, "1"⟩
    else if b = [2] then .ok ⟨100, 5000000000, "1"⟩
    else if b = [3] then .ok ⟨100, 5000000000, "2"⟩
    else .error (GoError.mk "json: invalid character")
  gzipWriter := fun b => GzipWrite.ok b
  snappyWriter := fun b => SnappyWrite.ok b
  gzipReader := fun b => GzipRead.ok b
  snappyReader := fun b => SnappyRead.ok b

/-- The environment of the examples.  The outside world is the number of clock readings
taken so far, and the clock shows `100` plus that number; the cache backend answers
every `Get` with `stored` and accepts every `Set`; no compression, no metrics. -/
def exEnv (skip : Bool) (stored : Bytes × Option GoError) : Env Nat Reply where
  skipCache := skip
  compressionLibrary := NoCompressionType
  cacheProvider := ⟨fun _ w => (stored, w), fun _ _ _ w => (none, w)⟩
  metricsProvider := none
  timeNowUnix := fun w => (100 + (w : Int), w + 1)
  lib := exLib

/-- A remote call that always returns `res`. -/
def exRpc (res : Result Reply) : RpcCall Nat Reply := fun w => (res, w)

/-- A read predicate that always returns `b`. -/
def exRead (b : Bool) : ReadPredicate Nat := fun w => (b, w)

/-- A write predicate that always returns `true`. -/
def exWrite : WritePredicate Nat Reply := fun _ w => (true, w)

/-- The run the examples start in: no clock reading, no effect and no goroutine yet. -/
def exRun : Run Nat Reply := ⟨0, [], []⟩

/-! ## `helpers/hash_key.go` and `helpers/helpers.go` -/

/-- Decimal digits of a natural number, most significant first. -/
def decimalDigits (n : Nat) : List Char :=
  if n = 0 then ['0'] else (Nat.digits 10 n).reverse.map Nat.digitChar

/-- The `%d` verb of `fmt.Sprintf` applied to an `int64`: a minus sign for a negative
number, then the decimal digits of its magnitude. -/
def formatDecimal (n : Int) : String :=
  String.mk (if n < 0 then '-' :: decimalDigits n.natAbs else decimalDigits n.toNat)

/-- Go `constructUnhashedKey`:
`fmt.Sprintf("%v:%v:%d:%d:%v", functionName, marshalledReq, int64(softTTL.Seconds()),
int64(hardTTL.Seconds()), version)`. -/
def constructUnhashedKey (functionName marshalledReq : String) (softTTL hardTTL : Int)
    (version : String) : String :=
  functionName ++ ":" ++ marshalledReq ++ ":" ++ formatDecimal (wholeSeconds softTTL)
    ++ ":" ++ formatDecimal (wholeSeconds hardTTL) ++ ":" ++ version

/-- The hash of `crypto/sha512`: `hasher.Write(m); hasher.Sum(nil)` yields a digest of
`sha512.Size = 64` bytes. -/
structure Sha512 where
  sum : Bytes → Bytes
  size : ∀ m, (sum m).length = 64

/-- The alphabet of `base64.URLEncoding`. -/
def base64URLAlphabet : List Char :=
  "ABCDEFGHIJKLMNOPQRSTUVWXYZabcdefghijklmnopqrstuvwxyz0123456789-_".toList

/-- The character of `base64.URLEncoding` for a six-bit value. -/
def base64URLChar (i : Nat) : Char := base64URLAlphabet.getD i 'A'

/-- Go `base64.URLEncoding.EncodeToString`: three bytes become four characters, and a
final group of one or two bytes is padded with `=`. -/
def base64URLEncode : Bytes → List Char
  | [] => []
  | [a] => [base64URLChar (a.toNat / 4), base64URLChar (a.toNat % 4 * 16), '=', '=']
  | [a, b] =>
    [base64URLChar (a.toNat / 4), base64URLChar (a.toNat % 4 * 16 + b.toNat / 16),
      base64URLChar (b.toNat % 16 * 4), '=']
  | a :: b :: c :: rest =>
    base64URLChar (a.toNat / 4) :: base64URLChar (a.toNat % 4 * 16 + b.toNat / 16) ::
      base64URLChar (b.toNat % 16 * 4 + c.toNat / 64) :: base64URLChar (c.toNat % 64) ::
      base64URLEncode rest

/-- The last three statements of `GenerateCacheKey`: the SHA-512 digest of the bytes of
`key`, in `base64.URLEncoding`. -/
def hashKey (digest : Sha512) (key : String) : String :=
  String.mk (base64URLEncode (digest.sum key.toUTF8.data.toList))

/-- Go `GenerateCacheKey` for a request `req any` whose dynamic value, when there is
one, has type `α` and is marshalled by `marshal` (`json.ConfigStd.MarshalToString`):
`req` is `none` for the nil interface value and `some x` for an interface holding `x`
(a typed nil pointer is such an `x`). -/
def GenerateCacheKey {α : Type} (digest : Sha512) (marshal : α → Except GoError String)
    (req : Option α) (functionName : String) (softTTL hardTTL : Int) (version : String) :
    String × Option GoError :=
  match req with
  | none =>
    (hashKey digest (constructUnhashedKey functionName "" softTTL hardTTL version), none)
  | some x =>
    match marshal x with
    | .error err => ("", some (GoError.wrap err ""))
    | .ok marshalledReq =>
      (hashKey digest
        (constructUnhashedKey functionName marshalledReq softTTL hardTTL version), none)

/-- Go `GetFunctionName`, applied to the name `runtime.FuncForPC` reports for the
function: the part after the last `/`, if there is one. -/
def GetFunctionName (name : String) : String :=
  if name.contains '/' then
    match (name.splitOn "/").getLast? with
    | none => name
    | some last => last
  else name

/-- A stand-in for SHA-512 in the examples: the message cut, or padded with zero bytes,
to 64 bytes. -/
def exDigest : Sha512 where
  sum := fun m => (m ++ List.replicate 64 0).take 64
  size := by intro m; simp

/-- Two requests of one request type: `listed` marshals to the JSON `[1,2]`, `cyclic`
has no JSON form. -/
inductive Ask where
  | listed
  | cyclic
  deriving DecidableEq

/-- The JSON marshaller of the examples for a request pointer `*Ask`; the nil pointer
marshals to `null`. -/
def exMarshalReq : Option Ask → Except GoError String
  | none => .ok "null"
  | some Ask.listed => .ok "[1,2]"
  | some Ask.cyclic => .error (GoError.mk "json: unsupported value")

/-- Number of hit-metric emissions in a trace. -/
def numHitMetric (tr : List Event) : Nat :=
  (tr.filter fun e => match e with | .hitMetric _ => true | _ => false).length

/-- Number of soft-hit-metric emissions in a trace. -/
def numSoftHitMetric (tr : List Event) : Nat :=
  (tr.filter fun e => match e with | .softHitMetric _ => true | _ => false).length

/-- A metrics client for the examples whose counters live outside the modelled world. -/
def exMetrics : MetricsClient Nat where
  IncreaseCacheHitMetric := fun _ w => w
  IncreaseCacheMissMetric := fun _ w => w
  IncreaseCacheSoftHitMetric := fun _ w => w

/-- The environment of the examples with the metrics client `exMetrics` configured. -/
def exEnvMetrics (stored : Bytes × Option GoError) : Env Nat Reply where
  skipCache := false
  compressionLibrary := NoCompressionType
  cacheProvider := ⟨fun _ w => (stored, w), fun _ _ _ w => (none, w)⟩
  metricsProvider := some exMetrics
  timeNowUnix := fun w => (100 + (w : Int), w + 1)
  lib := exLib

/-! ## `grpc_adapter.go` -/

/-- The process-wide variables of `consts.go` that the gRPC adapter reads. -/
structure Defaults where
  defaultSoftTTL : Int
  defaultHardTTL : Int
  version : String

/-- The libraries of key derivation for a request type `τ`: SHA-512 and
`json.ConfigStd.MarshalToString` on a request pointer (`none` is the nil pointer). -/
structure KeyLib (τ : Type) where
  digest : Sha512
  MarshalToString : Option τ → Except GoError String

/-- A non-nil gRPC method value
`func(ctx context.Context, req *request, opts ...grpc.CallOption) (*response, error)`:
the name `runtime.FuncForPC` reports for it, and what calling it does.  Contexts have
type `κ` and call options type `ω`. -/
structure GrpcFunc (σ κ τ ω ρ : Type) where
  runtimeName : String
  call : κ → Option τ → List ω → RpcCall σ ρ

/-- Go `wrapGRPCCallFunc`. -/
def wrapGRPCCallFunc {σ κ τ ω ρ : Type} (grpcFunc : GrpcFunc σ κ τ ω ρ) (ctx : κ)
    (req : Option τ) (opts : List ω) : RpcCall σ ρ :=
  grpcFunc.call ctx req opts

/-- Go `GRPCCallWithTTL`; `grpcFunc` is `none` for a nil function value. -/
def GRPCCallWithTTL {σ κ τ ω ρ : Type} (env : Env σ ρ) (klib : KeyLib τ) (d : Defaults)
    (grpcFunc : Option (GrpcFunc σ κ τ ω ρ)) (ctx : κ) (req : Option τ)
    (softTTL hardTTL : Int) (opts : List ω) : Prog σ ρ (Result ρ) :=
  match grpcFunc with
  | none => pure (none, some (GoError.mk "grpcFunc is nil"))
  | some f =>
    match (GenerateCacheKey klib.digest klib.MarshalToString (some req)
        (GetFunctionName f.runtimeName) softTTL hardTTL d.version).2 with
    | some err => pure (none, some err)
    | none =>
      getData env (wrapGRPCCallFunc f ctx req opts) (GetFunctionName f.runtimeName)
        (GenerateCacheKey klib.digest klib.MarshalToString (some req)
          (GetFunctionName f.runtimeName) softTTL hardTTL d.version).1
        softTTL hardTTL (fun w => (true, w)) (fun _ w => (true, w))

/-- Go `GRPCCall`: `GRPCCallWithTTL(grpcFunc, ctx, req, defaultSoftTTL, defaultHardTTL)`,
a call that passes no call options on. -/
def GRPCCall {σ κ τ ω ρ : Type} (env : Env σ ρ) (klib : KeyLib τ) (d : Defaults)
    (grpcFunc : Option (GrpcFunc σ κ τ ω ρ)) (ctx : κ) (req : Option τ)
    (_opts : List ω) : Prog σ ρ (Result ρ) :=
  GRPCCallWithTTL env klib d grpcFunc ctx req d.defaultSoftTTL d.defaultHardTTL []

/-- The key libraries of the examples. -/
def exKeyLib : KeyLib Ask := ⟨exDigest, exMarshalReq⟩

/-- The defaults of the test configuration: soft TTL 10s, hard TTL 40s, no version. -/
def exDefaults : Defaults := ⟨10000000000, 40000000000, ""⟩

/-- A gRPC method for the examples that always returns `res`. -/
def exGrpc (res : Result Reply) : GrpcFunc Nat Unit Ask Unit Reply :=
  ⟨"TestRPCCall", fun _ _ _ w => (res, w)⟩

/-! ## `CompressStruct` and `DecompressStruct` on values of any type -/

/-- Go `CompressStruct(ctx, s, compressionLibrary)` for a value `s` of a type `α` whose
`json.Marshal` is `marshal`. -/
def CompressStructOf {ρ α : Type} (lib : Lib ρ) (marshal : α → Except GoError Bytes)
    (s : α) (compressionLibrary : Int) : Except GoError Bytes :=
  match marshal s with
  | .error err => .error (GoError.wrap err "unable to marshal struct")
  | .ok b =>
    if compressionLibrary = GzipCompressionType then gzipCompression lib b
    else if compressionLibrary = SnappyCompressionType then snappyCompression lib b
    else .ok b

/-- Go `DecompressStruct(ctx, data, targetStruct, compressionLibrary)` for a target of a
type `α` whose `json.Unmarshal` into an empty target is `unmarshal`: the error, or the
value the target holds afterwards. -/
def DecompressStructOf {ρ α : Type} (lib : Lib ρ) (unmarshal : Bytes → Except GoError α)
    (data : Bytes) (compressionLibrary : Int) : Except GoError α :=
  let decode := fun (b : Bytes) =>
    match unmarshal b with
    | .error err =>
      Except.error (GoError.wrap err "unable to unmarshal for struct decompression")
    | .ok v => Except.ok v
  if compressionLibrary = GzipCompressionType then
    match gzipDecompression lib data with
    | .error err => .error err
    | .ok b => decode b
  else if compressionLibrary = SnappyCompressionType then
    match snappyDecompression lib data with
    | .error err => .error err
    | .ok b => decode b
  else decode data

/-- A struct with one unexported field, which the JSON codec skips. -/
structure Hidden where
  secret : Nat
  deriving DecidableEq

/-- The JSON marshaller of `Hidden`: the empty object, bytes 123 and 125. -/
def exMarshalHidden : Hidden → Except GoError Bytes := fun _ => .ok [123, 125]

/-- The JSON unmarshaller of `Hidden` into an empty target: an object leaves the
unexported field at its zero value. -/
def exUnmarshalHidden : Bytes → Except GoError Hidden := fun b =>
  if b = [123, 125] then .ok ⟨0⟩ else .error (GoError.mk "json: invalid character")

/-! ## `cache/init.go`, `cache/custom.go`, `cache/redis.go`, `metrics/init.go` -/

/-- `constants.CustomCacheType`. -/
def CustomCacheType : Int := 1

/-- `constants.RedisCacheType`. -/
def RedisCacheType : Int := 2

/-- `constants.SingularRedisType`. -/
def SingularRedisType : Int := 1

/-- `constants.ClusterRedisType`. -/
def ClusterRedisType : Int := 2

/-- `metrics.CustomMetricsType`. -/
def CustomMetricsType : Int := 1

/-- Go `helpers.TernaryOp`. -/
def TernaryOp {T : Type} (condition : Bool) (trueVal falseVal : T) : T :=
  if condition then trueVal else falseVal

/-- Go `cache.Client` at configuration time: the two interface values, of a type `A` of
cache capabilities, `none` for nil. -/
structure Client (A : Type) where
  GetAPI : Option A
  SetAPI : Option A

/-- Go `cache.CustomConfig`. -/
structure CustomConfig (A : Type) where
  Client : Option A

/-- Go `redis.Options`, of which only the address is kept; the value is only handed to
the redis library. -/
structure RedisOptions where
  Addr : String

/-- Go `redis.ClusterOptions`, of which only the addresses are kept. -/
structure ClusterOptions where
  Addrs : List String

/-- Go `cache.RedisConfig`. -/
structure RedisConfig where
  RedisServerType : Int
  SingularConfig : Option RedisOptions
  ClusterConfig : Option ClusterOptions

/-- Go `cache.Config`. -/
structure CacheConfig (A : Type) where
  CacheProvider : Int
  CustomConfiguration : Option (CustomConfig A)
  RedisConfiguration : Option RedisConfig

/-- Go `metrics.Config`, with `MC` the type `metrics.CustomConfig`. -/
structure MetricsConfig (MC : Type) where
  MetricsProvider : Int
  CustomConfiguration : Option MC

/-- What initialisation calls outside the sources at hand: the redis library (creating a
client is `NewClient`, reaching the server is `Ping`) and the function `newCustom` of
the metrics package, whose file is not among the sources.  `nilRedisClient` is the
capability an interface value has when it holds a nil `*wrappedRedisClient`. -/
structure InitLib (A MC M : Type) where
  NewClient : RedisOptions → A
  Ping : RedisOptions → Option GoError
  NewClusterClient : ClusterOptions → A
  ForEachShardPing : ClusterOptions → Option GoError
  newCustomMetrics : Option MC → Option M × Option GoError
  nilRedisClient : A

/-- Go `cache.newCustom`. -/
def newCustom {A : Type} (cfg : Option (CustomConfig A)) :
    Option (Client A) × Option GoError :=
  match cfg with
  | none => (none, some (GoError.mk "nil ptr passed in for custom cache config"))
  | some cfg => (some ⟨cfg.Client, cfg.Client⟩, none)

/-- Go `newRedisSingular`. -/
def newRedisSingular {A MC M : Type} (lib : InitLib A MC M) (cfg : RedisOptions) :
    Option A × Option GoError :=
  match lib.Ping cfg with
  | some err => (none, some (GoError.wrap err "unable to successfully connect to redis"))
  | none => (some (lib.NewClient cfg), none)

/-- Go `newRedisCluster`. -/
def newRedisCluster {A MC M : Type} (lib : InitLib A MC M) (cfg : ClusterOptions) :
    Option A × Option GoError :=
  match lib.ForEachShardPing cfg with
  | some err => (none, some (GoError.wrap err "unable to reach a shard"))
  | none => (some (lib.NewClusterClient cfg), none)

/-- The interface value that `&Client{GetAPI: rdb, SetAPI: rdb}` stores for a pointer
`rdb` of type `*wrappedRedisClient`: it is never the nil interface, also when `rdb` is
the nil pointer (`none`). -/
def redisInterface {A MC M : Type} (lib : InitLib A MC M) (rdb : Option A) : Option A :=
  match rdb with
  | none => some lib.nilRedisClient
  | some c => some c

/-- Go `newRedis`: `rdb` stays the nil pointer for a server type other than the two of
the `switch` and after a failed connection. -/
def newRedis {A MC M : Type} (lib : InitLib A MC M) (config : Option RedisConfig) :
    Option (Client A) × Option GoError :=
  match config with
  | none => (none, some (GoError.mk "nil ptr redis config passed in"))
  | some config =>
    if config.RedisServerType = SingularRedisType then
      match config.SingularConfig with
      | none => (none, some (GoError.mk "nil ptr redis singular config passed in"))
      | some sc =>
        (some ⟨redisInterface lib (newRedisSingular lib sc).1,
            redisInterface lib (newRedisSingular lib sc).1⟩,
          (newRedisSingular lib sc).2)
    else if config.RedisServerType = ClusterRedisType then
      match config.ClusterConfig with
      | none => (none, some (GoError.mk "nil ptr redis cluster config passed in"))
      | some cc =>
        (some ⟨redisInterface lib (newRedisCluster lib cc).1,
            redisInterface lib (newRedisCluster lib cc).1⟩,
          (newRedisCluster lib cc).2)
    else (some ⟨redisInterface lib none, redisInterface lib none⟩, none)

/-- Go `(*cache.Config).Validate`. -/
def CacheConfig.Validate {A : Type} (c : CacheConfig A) : Option GoError :=
  if c.CacheProvider = CustomCacheType then
    if c.CustomConfiguration.isNone then
      TernaryOp c.CustomConfiguration.isNone (some (GoError.mk "custom cache config is nil"))
        none
    else none
  else if c.CacheProvider = RedisCacheType then
    TernaryOp c.RedisConfiguration.isNone (some (GoError.mk "redis configuration is nil"))
      none
  else some (GoError.mk "cache type is not supported")

/-- Go `(*cache.Config).Freeze`; the receiver is `none` for a nil pointer. -/
def CacheConfig.Freeze {A MC M : Type} (lib : InitLib A MC M) (c : Option (CacheConfig A)) :
    Option (Client A) × Option GoError :=
  match c with
  | none => (none, some (GoError.mk "config, is nil"))
  | some c =>
    if c.CacheProvider = CustomCacheType then newCustom c.CustomConfiguration
    else if c.CacheProvider = RedisCacheType then newRedis lib c.RedisConfiguration
    else (none, some (GoError.mk
      ("cache type " ++ formatDecimal c.CacheProvider ++ " is not supported")))

/-- Go `(*metrics.Config).Freeze`; the receiver is `none` for a nil pointer. -/
def MetricsConfig.Freeze {A MC M : Type} (lib : InitLib A MC M)
    (c : Option (MetricsConfig MC)) : Option M × Option GoError :=
  match c with
  | none => (none, some (GoError.mk "config, is nil"))
  | some c =>
    if c.MetricsProvider = CustomMetricsType then lib.newCustomMetrics c.CustomConfiguration
    else (none, some (GoError.mk
      ("metric type " ++ formatDecimal c.MetricsProvider ++ " is not supported")))

/-! ## `init.go` and `consts.go` -/

/-- Go `heimdall.Config`. -/
structure Config (A MC : Type) where
  DefaultSoftTTL : Int
  DefaultHardTTL : Int
  CacheConfig : CacheConfig A
  EnableMetricsEmission : Bool
  MetricsConfig : Option (MetricsConfig MC)
  SkipCache : Bool
  CompressionLibrary : Int
  Version : String

/-- The process-wide variables of `consts.go`. -/
structure Globals (A M : Type) where
  defaultSoftTTL : Int
  defaultHardTTL : Int
  cacheProvider : Option (Client A)
  metricsProvider : Option M
  skipCache : Bool
  compressionLibrary : Int
  version : String

/-- The state of the package in a process: its variables, and whether `initOnce` has
been used. -/
structure Process (A M : Type) where
  vars : Globals A M
  initOnce : Bool

/-- Go `(*Config).validate`. -/
def Config.validate {A MC : Type} (c : Config A MC) : Option GoError :=
  if c.SkipCache then none
  else if c.DefaultHardTTL = 0 then
    some (GoError.mk
      "hard ttl is not set, if you want to disable cache, set SkipCache to true")
  else if c.DefaultHardTTL < c.DefaultSoftTTL then
    some (GoError.mk ("hard ttl is less than soft ttl, if you want to disable soft TTL " ++
      "behavior, set DefaultSoftTTL to HardTTL"))
  else
    match c.CacheConfig.Validate with
    | some err => some err
    | none =>
      if c.CompressionLibrary < 0 ∨ c.CompressionLibrary > 3 then
        some (GoError.mk "invalid compression library type specified.")
      else none

/-- Go `(*Config).freeze`, with the seven `Inject...` assignments at its end. -/
def Config.freeze {A MC M : Type} (lib : InitLib A MC M) (c : Config A MC)
    (g : Globals A M) : Option GoError × Globals A M :=
  match c.validate with
  | some err => (some err, g)
  | none =>
    match (CacheConfig.Freeze lib (some c.CacheConfig)).2 with
    | some err => (some err, g)
    | none =>
      let install := fun (metricsProv : Option M) =>
        ((none : Option GoError),
          ({ defaultSoftTTL := c.DefaultSoftTTL, defaultHardTTL := c.DefaultHardTTL,
             cacheProvider := (CacheConfig.Freeze lib (some c.CacheConfig)).1,
             metricsProvider := metricsProv, skipCache := c.SkipCache,
             compressionLibrary := c.CompressionLibrary, version := c.Version } :
            Globals A M))
      if c.EnableMetricsEmission && c.MetricsConfig.isSome then
        match (MetricsConfig.Freeze lib c.MetricsConfig).2 with
        | some err => (some err, g)
        | none => install (MetricsConfig.Freeze lib c.MetricsConfig).1
      else install none

/-- Go `Init`: `initOnce.Do` runs `freeze` on the first call only, and a later call
returns the nil error its local variable starts with. -/
def Init {A MC M : Type} (lib : InitLib A MC M) (cfg : Config A MC) (p : Process A M) :
    Option GoError × Process A M :=
  if p.initOnce then (none, p)
  else ((cfg.freeze lib p.vars).1, ⟨(cfg.freeze lib p.vars).2, true⟩)

/-- An initialisation library for the examples: redis is unreachable and the metrics
package accepts every custom configuration. -/
def exInitLib : InitLib Unit Unit Unit where
  NewClient := fun _ => ()
  Ping := fun _ => some (GoError.mk "dial tcp: connection refused")
  NewClusterClient := fun _ => ()
  ForEachShardPing := fun _ => some (GoError.mk "dial tcp: connection refused")
  newCustomMetrics := fun _ => (some (), none)
  nilRedisClient := ()

/-- The process before `Init`: every variable at its zero value. -/
def exProcess : Process Unit Unit := ⟨⟨0, 0, none, none, false, 0, ""⟩, false⟩

/-- The test configuration (custom cache, no metrics) with the given TTLs and
`SkipCache` flag. -/
def exConfig (soft hard : Int) (skip : Bool) : Config Unit Unit where
  DefaultSoftTTL := soft
  DefaultHardTTL := hard
  CacheConfig := ⟨CustomCacheType, some ⟨some ()⟩, none⟩
  EnableMetricsEmission := false
  MetricsConfig := none
  SkipCache := skip
  CompressionLibrary := NoCompressionType
  Version := ""

/-- Go `ToggleCache` (`heimdall.go`): the assignment `skipCache = isCacheEnabled`. -/
def ToggleCache {A M : Type} (isCacheEnabled : Bool) (g : Globals A M) : Globals A M :=
  { g with skipCache := isCacheEnabled }

/-- A sequence of `Init` calls in one process, one call per configuration of the list:
the errors the calls return, in order, and the process after the last call. -/
def initCalls {A MC M : Type} (lib : InitLib A MC M) :
    List (Config A MC) → Process A M → List (Option GoError) × Process A M
  | [], p => ([], p)
  | cfg :: rest, p =>
    ((Init lib cfg p).1 :: (initCalls lib rest (Init lib cfg p).2).1,
      (initCalls lib rest (Init lib cfg p).2).2)

/-- The test configuration (soft TTL 10s, hard TTL 40s, cache enabled) with the
compression selector `sel`. -/
def exConfigSelector (sel : Int) : Config Unit Unit :=
  { exConfig 10000000000 40000000000 false with CompressionLibrary := sel }

/-- The test configuration with metrics emission switched on and the metrics
configuration `mc` (`none` for a nil pointer). -/
def exConfigMetrics (mc : Option (MetricsConfig Unit)) : Config Unit Unit :=
  { exConfig 10000000000 40000000000 false with
    EnableMetricsEmission := true, MetricsConfig := mc }

/-- A configuration that switches the cache off and leaves every other field at its
zero value, so that `CacheConfig` names no cache provider. -/
def exConfigNoBackend : Config Unit Unit :=
  { exConfig 0 0 true with CacheConfig := ⟨0, none, none⟩ }

/-- A gRPC method for the examples that shows whether call options reach it: it
returns `plain` when called without options and `boxed` when called with some. -/
def exGrpcOpts : GrpcFunc Nat Unit Ask Unit Reply :=
  ⟨"TestRPCCall", fun _ _ opts w =>
    (if opts.isEmpty then (some Reply.plain, none) else (some Reply.boxed, none), w)⟩

/-- What a program adds to a run: from every state, `p` only appends to the trace,
every effect it appends satisfies `P`, it only appends to the goroutines started, and
every goroutine it starts satisfies `Q`. -/
def Adds {σ ρ α : Type} (P : Event → Prop) (Q : Task σ ρ → Prop) (p : Prog σ ρ α) : Prop :=
  ∀ r : Run σ ρ, ∃ evs ts, (p r).2.trace = r.trace ++ evs ∧
    (p r).2.spawned = r.spawned ++ ts ∧ (∀ e ∈ evs, P e) ∧ ∀ t ∈ ts, Q t

/-- An effect other than a cache `Set`. -/
def notCacheSet (e : Event) : Prop := ∀ key val ttl, e ≠ Event.cacheSet key val ttl

/-- The two goroutines `getData` can start for a call: the write-back of a response of
`rpcCall` after a miss, and the refresh after a soft hit. -/
def isDetached {σ ρ : Type} (cacheKey : String) (rpcCall : RpcCall σ ρ)
    (softTTL hardTTL : Int) (writeToCache : WritePredicate σ ρ) (t : Task σ ρ) : Prop :=
  (∃ resp, t = Task.updateCache cacheKey resp softTTL hardTTL writeToCache) ∨
    t = Task.refresh cacheKey rpcCall softTTL hardTTL writeToCache

/-- The libraries together with what `compress/gzip` and `snappy` guarantee for the
memory buffers that `compress.go` and `decompress.go` hand them: a writer into a
`bytes.Buffer` does not fail, and the reader restores what the writer was given. -/
structure LosslessLib (ρ : Type) extends Lib ρ where
  gzip_restores : ∀ b, ∃ z, gzipWriter b = GzipWrite.ok z ∧ gzipReader z = GzipRead.ok b
  snappy_restores : ∀ b, ∃ z,
    snappyWriter b = SnappyWrite.ok z ∧ snappyReader z = SnappyRead.ok b

/-- Libraries for the examples that change the bytes they are given: the JSON codec of
`CacheValue` is a table for three entries that both directions agree on, the gzip
writer puts the two bytes of the gzip magic number in front and the snappy writer the
byte 255, and the readers take them off again. -/
def exCodecLib : Lib Reply where
  MarshalToString := exLib.MarshalToString
  UnmarshalFromString := exLib.UnmarshalFromString
  Marshal := fun cv =>
    if cv = ⟨90, 5000000000, "1"⟩ then .ok [1]
    else if cv = ⟨100, 5000000000, "1"⟩ then .ok [2]
    else if cv = ⟨100, 5000000000, "2"⟩ then .ok [3]
    else .ok [0]
  Unmarshal := exLib.Unmarshal
  gzipWriter := fun b => GzipWrite.ok (31 :: 139 :: b)
  snappyWriter := fun b => SnappyWrite.ok (255 :: b)
  gzipReader := fun b =>
    match b with
    | 31 :: 139 :: rest => GzipRead.ok rest
    | _ => GzipRead.newReaderErr (GoError.mk "gzip: invalid header")
  snappyReader := fun b =>
    match b with
    | 255 :: rest => SnappyRead.ok rest
    | _ => SnappyRead.readAllErr (GoError.mk "snappy: corrupt input")

/-- The libraries `exCodecLib` with the proof that their readers restore what their
writers were given. -/
def exLossless : LosslessLib Reply where
  toLib := exCodecLib
  gzip_restores := fun b => ⟨31 :: 139 :: b, rfl, rfl⟩
  snappy_restores := fun b => ⟨255 :: b, rfl, rfl⟩

/-- The environment of the examples with the libraries `exCodecLib` and the compression
selector `sel`. -/
def exCodecEnv (sel : Int) (stored : Bytes × Option GoError) : Env Nat Reply where
  skipCache := false
  compressionLibrary := sel
  cacheProvider := ⟨fun _ w => (stored, w), fun _ _ _ w => (none, w)⟩
  metricsProvider := none
  timeNowUnix := fun w => (100 + (w : Int), w + 1)
  lib := exCodecLib

/-- The struct of `decompress_test.go`: two exported fields. -/
structure TestStruct where
  Foo : String
  World : Int
  deriving DecidableEq

/-- The JSON marshaller of `TestStruct` on the value of the tests, as a table: the value
with `Foo` `Bar` and `World` 42 has the JSON bytes `[66, 42]`. -/
def exMarshalTest : TestStruct → Except GoError Bytes := fun s =>
  if s = ⟨"Bar", 42⟩ then .ok [66, 42] else .ok [0]

/-- The JSON unmarshaller of `TestStruct` into an empty target, as a table. -/
def exUnmarshalTest : Bytes → Except GoError TestStruct := fun b =>
  if b = [66, 42] then .ok ⟨"Bar", 42⟩
  else .error (GoError.mk "json: invalid character")

/-- An outside world that counts the clock readings and the calls of each method of the
metrics client. -/
structure Tally where
  clock : Nat
  hits : Nat
  misses : Nat
  softHits : Nat
  deriving DecidableEq

/-- A metrics client that counts its calls in the outside world. -/
def tallyMetrics : MetricsClient Tally where
  IncreaseCacheHitMetric := fun _ w => { w with hits := w.hits + 1 }
  IncreaseCacheMissMetric := fun _ w => { w with misses := w.misses + 1 }
  IncreaseCacheSoftHitMetric := fun _ w => { w with softHits := w.softHits + 1 }

/-- The environment of the examples over the world `Tally`, with the metrics client
`tallyMetrics`; the clock shows `100` plus the number of readings taken. -/
def exEnvTally (stored : Bytes × Option GoError) : Env Tally Reply where
  skipCache := false
  compressionLibrary := NoCompressionType
  cacheProvider := ⟨fun _ w => (stored, w), fun _ _ _ w => (none, w)⟩
  metricsProvider := some tallyMetrics
  timeNowUnix := fun w => (100 + (w.clock : Int), { w with clock := w.clock + 1 })
  lib := exLib

/-! ## Facts about the number model -/

theorem roundHalfEven_le (y : ℚ) (M : ℤ) (h : y < (M : ℚ) + 1 / 2) :
    roundHalfEven y ≤ M := by
  have hf : ((⌊y⌋ : ℤ) : ℚ) ≤ y := Int.floor_le y
  unfold roundHalfEven
  simp only
  have key : ∀ (a : ℤ), (a : ℚ) < (M : ℚ) + 1 → a ≤ M := by
    intro a ha
    have : (a : ℚ) < ((M + 1 : ℤ) : ℚ) := by push_cast; exact ha
    have := Int.cast_lt.mp this
    omega
  split_ifs with h1 h2 h3
  · apply key; linarith
  · have : ((⌊y⌋ + 1 : ℤ) : ℚ) < (M : ℚ) + 1 := by push_cast; linarith
    exact key _ this
  · apply key; linarith
  · have ht : y - (⌊y⌋ : ℚ) = 1 / 2 := le_antisymm (not_lt.mp h2) (not_lt.mp h1)
    have : ((⌊y⌋ + 1 : ℤ) : ℚ) < (M : ℚ) + 1 := by push_cast; linarith
    exact key _ this

theorem roundHalfEven_ge (y : ℚ) (M : ℤ) (h : (M : ℚ) - 1 / 2 < y) :
    M ≤ roundHalfEven y := by
  have hf : y < ((⌊y⌋ : ℤ) : ℚ) + 1 := Int.lt_floor_add_one y
  unfold roundHalfEven
  simp only
  have key : ∀ (a : ℤ), (M : ℚ) < (a : ℚ) + 1 → M ≤ a := by
    intro a ha
    have : (M : ℚ) < ((a + 1 : ℤ) : ℚ) := by push_cast; exact ha
    have := Int.cast_lt.mp this
    omega
  split_ifs with h1 h2 h3
  · apply key; linarith
  · have : (M : ℚ) < ((⌊y⌋ + 1 : ℤ) : ℚ) + 1 := by push_cast; linarith
    exact key _ this
  · have ht : y - (⌊y⌋ : ℚ) = 1 / 2 := le_antisymm (not_lt.mp h2) (not_lt.mp h1)
    apply key; linarith
  · have : (M : ℚ) < ((⌊y⌋ + 1 : ℤ) : ℚ) + 1 := by push_cast; linarith
    exact key _ this

/-- A multiple `c` of the unit in the last place of `x` that lies below `x` plus half
a unit is a lower bound of the rounded value. -/
theorem roundFloat64_ge (x c : ℚ) (z : ℤ)
    (hc : c = z * 2 ^ (Int.log 2 |x| - 52))
    (h : c - 2 ^ (Int.log 2 |x| - 52) / 2 < x) : c ≤ roundFloat64 x := by
  have hP : (0 : ℚ) < 2 ^ (Int.log 2 |x| - 52) := zpow_pos (by norm_num) _
  unfold roundFloat64
  simp only
  rw [hc]
  apply mul_le_mul_of_nonneg_right _ hP.le
  have : z ≤ roundHalfEven (x / 2 ^ (Int.log 2 |x| - 52)) := by
    apply roundHalfEven_ge
    rw [lt_div_iff₀ hP]
    rw [hc] at h
    linarith
  exact_mod_cast this

/-- A multiple `c` of the unit in the last place of `x` that lies above `x` minus half
a unit is an upper bound of the rounded value. -/
theorem roundFloat64_le (x c : ℚ) (z : ℤ)
    (hc : c = z * 2 ^ (Int.log 2 |x| - 52))
    (h : x < c + 2 ^ (Int.log 2 |x| - 52) / 2) : roundFloat64 x ≤ c := by
  have hP : (0 : ℚ) < 2 ^ (Int.log 2 |x| - 52) := zpow_pos (by norm_num) _
  unfold roundFloat64
  simp only
  rw [hc]
  apply mul_le_mul_of_nonneg_right _ hP.le
  have : roundHalfEven (x / 2 ^ (Int.log 2 |x| - 52)) ≤ z := by
    apply roundHalfEven_le
    rw [div_lt_iff₀ hP]
    rw [hc] at h
    linarith
  exact_mod_cast this

theorem grid_mem (e : ℤ) (k : ℕ) (he : e ≤ -(k : ℤ)) (m : ℤ) :
    ∃ z : ℤ, (m : ℚ) / 2 ^ k = z * 2 ^ e := by
  obtain ⟨n, hn⟩ : ∃ n : ℕ, -e - k = n := ⟨(-e - k).toNat, by omega⟩
  refine ⟨m * 2 ^ n, ?_⟩
  have he' : e = -((k + n : ℕ) : ℤ) := by push_cast; omega
  rw [he', zpow_neg, zpow_natCast]
  push_cast
  field_simp
  ring

theorem ulp_exp_le (x : ℚ) (t : ℕ) (ht : 1 ≤ t) (h : |x| < 2 ^ t) :
    Int.log 2 |x| - 52 ≤ (t : ℤ) - 53 := by
  rcases eq_or_lt_of_le (abs_nonneg x) with h0 | hpos
  · rw [← h0, Int.log_of_right_le_zero 2 le_rfl]; omega
  · have h2 : |x| < ((2 : ℕ) : ℚ) ^ (t : ℤ) := by
      rw [zpow_natCast]; exact_mod_cast h
    have : Int.log 2 |x| < (t : ℤ) := (Int.lt_zpow_iff_log_lt (by norm_num) hpos).mp h2
    omega

/-- Every integer below `2 ^ 53` in magnitude is a binary64 value: `float64(n)` is exact. -/
theorem roundFloat64_intCast (n : ℤ) (h : |n| < 2 ^ 53) : roundFloat64 (n : ℚ) = n := by
  have hq : |(n : ℚ)| < 2 ^ 53 := by exact_mod_cast h
  have he := ulp_exp_le (n : ℚ) 53 (by norm_num) hq
  have hP : (0 : ℚ) < 2 ^ (Int.log 2 |(n : ℚ)| - 52) := zpow_pos (by norm_num) _
  obtain ⟨z, hz⟩ := grid_mem (Int.log 2 |(n : ℚ)| - 52) 0 (by push_cast at he ⊢; omega) n
  have hc : (n : ℚ) = z * 2 ^ (Int.log 2 |(n : ℚ)| - 52) := by simpa using hz
  exact le_antisymm (roundFloat64_le _ _ z hc (by linarith))
    (roundFloat64_ge _ _ z hc (by linarith))

/-- The float quotient `float64(nsec)/1e9` of a nanosecond remainder stays at least
`2 ^ (-30)` away from `±1`. -/
theorem frac_bounds (nsec : ℤ) (h : |nsec| < 1000000000) :
    -(1 - 1025 / 2 ^ 40 : ℚ) ≤ roundFloat64 (roundFloat64 nsec / 1000000000) ∧
      roundFloat64 (roundFloat64 nsec / 1000000000) ≤ 1 - 1025 / 2 ^ 40 ∧
      (0 ≤ nsec → 0 ≤ roundFloat64 (roundFloat64 nsec / 1000000000)) ∧
      (nsec ≤ 0 → roundFloat64 (roundFloat64 nsec / 1000000000) ≤ 0) := by
  rw [roundFloat64_intCast nsec (lt_trans h (by norm_num))]
  have hb := abs_lt.mp h
  have h1 : (-1000000000 : ℚ) < nsec := by exact_mod_cast hb.1
  have h2 : (nsec : ℚ) < 1000000000 := by exact_mod_cast hb.2
  have h1' : (-999999999 : ℚ) ≤ nsec := by
    have : (-999999999 : ℤ) ≤ nsec := by omega
    exact_mod_cast this
  have h2' : (nsec : ℚ) ≤ 999999999 := by
    have : nsec ≤ (999999999 : ℤ) := by omega
    exact_mod_cast this
  set q : ℚ := (nsec : ℚ) / 1000000000 with hq
  have hqlo : -(999999999 / 1000000000 : ℚ) ≤ q := by
    rw [hq, le_div_iff₀ (by norm_num)]; linarith
  have hqhi : q ≤ 999999999 / 1000000000 := by
    rw [hq, div_le_iff₀ (by norm_num)]; linarith
  have habs : |q| < 2 ^ 1 := by
    rw [abs_lt]; constructor <;> norm_num <;> linarith
  have he := ulp_exp_le q 1 le_rfl habs
  have hP : (0 : ℚ) < 2 ^ (Int.log 2 |q| - 52) := zpow_pos (by norm_num) _
  obtain ⟨zhi, hzhi⟩ := grid_mem (Int.log 2 |q| - 52) 40 (by push_cast at he ⊢; omega)
    (2 ^ 40 - 1025)
  obtain ⟨zlo, hzlo⟩ := grid_mem (Int.log 2 |q| - 52) 40 (by push_cast at he ⊢; omega)
    (-(2 ^ 40 - 1025))
  obtain ⟨z0, hz0⟩ := grid_mem (Int.log 2 |q| - 52) 0 (by push_cast at he ⊢; omega) 0
  refine ⟨?_, ?_, ?_, ?_⟩
  · apply roundFloat64_ge q _ zlo _ _
    · rw [← hzlo]; norm_num
    · norm_num at hqlo ⊢; linarith
  · apply roundFloat64_le q _ zhi _ _
    · rw [← hzhi]; norm_num
    · norm_num at hqhi ⊢; linarith
  · intro hn
    have : (0 : ℚ) ≤ q := div_nonneg (by exact_mod_cast hn) (by norm_num)
    apply roundFloat64_ge q _ z0 _ _
    · rw [← hz0]; norm_num
    · linarith
  · intro hn
    have : q ≤ 0 := div_nonpos_of_nonpos_of_nonneg (by exact_mod_cast hn) (by norm_num)
    apply roundFloat64_le q _ z0 _ _
    · rw [← hz0]; norm_num
    · linarith

/-- Adding a fraction that stays `2 ^ (-30)` away from `±1` to a whole number of
seconds below `2 ^ 24` rounds to a float strictly inside the same unit interval. -/
theorem sum_bounds (sec : ℤ) (r : ℚ) (hs : |sec| < 2 ^ 24)
    (hr1 : -(1 - 1025 / 2 ^ 40 : ℚ) ≤ r) (hr2 : r ≤ 1 - 1025 / 2 ^ 40) :
    (0 ≤ sec → 0 ≤ r →
      (sec : ℚ) ≤ roundFloat64 (sec + r) ∧ roundFloat64 (sec + r) < sec + 1) ∧
    (sec ≤ 0 → r ≤ 0 →
      (sec : ℚ) - 1 < roundFloat64 (sec + r) ∧ roundFloat64 (sec + r) ≤ sec) := by
  have hb := abs_lt.mp hs
  have h1 : (-(2 ^ 24 - 1) : ℚ) ≤ sec := by
    have : (-(2 ^ 24 - 1) : ℤ) ≤ sec := by omega
    exact_mod_cast this
  have h2 : (sec : ℚ) ≤ 2 ^ 24 - 1 := by
    have : sec ≤ (2 ^ 24 - 1 : ℤ) := by omega
    exact_mod_cast this
  have habs : |(sec : ℚ) + r| < 2 ^ 24 := by
    rw [abs_lt]; constructor <;> norm_num at hr1 hr2 h1 h2 ⊢ <;> linarith
  have he := ulp_exp_le ((sec : ℚ) + r) 24 (by norm_num) habs
  have hP : (0 : ℚ) < 2 ^ (Int.log 2 |(sec : ℚ) + r| - 52) := zpow_pos (by norm_num) _
  have hP2 : (2 : ℚ) ^ (Int.log 2 |(sec : ℚ) + r| - 52) ≤ 2 ^ (-29 : ℤ) :=
    zpow_le_zpow_right₀ (by norm_num) (by push_cast at he; omega)
  have hP3 : (2 : ℚ) ^ (Int.log 2 |(sec : ℚ) + r| - 52) ≤ 2048 / 1099511627776 := by
    refine le_trans hP2 (le_of_eq ?_)
    norm_num [zpow_neg]
  obtain ⟨z0, hz0⟩ := grid_mem (Int.log 2 |(sec : ℚ) + r| - 52) 0
    (by push_cast at he ⊢; omega) sec
  have hc0 : (sec : ℚ) = z0 * 2 ^ (Int.log 2 |(sec : ℚ) + r| - 52) := by simpa using hz0
  constructor
  · intro _ hr0
    constructor
    · exact roundFloat64_ge _ _ z0 hc0 (by linarith)
    · have hle : roundFloat64 (sec + r) ≤
          (sec : ℚ) + 1 - 2 ^ (Int.log 2 |(sec : ℚ) + r| - 52) := by
        apply roundFloat64_le _ _ (z0 + (2 ^ (-(Int.log 2 |(sec : ℚ) + r| - 52)).toNat - 1))
        · have hone : (1 : ℚ) = ((2 : ℤ) ^ (-(Int.log 2 |(sec : ℚ) + r| - 52)).toNat : ℤ) *
              2 ^ (Int.log 2 |(sec : ℚ) + r| - 52) := by
            have hn : ((-(Int.log 2 |(sec : ℚ) + r| - 52)).toNat : ℤ) =
                -(Int.log 2 |(sec : ℚ) + r| - 52) := Int.toNat_of_nonneg (by omega)
            push_cast
            rw [← zpow_natCast, hn, ← zpow_add₀ (by norm_num)]
            simp
          push_cast at hone ⊢
          linear_combination hc0 + hone
        · norm_num at hr2; linarith
      linarith
  · intro _ hr0
    constructor
    · have hge : (sec : ℚ) - 1 + 2 ^ (Int.log 2 |(sec : ℚ) + r| - 52) ≤
          roundFloat64 (sec + r) := by
        apply roundFloat64_ge _ _ (z0 - (2 ^ (-(Int.log 2 |(sec : ℚ) + r| - 52)).toNat - 1))
        · have hone : (1 : ℚ) = ((2 : ℤ) ^ (-(Int.log 2 |(sec : ℚ) + r| - 52)).toNat : ℤ) *
              2 ^ (Int.log 2 |(sec : ℚ) + r| - 52) := by
            have hn : ((-(Int.log 2 |(sec : ℚ) + r| - 52)).toNat : ℤ) =
                -(Int.log 2 |(sec : ℚ) + r| - 52) := Int.toNat_of_nonneg (by omega)
            push_cast
            rw [← zpow_natCast, hn, ← zpow_add₀ (by norm_num)]
            simp
          push_cast at hone ⊢
          linear_combination hc0 - hone
        · norm_num at hr1; linarith
      linarith
    · exact roundFloat64_le _ _ z0 hc0 (by linarith)

theorem tdiv_tmod_facts (d : ℤ) (h1 : -16777216000000000 < d) (h2 : d < 16777216000000000) :
    (-16777216 < Int.tdiv d Second ∧ Int.tdiv d Second < 16777216) ∧
    (-1000000000 < Int.tmod d Second ∧ Int.tmod d Second < 1000000000) ∧
    ((0 ≤ Int.tdiv d Second ∧ 0 ≤ Int.tmod d Second) ∨
      (Int.tdiv d Second ≤ 0 ∧ Int.tmod d Second ≤ 0)) := by
  have hd := Int.tdiv_add_tmod d Second
  unfold Second at hd ⊢
  rcases le_or_lt 0 d with h0 | h0
  · have e1 : Int.tdiv d 1000000000 = d / 1000000000 := Int.tdiv_eq_ediv h0 (by norm_num)
    rw [e1] at hd ⊢
    omega
  · have e1 : Int.tdiv d 1000000000 = -((-d) / 1000000000) := by
      have := Int.neg_tdiv (-d) 1000000000
      rw [neg_neg] at this
      rw [this, Int.tdiv_eq_ediv (by omega) (by norm_num)]
    rw [e1] at hd ⊢
    omega

theorem truncToInt64_of_bounds (f : ℚ) (sec : ℤ) :
    (0 ≤ sec → (sec : ℚ) ≤ f → f < sec + 1 → truncToInt64 f = sec) ∧
    (sec ≤ 0 → (sec : ℚ) - 1 < f → f ≤ sec → truncToInt64 f = sec) := by
  constructor
  · intro h0 h1 h2
    have : (0 : ℚ) ≤ f := le_trans (by exact_mod_cast h0) h1
    unfold truncToInt64
    rw [if_pos this, Int.floor_eq_iff]
    exact ⟨h1, h2⟩
  · intro h0 h1 h2
    unfold truncToInt64
    split_ifs with hf
    · have hs : (sec : ℚ) ≤ 0 := by exact_mod_cast h0
      have hf0 : f = 0 := le_antisymm (le_trans h2 hs) hf
      have hs0 : (sec : ℚ) = 0 := le_antisymm hs (by linarith)
      have : sec = 0 := by exact_mod_cast hs0
      rw [hf0, this]; simp
    · rw [Int.ceil_eq_iff]
      exact ⟨h1, h2⟩

/-- For a duration below `2 ^ 24` seconds in magnitude, `int64(d.Seconds())` is the
quotient of `d` by one second truncated toward zero. -/
theorem wholeSeconds_eq_tdiv (d : ℤ) (h1 : -16777216000000000 < d)
    (h2 : d < 16777216000000000) : wholeSeconds d = Int.tdiv d Second := by
  obtain ⟨hs, hn, hsign⟩ := tdiv_tmod_facts d h1 h2
  unfold wholeSeconds Duration.Seconds
  simp only
  have hsabs : |Int.tdiv d Second| < 2 ^ 24 := by rw [abs_lt]; constructor <;> omega
  have hnabs : |Int.tmod d Second| < 1000000000 := by rw [abs_lt]; constructor <;> omega
  rw [roundFloat64_intCast (Int.tdiv d Second) (lt_trans hsabs (by norm_num))]
  obtain ⟨f1, f2, f3, f4⟩ := frac_bounds (Int.tmod d Second) hnabs
  obtain ⟨p, n⟩ := sum_bounds (Int.tdiv d Second) _ hsabs f1 f2
  rcases hsign with ⟨a, b⟩ | ⟨a, b⟩
  · obtain ⟨l, u⟩ := p a (f3 b)
    exact (truncToInt64_of_bounds _ _).1 a l u
  · obtain ⟨l, u⟩ := n a (f4 b)
    exact (truncToInt64_of_bounds _ _).2 a l u

/-- At `2 ^ 24` seconds the float sum of `Duration.Seconds` no longer separates
`0.999999999` from `1`: the duration `16777216.999999999s` converts to `16777217`. -/
theorem wholeSeconds_rounds_up : wholeSeconds 16777216999999999 = 16777217 := by
  unfold wholeSeconds Duration.Seconds
  simp only
  have e1 : Int.tdiv 16777216999999999 Second = 16777216 := by decide
  have e2 : Int.tmod 16777216999999999 Second = 999999999 := by decide
  rw [e1, e2, roundFloat64_intCast 16777216 (by norm_num),
    roundFloat64_intCast 999999999 (by norm_num)]
  set q : ℚ := ((999999999 : ℤ) : ℚ) / 1000000000 with hq
  have hqv : q = 999999999 / 1000000000 := by rw [hq]; norm_num
  clear_value q
  have habs : |q| < 2 ^ 1 := by rw [hqv]; norm_num [abs_lt]
  have he := ulp_exp_le q 1 le_rfl habs
  have hP : (0 : ℚ) < 2 ^ (Int.log 2 |q| - 52) := zpow_pos (by norm_num) _
  obtain ⟨zlo, hzlo⟩ := grid_mem (Int.log 2 |q| - 52) 40 (by push_cast at he ⊢; omega)
    (2 ^ 40 - 2047)
  obtain ⟨z1, hz1⟩ := grid_mem (Int.log 2 |q| - 52) 0 (by push_cast at he ⊢; omega) 1
  have hrlo : (1 - 2047 / 2 ^ 40 : ℚ) ≤ roundFloat64 q := by
    apply roundFloat64_ge q _ zlo _ _
    · rw [← hzlo]; norm_num
    · have : (1 - 2047 / 2 ^ 40 : ℚ) ≤ q := by rw [hqv]; norm_num
      linarith
  have hrhi : roundFloat64 q ≤ 1 := by
    apply roundFloat64_le q _ z1 _ _
    · rw [← hz1]; norm_num
    · have : q < 1 := by rw [hqv]; norm_num
      linarith
  set r : ℚ := roundFloat64 q with hr
  have hx1 : (2 : ℚ) ^ 24 ≤ ((16777216 : ℤ) : ℚ) + r := by norm_num at hrlo ⊢; linarith
  have hx2 : ((16777216 : ℤ) : ℚ) + r < 2 ^ 25 := by norm_num at hrhi ⊢; linarith
  have hpos : (0 : ℚ) < ((16777216 : ℤ) : ℚ) + r := lt_of_lt_of_le (by norm_num) hx1
  have hxabs : |((16777216 : ℤ) : ℚ) + r| = ((16777216 : ℤ) : ℚ) + r := abs_of_pos hpos
  have hlog : Int.log 2 |((16777216 : ℤ) : ℚ) + r| = 24 := by
    rw [hxabs]
    apply le_antisymm
    · have : Int.log 2 (((16777216 : ℤ) : ℚ) + r) < 25 :=
        (Int.lt_zpow_iff_log_lt (by norm_num) hpos).mp (by exact_mod_cast hx2)
      omega
    · exact (Int.zpow_le_iff_le_log (by norm_num) hpos).mp (by exact_mod_cast hx1)
  have hPv : (2 : ℚ) ^ (Int.log 2 |((16777216 : ℤ) : ℚ) + r| - 52) = 1 / 2 ^ 28 := by
    rw [hlog]; norm_num [zpow_neg]
  have hc : (16777217 : ℚ) = ((16777217 * 2 ^ 28 : ℤ) : ℚ) *
      2 ^ (Int.log 2 |((16777216 : ℤ) : ℚ) + r| - 52) := by
    rw [hPv]; norm_num
  have hval : roundFloat64 (((16777216 : ℤ) : ℚ) + r) = 16777217 := by
    apply le_antisymm
    · apply roundFloat64_le _ _ _ hc
      rw [hPv]; norm_num at hrhi ⊢; linarith
    · apply roundFloat64_ge _ _ _ hc
      rw [hPv]; norm_num at hrlo ⊢; linarith
  rw [hval]
  unfold truncToInt64
  norm_num

theorem wrapInt64_of_range (x : ℤ) (h1 : -9223372036854775808 ≤ x)
    (h2 : x < 9223372036854775808) : wrapInt64 x = x := by
  unfold wrapInt64
  omega

/-- Within the ranges where neither the float conversion nor the `int64` addition
loses anything, the staleness test is the comparison of integers. -/
theorem isPast_of_bounds (e : CacheValue) (now : Int)
    (h1 : -16777216000000000 < e.SoftTTL) (h2 : e.SoftTTL < 16777216000000000)
    (h3 : -9223372036854775808 ≤ e.UpdatedTS + Int.tdiv e.SoftTTL Second)
    (h4 : e.UpdatedTS + Int.tdiv e.SoftTTL Second < 9223372036854775808) :
    isPastSoftTTLThreshhold e now =
      decide (e.UpdatedTS + Int.tdiv e.SoftTTL Second < now) := by
  unfold isPastSoftTTLThreshhold
  rw [wholeSeconds_eq_tdiv _ h1 h2, wrapInt64_of_range _ h3 h4]

/-! ## Facts about strings and key derivation -/

theorem string_append_left_cancel (a b c : String) (h : a ++ b = a ++ c) : b = c := by
  have h2 := congrArg String.data h
  simp only [String.data_append] at h2
  exact String.ext (List.append_cancel_left h2)

theorem string_append_right_cancel (a b c : String) (h : a ++ c = b ++ c) : a = b := by
  have h2 := congrArg String.data h
  simp only [String.data_append] at h2
  exact String.ext (List.append_cancel_right h2)

theorem digitChar_inj (a b : Nat) (ha : a < 10) (hb : b < 10)
    (h : Nat.digitChar a = Nat.digitChar b) : a = b := by
  interval_cases a <;> interval_cases b <;> first | rfl | (exact absurd h (by decide))

theorem digitChar_isDigit (a : Nat) (ha : a < 10) : (Nat.digitChar a).isDigit = true := by
  interval_cases a <;> decide

theorem map_digitChar_inj (l1 l2 : List Nat) (h1 : ∀ d ∈ l1, d < 10)
    (h2 : ∀ d ∈ l2, d < 10) (h : l1.map Nat.digitChar = l2.map Nat.digitChar) :
    l1 = l2 := by
  induction l1 generalizing l2 with
  | nil =>
    cases l2 with
    | nil => rfl
    | cons b t => simp at h
  | cons a t ih =>
    cases l2 with
    | nil => simp at h
    | cons b t2 =>
      simp only [List.map_cons, List.cons.injEq] at h
      have hab := digitChar_inj a b (h1 a (by simp)) (h2 b (by simp)) h.1
      have ht := ih t2 (fun d hd => h1 d (by simp [hd])) (fun d hd => h2 d (by simp [hd]))
        h.2
      rw [hab, ht]

theorem decimalDigits_isDigit (n : Nat) : ∀ c ∈ decimalDigits n, c.isDigit = true := by
  intro c hc
  unfold decimalDigits at hc
  split_ifs at hc with h0
  · simp at hc; rw [hc]; decide
  · simp only [List.mem_map, List.mem_reverse] at hc
    obtain ⟨d, hd, rfl⟩ := hc
    exact digitChar_isDigit d (Nat.digits_lt_base (by norm_num) hd)

theorem decimalDigits_inj (n m : Nat) (h : decimalDigits n = decimalDigits m) : n = m := by
  have hz : ∀ k : Nat, k ≠ 0 → decimalDigits k ≠ ['0'] := by
    intro k hk hk0
    unfold decimalDigits at hk0
    rw [if_neg hk] at hk0
    have hl : (Nat.digits 10 k).reverse = [0] := by
      apply map_digitChar_inj
      · intro d hd
        exact Nat.digits_lt_base (by norm_num) (List.mem_reverse.mp hd)
      · intro d hd
        simp at hd; omega
      · simpa using hk0
    have hd : Nat.digits 10 k = [0] := by
      have := congrArg List.reverse hl
      simpa using this
    have hne := Nat.getLast_digit_ne_zero 10 hk
    simp [hd] at hne
  by_cases hn : n = 0
  · by_cases hm : m = 0
    · rw [hn, hm]
    · exfalso
      apply hz m hm
      rw [← h, hn]; rfl
  · by_cases hm : m = 0
    · exfalso
      apply hz n hn
      rw [h, hm]; rfl
    · unfold decimalDigits at h
      rw [if_neg hn, if_neg hm] at h
      have hr : (Nat.digits 10 n).reverse = (Nat.digits 10 m).reverse := by
        apply map_digitChar_inj _ _ _ _ h
        · intro d hd
          exact Nat.digits_lt_base (by norm_num) (List.mem_reverse.mp hd)
        · intro d hd
          exact Nat.digits_lt_base (by norm_num) (List.mem_reverse.mp hd)
      exact Nat.digits.injective 10 (List.reverse_injective hr)

/-- Different integers have different decimal forms. -/
theorem formatDecimal_inj (n m : Int) (h : formatDecimal n = formatDecimal m) : n = m := by
  unfold formatDecimal at h
  have h2 := congrArg String.data h
  simp only at h2
  have hminus : ∀ k : Nat, ∀ l : List Char, decimalDigits k ≠ '-' :: l := by
    intro k l hk
    have := decimalDigits_isDigit k '-' (by rw [hk]; simp)
    exact absurd this (by decide)
  split_ifs at h2 with hn hm hm
  · have := decimalDigits_inj _ _ (List.cons.inj h2).2
    omega
  · exact absurd h2.symm (hminus _ _)
  · exact absurd h2 (hminus _ _)
  · have := decimalDigits_inj _ _ h2
    omega

/-- The length of a `base64.URLEncoding` string depends only on the number of bytes. -/
theorem base64URLEncode_length (l : Bytes) :
    (base64URLEncode l).length = 4 * ((l.length + 2) / 3) := by
  induction l using base64URLEncode.induct with
  | case1 => rfl
  | case2 a => simp [base64URLEncode]
  | case3 a b => simp [base64URLEncode]
  | case4 a b c rest ih =>
    simp only [base64URLEncode, List.length_cons, ih]
    omega

theorem base64URLChar_mem (i : Nat) (h : i < 64) : base64URLChar i ∈ base64URLAlphabet := by
  interval_cases i <;> decide

/-- Every character of a `base64.URLEncoding` string is a letter, a digit, `-`, `_` or
the padding `=`. -/
theorem base64URLEncode_chars (l : Bytes) :
    ∀ c ∈ base64URLEncode l, c ∈ base64URLAlphabet ∨ c = '=' := by
  induction l using base64URLEncode.induct with
  | case1 => intro c hc; simp [base64URLEncode] at hc
  | case2 a =>
    intro c hc
    have ha := a.toNat_lt
    simp only [base64URLEncode, List.mem_cons, List.mem_singleton, List.not_mem_nil,
      or_false] at hc
    rcases hc with rfl | rfl | rfl | rfl
    · exact Or.inl (base64URLChar_mem _ (by omega))
    · exact Or.inl (base64URLChar_mem _ (by omega))
    · exact Or.inr rfl
    · exact Or.inr rfl
  | case3 a b =>
    intro c hc
    have ha := a.toNat_lt
    have hb := b.toNat_lt
    simp only [base64URLEncode, List.mem_cons, List.mem_singleton, List.not_mem_nil,
      or_false] at hc
    rcases hc with rfl | rfl | rfl | rfl
    · exact Or.inl (base64URLChar_mem _ (by omega))
    · exact Or.inl (base64URLChar_mem _ (by omega))
    · exact Or.inl (base64URLChar_mem _ (by omega))
    · exact Or.inr rfl
  | case4 a b c0 rest ih =>
    intro c hc
    have ha := a.toNat_lt
    have hb := b.toNat_lt
    have hc0 := c0.toNat_lt
    simp only [base64URLEncode, List.mem_cons] at hc
    rcases hc with rfl | rfl | rfl | rfl | hc
    · exact Or.inl (base64URLChar_mem _ (by omega))
    · exact Or.inl (base64URLChar_mem _ (by omega))
    · exact Or.inl (base64URLChar_mem _ (by omega))
    · exact Or.inl (base64URLChar_mem _ (by omega))
    · exact ih c hc

/-- Every hashed key has 88 characters, each from the URL alphabet or the padding. -/
theorem hashKey_shape (digest : Sha512) (key : String) :
    (hashKey digest key).length = 88 ∧
    ∀ c ∈ (hashKey digest key).data, c ∈ base64URLAlphabet ∨ c = '=' := by
  unfold hashKey
  refine ⟨?_, fun c hc => base64URLEncode_chars _ c hc⟩
  show (base64URLEncode _).length = 88
  rw [base64URLEncode_length, digest.size]

theorem constructUnhashedKey_data (fn req : String) (s h : Int) (v : String) :
    (constructUnhashedKey fn req s h v).data =
      fn.data ++ (':' :: (req.data ++ (':' :: ((formatDecimal (wholeSeconds s)).data ++
        (':' :: ((formatDecimal (wholeSeconds h)).data ++ (':' :: v.data))))))) := by
  simp [constructUnhashedKey, String.data_append]

/-- Two composite keys that differ only in the soft TTL are equal exactly when the soft
TTLs have the same number of whole seconds. -/
theorem constructUnhashedKey_soft_iff (fn req : String) (d1 d2 h : Int) (v : String) :
    constructUnhashedKey fn req d1 h v = constructUnhashedKey fn req d2 h v ↔
      wholeSeconds d1 = wholeSeconds d2 := by
  constructor
  · intro hk
    have h2 := congrArg String.data hk
    simp only [constructUnhashedKey_data] at h2
    have h3 := List.append_cancel_left h2
    simp only [List.cons.injEq, true_and] at h3
    have h4 := List.append_cancel_left h3
    simp only [List.cons.injEq, true_and] at h4
    have h5 := List.append_cancel_right h4
    exact formatDecimal_inj _ _ (String.ext h5)
  · intro hw
    simp [constructUnhashedKey, hw]

/-- Two composite keys that differ only in the hard TTL are equal exactly when the hard
TTLs have the same number of whole seconds. -/
theorem constructUnhashedKey_hard_iff (fn req : String) (s d1 d2 : Int) (v : String) :
    constructUnhashedKey fn req s d1 v = constructUnhashedKey fn req s d2 v ↔
      wholeSeconds d1 = wholeSeconds d2 := by
  constructor
  · intro hk
    have h2 := congrArg String.data hk
    simp only [constructUnhashedKey_data] at h2
    have h3 := List.append_cancel_left h2
    simp only [List.cons.injEq, true_and] at h3
    have h4 := List.append_cancel_left h3
    simp only [List.cons.injEq, true_and] at h4
    have h5 := List.append_cancel_left h4
    simp only [List.cons.injEq, true_and] at h5
    have h6 := List.append_cancel_right h5
    exact formatDecimal_inj _ _ (String.ext h6)
  · intro hw
    simp [constructUnhashedKey, hw]

theorem wholeSeconds_examples :
    wholeSeconds 1000000000 = 1 ∧ wholeSeconds 1500000000 = 1 ∧
    wholeSeconds 2000000000 = 2 ∧ wholeSeconds 3000000000 = 3 := by
  refine ⟨?_, ?_, ?_, ?_⟩ <;>
    (rw [wholeSeconds_eq_tdiv _ (by decide) (by decide)]; decide)

theorem formatDecimal_examples :
    formatDecimal 1 = "1" ∧ formatDecimal 2 = "2" ∧ formatDecimal 3 = "3" := by
  refine ⟨?_, ?_, ?_⟩ <;> (simp [formatDecimal, decimalDigits]; rfl)

theorem constructUnhashedKey_examples :
    constructUnhashedKey "worldHello" "null" 2000000000 3000000000 "v1.0.0" =
      "worldHello:null:2:3:v1.0.0" ∧
    constructUnhashedKey "worldHello" "" 2000000000 3000000000 "v1.0.0" =
      "worldHello::2:3:v1.0.0" ∧
    constructUnhashedKey "helloWorld" "[1,2]" 1000000000 2000000000 "v1.0.0" =
      "helloWorld:[1,2]:1:2:v1.0.0" := by
  obtain ⟨e1, -, e2, e3⟩ := wholeSeconds_examples
  obtain ⟨f1, f2, f3⟩ := formatDecimal_examples
  unfold constructUnhashedKey
  rw [e1, e2, e3, f1, f2, f3]
  decide

/-- A list is cut at its first colon in one way only. -/
theorem split_at_first_colon (a b x y : List Char) (ha : ':' ∉ a) (hb : ':' ∉ b)
    (h : a ++ ':' :: x = b ++ ':' :: y) : a = b ∧ x = y := by
  induction a generalizing b with
  | nil =>
    cases b with
    | nil => simpa using h
    | cons c t =>
      simp only [List.nil_append, List.cons_append, List.cons.injEq] at h
      exact absurd h.1 (by intro hc; exact hb (by simp [← hc]))
  | cons c t ih =>
    cases b with
    | nil =>
      simp only [List.nil_append, List.cons_append, List.cons.injEq] at h
      exact absurd h.1 (by intro hc; exact ha (by simp [hc]))
    | cons d u =>
      simp only [List.cons_append, List.cons.injEq] at h
      obtain ⟨h1, h2⟩ := ih u (by intro hc; exact ha (List.mem_cons_of_mem _ hc))
        (by intro hc; exact hb (List.mem_cons_of_mem _ hc)) h.2
      exact ⟨by rw [h.1, h1], h2⟩

/-- A list is cut at its last colon in one way only. -/
theorem split_at_last_colon (a b x y : List Char) (ha : ':' ∉ a) (hb : ':' ∉ b)
    (h : x ++ ':' :: a = y ++ ':' :: b) : x = y ∧ a = b := by
  have h2 := congrArg List.reverse h
  simp only [List.reverse_append, List.reverse_cons, List.append_assoc,
    List.singleton_append] at h2
  obtain ⟨h3, h4⟩ := split_at_first_colon a.reverse b.reverse x.reverse y.reverse
    (by simpa using ha) (by simpa using hb) h2
  exact ⟨List.reverse_injective h4, List.reverse_injective h3⟩

/-- The decimal form of an integer holds no colon. -/
theorem formatDecimal_no_colon (n : Int) : ':' ∉ (formatDecimal n).data := by
  have hd : ∀ k : Nat, ':' ∉ decimalDigits k := by
    intro k hc
    exact absurd (decimalDigits_isDigit k ':' hc) (by decide)
  unfold formatDecimal
  split_ifs with hn
  · simp only [List.mem_cons, not_or]
    exact ⟨by decide, hd _⟩
  · exact hd _

/-! ## Running programs -/

@[simp] theorem Prog.pure_apply {σ ρ α : Type} (a : α) (r : Run σ ρ) :
    (pure a : Prog σ ρ α) r = (a, r) := rfl

@[simp] theorem Prog.bind_apply {σ ρ α β : Type} (m : Prog σ ρ α) (f : α → Prog σ ρ β)
    (r : Run σ ρ) : (m >>= f) r = f (m r).1 (m r).2 := rfl

@[simp] theorem emit_apply {σ ρ : Type} (e : Event) (r : Run σ ρ) :
    (emit e : Prog σ ρ Unit) r = ((), { r with trace := r.trace ++ [e] }) := rfl

@[simp] theorem spawn_apply {σ ρ : Type} (t : Task σ ρ) (r : Run σ ρ) :
    spawn t r = ((), { r with spawned := r.spawned ++ [t] }) := rfl

@[simp] theorem onWorld_apply {σ ρ α : Type} (f : σ → α × σ) (r : Run σ ρ) :
    (onWorld f : Prog σ ρ α) r = ((f r.world).1, { r with world := (f r.world).2 }) := rfl

theorem callRpc_apply {σ ρ : Type} (rpcCall : RpcCall σ ρ) (r : Run σ ρ) :
    callRpc rpcCall r = ((rpcCall r.world).1,
      { world := (rpcCall r.world).2, trace := r.trace ++ [Event.rpcCall],
        spawned := r.spawned }) := rfl

theorem timeNowUnix_apply {σ ρ : Type} (env : Env σ ρ) (r : Run σ ρ) :
    timeNowUnix env r = ((env.timeNowUnix r.world).1,
      { world := (env.timeNowUnix r.world).2,
        trace := r.trace ++ [Event.now (env.timeNowUnix r.world).1],
        spawned := r.spawned }) := rfl

theorem getData_skip_eq {σ ρ : Type} (env : Env σ ρ) (h : env.skipCache = true)
    (rpcCall : RpcCall σ ρ) (rpcCallName cacheKey : String) (softTTL hardTTL : Int)
    (readFromCache : ReadPredicate σ) (writeToCache : WritePredicate σ ρ) (r : Run σ ρ) :
    getData env rpcCall rpcCallName cacheKey softTTL hardTTL readFromCache writeToCache r
      = callRpc rpcCall r := by
  simp [getData, isSkipCache, h]

theorem effects_eq {σ ρ α : Type} (p : Prog σ ρ α) (r : Run σ ρ) (evs : List Event)
    (h : (p r).2.trace = r.trace ++ evs) : effects p r = evs := by
  simp [effects, h]

theorem started_eq {σ ρ α : Type} (p : Prog σ ρ α) (r : Run σ ρ) (ts : List (Task σ ρ))
    (h : (p r).2.spawned = r.spawned ++ ts) : started p r = ts := by
  simp [started, h]

theorem emitMetric_apply {σ ρ : Type} (env : Env σ ρ) (ev : Event)
    (f : MetricsClient σ → σ → σ) (r : Run σ ρ) :
    emitMetric env ev f r =
      ((), ⟨metricWorld env f r.world, r.trace ++ metricEvents env ev, r.spawned⟩) := by
  unfold emitMetric metricWorld metricEvents
  cases env.metricsProvider <;> simp

theorem makeCacheValue_error {σ ρ : Type} (env : Env σ ρ) (val : Option ρ) (softTTL : Int)
    (r : Run σ ρ) (err : GoError) (h : env.lib.MarshalToString val = .error err) :
    makeCacheValue env val softTTL r =
      (.error (GoError.wrap err "unable to marshal rpc response"), r) := by
  simp [makeCacheValue, h]

theorem makeCacheValue_ok {σ ρ : Type} (env : Env σ ρ) (val : Option ρ) (softTTL : Int)
    (r : Run σ ρ) (data : String) (h : env.lib.MarshalToString val = .ok data) :
    makeCacheValue env val softTTL r =
      (.ok ⟨(env.timeNowUnix r.world).1, softTTL, data⟩,
        ⟨(env.timeNowUnix r.world).2,
          r.trace ++ [Event.now (env.timeNowUnix r.world).1], r.spawned⟩) := by
  simp [makeCacheValue, h, timeNowUnix_apply]

theorem fetchFromCache_run {σ ρ : Type} (env : Env σ ρ) (key : String) (r : Run σ ρ) :
    (fetchFromCache env key r).2 =
      ⟨(env.cacheProvider.GetAPI key r.world).2, r.trace ++ [Event.cacheGet key],
        r.spawned⟩ := by
  unfold fetchFromCache CacheClient.Get
  simp only [Prog.bind_apply, emit_apply, onWorld_apply]
  cases (env.cacheProvider.GetAPI key r.world).1.2 <;> simp

/-- The cache read fails exactly when the backend `Get` returns an error or the bytes
it returns do not decode to a `CacheValue`. -/
theorem fetchFromCache_error_iff {σ ρ : Type} (env : Env σ ρ) (key : String) (r : Run σ ρ) :
    (∃ err, (fetchFromCache env key r).1 = .error err) ↔
      ((env.cacheProvider.GetAPI key r.world).1.2 ≠ none ∨
        ∃ err, DecompressStruct env.lib (env.cacheProvider.GetAPI key r.world).1.1
          env.compressionLibrary = .error err) := by
  unfold fetchFromCache CacheClient.Get
  simp only [Prog.bind_apply, emit_apply, onWorld_apply]
  cases h : (env.cacheProvider.GetAPI key r.world).1.2 <;> simp

/-- The run of `updateCache`, case by case: which effects it adds, and that it starts
no goroutine. -/
theorem updateCache_cases {σ ρ : Type} (env : Env σ ρ) (key : String)
    (rpcCallResp : Option ρ) (softTTL hardTTL : Int) (writeToCache : WritePredicate σ ρ)
    (r : Run σ ρ) :
    (updateCache env key rpcCallResp softTTL hardTTL writeToCache r).2.spawned = r.spawned ∧
    ((∃ resp data val, rpcCallResp = some resp ∧ (writeToCache resp r.world).1 = true ∧
        env.lib.MarshalToString (some resp) = .ok data ∧
        CompressStruct env.lib
          ⟨(env.timeNowUnix (writeToCache resp r.world).2).1, softTTL, data⟩
          env.compressionLibrary = .ok val ∧
        (updateCache env key rpcCallResp softTTL hardTTL writeToCache r).2.trace =
          r.trace ++ [Event.now (env.timeNowUnix (writeToCache resp r.world).2).1,
            Event.cacheSet key val hardTTL]) ∨
     ((¬ ∃ resp data val, rpcCallResp = some resp ∧ (writeToCache resp r.world).1 = true ∧
        env.lib.MarshalToString (some resp) = .ok data ∧
        CompressStruct env.lib
          ⟨(env.timeNowUnix (writeToCache resp r.world).2).1, softTTL, data⟩
          env.compressionLibrary = .ok val) ∧
      ((updateCache env key rpcCallResp softTTL hardTTL writeToCache r).2.trace = r.trace ∨
        ∃ t, (updateCache env key rpcCallResp softTTL hardTTL writeToCache r).2.trace =
          r.trace ++ [Event.now t]))) := by
  cases rpcCallResp with
  | none => simp [updateCache]
  | some resp =>
    cases hw : (writeToCache resp r.world).1 with
    | false => simp [updateCache, hw]
    | true =>
      cases hm : env.lib.MarshalToString (some resp) with
      | error e => simp [updateCache, hw, hm, makeCacheValue]
      | ok data =>
        cases hc : CompressStruct env.lib
            ⟨(env.timeNowUnix (writeToCache resp r.world).2).1, softTTL, data⟩
            env.compressionLibrary with
        | error e =>
          simp [updateCache, hw, hm, makeCacheValue, timeNowUnix_apply, hc]
        | ok val =>
          simp [updateCache, hw, hm, makeCacheValue, timeNowUnix_apply, hc,
            CacheClient.Set]
          cases (env.cacheProvider.SetAPI key val hardTTL
            (env.timeNowUnix (writeToCache resp r.world).2).2).1 <;> simp

theorem handleCacheMiss_error {σ ρ : Type} (env : Env σ ρ) (key : String)
    (rpcCall : RpcCall σ ρ) (softTTL hardTTL : Int) (rpcCallName : String)
    (writeToCache : WritePredicate σ ρ) (r : Run σ ρ) (err : GoError)
    (h : (rpcCall (metricWorld env
      (fun m => m.IncreaseCacheMissMetric rpcCallName) r.world)).1.2 = some err) :
    handleCacheMiss env key rpcCall softTTL hardTTL rpcCallName writeToCache r =
      (.error (GoError.wrap err "rpc call failed"),
        ⟨(rpcCall (metricWorld env
            (fun m => m.IncreaseCacheMissMetric rpcCallName) r.world)).2,
          r.trace ++ metricEvents env (Event.missMetric rpcCallName) ++ [Event.rpcCall],
          r.spawned⟩) := by
  simp [handleCacheMiss, emitMetric_apply, callRpc_apply, h]

theorem handleCacheMiss_ok {σ ρ : Type} (env : Env σ ρ) (key : String)
    (rpcCall : RpcCall σ ρ) (softTTL hardTTL : Int) (rpcCallName : String)
    (writeToCache : WritePredicate σ ρ) (r : Run σ ρ)
    (h : (rpcCall (metricWorld env
      (fun m => m.IncreaseCacheMissMetric rpcCallName) r.world)).1.2 = none) :
    handleCacheMiss env key rpcCall softTTL hardTTL rpcCallName writeToCache r =
      makeCacheValue env
        (rpcCall (metricWorld env
          (fun m => m.IncreaseCacheMissMetric rpcCallName) r.world)).1.1 softTTL
        ⟨(rpcCall (metricWorld env
            (fun m => m.IncreaseCacheMissMetric rpcCallName) r.world)).2,
          r.trace ++ metricEvents env (Event.missMetric rpcCallName) ++ [Event.rpcCall],
          r.spawned ++ [Task.updateCache key
            (rpcCall (metricWorld env
              (fun m => m.IncreaseCacheMissMetric rpcCallName) r.world)).1.1
            softTTL hardTTL writeToCache]⟩ := by
  simp [handleCacheMiss, emitMetric_apply, callRpc_apply, h]

theorem getDataAfterRead_stale {σ ρ : Type} (env : Env σ ρ) (rpcCall : RpcCall σ ρ)
    (rpcCallName cacheKey : String) (softTTL hardTTL : Int)
    (writeToCache : WritePredicate σ ρ) (result : CacheValue) (r : Run σ ρ)
    (h : isPastSoftTTLThreshhold result (env.timeNowUnix r.world).1 = true) :
    (getDataAfterRead env rpcCall rpcCallName cacheKey softTTL hardTTL writeToCache
        result r).1 = generateResp env.lib result ∧
    (getDataAfterRead env rpcCall rpcCallName cacheKey softTTL hardTTL writeToCache
        result r).2.trace =
      r.trace ++ ([Event.now (env.timeNowUnix r.world).1] ++
        metricEvents env (Event.softHitMetric rpcCallName) ++
        metricEvents env (Event.hitMetric rpcCallName)) ∧
    (getDataAfterRead env rpcCall rpcCallName cacheKey softTTL hardTTL writeToCache
        result r).2.spawned =
      r.spawned ++ [Task.refresh cacheKey rpcCall softTTL hardTTL writeToCache] := by
  simp [getDataAfterRead, checkPastSoftTTL, timeNowUnix_apply, h, handleCacheSoftHit,
    handleCacheHit, emitMetric_apply]

theorem getDataAfterRead_fresh {σ ρ : Type} (env : Env σ ρ) (rpcCall : RpcCall σ ρ)
    (rpcCallName cacheKey : String) (softTTL hardTTL : Int)
    (writeToCache : WritePredicate σ ρ) (result : CacheValue) (r : Run σ ρ)
    (h : isPastSoftTTLThreshhold result (env.timeNowUnix r.world).1 = false) :
    (getDataAfterRead env rpcCall rpcCallName cacheKey softTTL hardTTL writeToCache
        result r).1 = generateResp env.lib result ∧
    (getDataAfterRead env rpcCall rpcCallName cacheKey softTTL hardTTL writeToCache
        result r).2.trace =
      r.trace ++ ([Event.now (env.timeNowUnix r.world).1] ++
        metricEvents env (Event.hitMetric rpcCallName)) ∧
    (getDataAfterRead env rpcCall rpcCallName cacheKey softTTL hardTTL writeToCache
        result r).2.spawned = r.spawned := by
  simp [getDataAfterRead, checkPastSoftTTL, timeNowUnix_apply, h, handleCacheHit,
    emitMetric_apply]

theorem numRpcCall_metricEvents {σ ρ : Type} (env : Env σ ρ) (name : String) :
    numRpcCall (metricEvents env (Event.missMetric name)) = 0 ∧
    numRpcCall (metricEvents env (Event.hitMetric name)) = 0 ∧
    numRpcCall (metricEvents env (Event.softHitMetric name)) = 0 ∧
    numCacheGet (metricEvents env (Event.missMetric name)) = 0 ∧
    numCacheGet (metricEvents env (Event.hitMetric name)) = 0 ∧
    numCacheGet (metricEvents env (Event.softHitMetric name)) = 0 ∧
    numCacheSet (metricEvents env (Event.missMetric name)) = 0 ∧
    numCacheSet (metricEvents env (Event.hitMetric name)) = 0 ∧
    numCacheSet (metricEvents env (Event.softHitMetric name)) = 0 ∧
    numNow (metricEvents env (Event.missMetric name)) = 0 ∧
    numNow (metricEvents env (Event.hitMetric name)) = 0 ∧
    numNow (metricEvents env (Event.softHitMetric name)) = 0 ∧
    numMissMetric (metricEvents env (Event.hitMetric name)) = 0 ∧
    numMissMetric (metricEvents env (Event.softHitMetric name)) = 0 := by
  unfold metricEvents
  cases env.metricsProvider <;>
    simp [numRpcCall, numCacheGet, numCacheSet, numNow, numMissMetric]

/-- The miss path when `rpcCall` fails. -/
theorem getData_miss_rpc_error {σ ρ : Type} (env : Env σ ρ) (key : String)
    (rpcCall : RpcCall σ ρ) (softTTL hardTTL : Int) (rpcCallName : String)
    (writeToCache : WritePredicate σ ρ) (r : Run σ ρ) (res : Option ρ) (err : GoError)
    (h : (rpcCall (metricWorld env
      (fun m => m.IncreaseCacheMissMetric rpcCallName) r.world)).1 = (res, some err)) :
    (handleCacheMiss env key rpcCall softTTL hardTTL rpcCallName writeToCache r).1 =
      .error (GoError.wrap err "rpc call failed") ∧
    (handleCacheMiss env key rpcCall softTTL hardTTL rpcCallName writeToCache r).2.trace =
      r.trace ++ (metricEvents env (Event.missMetric rpcCallName) ++ [Event.rpcCall]) ∧
    (handleCacheMiss env key rpcCall softTTL hardTTL rpcCallName writeToCache r).2.spawned =
      r.spawned := by
  rw [handleCacheMiss_error env key rpcCall softTTL hardTTL rpcCallName writeToCache r err
    (by rw [h])]
  simp

/-- The miss path when `rpcCall` succeeds but its response has no JSON form. -/
theorem getData_miss_marshal_error {σ ρ : Type} (env : Env σ ρ) (key : String)
    (rpcCall : RpcCall σ ρ) (softTTL hardTTL : Int) (rpcCallName : String)
    (writeToCache : WritePredicate σ ρ) (r : Run σ ρ) (res : Option ρ) (err : GoError)
    (h : (rpcCall (metricWorld env
      (fun m => m.IncreaseCacheMissMetric rpcCallName) r.world)).1 = (res, none))
    (hm : env.lib.MarshalToString res = .error err) :
    (handleCacheMiss env key rpcCall softTTL hardTTL rpcCallName writeToCache r).1 =
      .error (GoError.wrap err "unable to marshal rpc response") ∧
    (handleCacheMiss env key rpcCall softTTL hardTTL rpcCallName writeToCache r).2.trace =
      r.trace ++ (metricEvents env (Event.missMetric rpcCallName) ++ [Event.rpcCall]) ∧
    (handleCacheMiss env key rpcCall softTTL hardTTL rpcCallName writeToCache r).2.spawned =
      r.spawned ++ [Task.updateCache key res softTTL hardTTL writeToCache] := by
  rw [handleCacheMiss_ok env key rpcCall softTTL hardTTL rpcCallName writeToCache r
    (by rw [h])]
  rw [h]
  rw [makeCacheValue_error env res softTTL _ err hm]
  simp

/-- The miss path when `rpcCall` succeeds and its response marshals to `data`. -/
theorem getData_miss_ok {σ ρ : Type} (env : Env σ ρ) (key : String)
    (rpcCall : RpcCall σ ρ) (softTTL hardTTL : Int) (rpcCallName : String)
    (writeToCache : WritePredicate σ ρ) (r : Run σ ρ) (res : Option ρ) (data : String)
    (h : (rpcCall (metricWorld env
      (fun m => m.IncreaseCacheMissMetric rpcCallName) r.world)).1 = (res, none))
    (hm : env.lib.MarshalToString res = .ok data) :
    (handleCacheMiss env key rpcCall softTTL hardTTL rpcCallName writeToCache r).1 =
      .ok ⟨(env.timeNowUnix (rpcCall (metricWorld env
        (fun m => m.IncreaseCacheMissMetric rpcCallName) r.world)).2).1, softTTL, data⟩ ∧
    (handleCacheMiss env key rpcCall softTTL hardTTL rpcCallName writeToCache r).2.trace =
      r.trace ++ (metricEvents env (Event.missMetric rpcCallName) ++ [Event.rpcCall,
        Event.now (env.timeNowUnix (rpcCall (metricWorld env
          (fun m => m.IncreaseCacheMissMetric rpcCallName) r.world)).2).1]) ∧
    (handleCacheMiss env key rpcCall softTTL hardTTL rpcCallName writeToCache r).2.spawned =
      r.spawned ++ [Task.updateCache key res softTTL hardTTL writeToCache] ∧
    (handleCacheMiss env key rpcCall softTTL hardTTL rpcCallName writeToCache r).2.world =
      (env.timeNowUnix (rpcCall (metricWorld env
        (fun m => m.IncreaseCacheMissMetric rpcCallName) r.world)).2).2 := by
  rw [handleCacheMiss_ok env key rpcCall softTTL hardTTL rpcCallName writeToCache r
    (by rw [h])]
  rw [h]
  rw [makeCacheValue_ok env res softTTL _ data hm]
  simp

/-- With the cache enabled and the read predicate returning false, `getData` is the
miss handler followed by `generateResp`. -/
theorem getData_bypass_eq {σ ρ : Type} (env : Env σ ρ) (rpcCall : RpcCall σ ρ)
    (rpcCallName cacheKey : String) (softTTL hardTTL : Int)
    (readFromCache : ReadPredicate σ) (writeToCache : WritePredicate σ ρ) (r : Run σ ρ)
    (hskip : env.skipCache = false) (hrd : (readFromCache r.world).1 = false) :
    getData env rpcCall rpcCallName cacheKey softTTL hardTTL readFromCache writeToCache r =
      (match (handleCacheMiss env cacheKey rpcCall softTTL hardTTL rpcCallName writeToCache
          ⟨(readFromCache r.world).2, r.trace, r.spawned⟩).1 with
        | .error err => (none, some err)
        | .ok result => generateResp env.lib result,
       (handleCacheMiss env cacheKey rpcCall softTTL hardTTL rpcCallName writeToCache
          ⟨(readFromCache r.world).2, r.trace, r.spawned⟩).2) := by
  simp only [getData, isSkipCache, hskip, Prog.bind_apply, onWorld_apply, hrd,
    Bool.false_eq_true, if_false, Bool.not_false, if_true]
  cases (handleCacheMiss env cacheKey rpcCall softTTL hardTTL rpcCallName writeToCache
          ⟨(readFromCache r.world).2, r.trace, r.spawned⟩).1 <;> rfl

/-- With the cache enabled and the read predicate returning true, a successful cache
read hands its entry to the statements after the read. -/
theorem getData_hit_eq {σ ρ : Type} (env : Env σ ρ) (rpcCall : RpcCall σ ρ)
    (rpcCallName cacheKey : String) (softTTL hardTTL : Int)
    (readFromCache : ReadPredicate σ) (writeToCache : WritePredicate σ ρ) (r : Run σ ρ)
    (w1 w2 : σ) (data : Bytes) (e : CacheValue)
    (hskip : env.skipCache = false) (hrd : readFromCache r.world = (true, w1))
    (hget : env.cacheProvider.GetAPI cacheKey w1 = ((data, none), w2))
    (hdec : DecompressStruct env.lib data env.compressionLibrary = .ok e) :
    getData env rpcCall rpcCallName cacheKey softTTL hardTTL readFromCache writeToCache r =
      getDataAfterRead env rpcCall rpcCallName cacheKey softTTL hardTTL writeToCache e
        ⟨w2, r.trace ++ [Event.cacheGet cacheKey], r.spawned⟩ := by
  simp [getData, isSkipCache, hskip, hrd, fetchFromCache, CacheClient.Get, hget, hdec]

/-- With the cache enabled and the read predicate returning true, a failed cache read
runs the miss handler and, when that succeeds, hands the fresh entry to the statements
after the read. -/
theorem getData_readfail_eq {σ ρ : Type} (env : Env σ ρ) (rpcCall : RpcCall σ ρ)
    (rpcCallName cacheKey : String) (softTTL hardTTL : Int)
    (readFromCache : ReadPredicate σ) (writeToCache : WritePredicate σ ρ) (r : Run σ ρ)
    (w1 w2 : σ) (got : Bytes × Option GoError)
    (hskip : env.skipCache = false) (hrd : readFromCache r.world = (true, w1))
    (hget : env.cacheProvider.GetAPI cacheKey w1 = (got, w2))
    (hfail : got.2 ≠ none ∨
      ∃ err, DecompressStruct env.lib got.1 env.compressionLibrary = .error err) :
    getData env rpcCall rpcCallName cacheKey softTTL hardTTL readFromCache writeToCache r =
      match (handleCacheMiss env cacheKey rpcCall softTTL hardTTL rpcCallName writeToCache
          ⟨w2, r.trace ++ [Event.cacheGet cacheKey], r.spawned⟩).1 with
      | .error err => ((none, some err),
          (handleCacheMiss env cacheKey rpcCall softTTL hardTTL rpcCallName writeToCache
            ⟨w2, r.trace ++ [Event.cacheGet cacheKey], r.spawned⟩).2)
      | .ok result =>
          getDataAfterRead env rpcCall rpcCallName cacheKey softTTL hardTTL writeToCache
            result
            (handleCacheMiss env cacheKey rpcCall softTTL hardTTL rpcCallName writeToCache
              ⟨w2, r.trace ++ [Event.cacheGet cacheKey], r.spawned⟩).2 := by
  obtain ⟨gdata, gerr⟩ := got
  have hf : ∃ err, (fetchFromCache env cacheKey ⟨w1, r.trace, r.spawned⟩).1 = .error err := by
    rw [fetchFromCache_error_iff]
    simpa [hget] using hfail
  obtain ⟨err0, hf⟩ := hf
  have hrun := fetchFromCache_run env cacheKey ⟨w1, r.trace, r.spawned⟩
  simp only [hget] at hrun
  simp only [getData, isSkipCache, hskip, Prog.bind_apply, onWorld_apply, hrd,
    Bool.false_eq_true, if_false, Bool.not_true, hf, hrun]
  cases (handleCacheMiss env cacheKey rpcCall softTTL hardTTL rpcCallName writeToCache
          ⟨w2, r.trace ++ [Event.cacheGet cacheKey], r.spawned⟩).1 <;> rfl

theorem getDataAfterRead_result {σ ρ : Type} (env : Env σ ρ) (rpcCall : RpcCall σ ρ)
    (rpcCallName cacheKey : String) (softTTL hardTTL : Int)
    (writeToCache : WritePredicate σ ρ) (result : CacheValue) (r : Run σ ρ) :
    (getDataAfterRead env rpcCall rpcCallName cacheKey softTTL hardTTL writeToCache
        result r).1 = generateResp env.lib result := by
  cases h : isPastSoftTTLThreshhold result (env.timeNowUnix r.world).1
  · exact (getDataAfterRead_fresh env rpcCall rpcCallName cacheKey softTTL hardTTL
      writeToCache result r h).1
  · exact (getDataAfterRead_stale env rpcCall rpcCallName cacheKey softTTL hardTTL
      writeToCache result r h).1

/-- What `updateCache` adds to the trace contains no remote call, no cache `Get` and
no metric. -/
theorem updateCache_quiet {σ ρ : Type} (env : Env σ ρ) (key : String)
    (rpcCallResp : Option ρ) (softTTL hardTTL : Int) (writeToCache : WritePredicate σ ρ)
    (r : Run σ ρ) :
    ∃ evs, (updateCache env key rpcCallResp softTTL hardTTL writeToCache r).2.trace =
        r.trace ++ evs ∧
      numRpcCall evs = 0 ∧ numCacheGet evs = 0 ∧ numMetric evs = 0 := by
  obtain ⟨-, h⟩ := updateCache_cases env key rpcCallResp softTTL hardTTL writeToCache r
  rcases h with ⟨resp, data, val, -, -, -, -, htr⟩ | ⟨-, htr | ⟨t, htr⟩⟩
  · exact ⟨_, htr, by simp [numRpcCall], by simp [numCacheGet], by simp [numMetric]⟩
  · exact ⟨[], by simpa using htr, by simp [numRpcCall], by simp [numCacheGet],
      by simp [numMetric]⟩
  · exact ⟨_, htr, by simp [numRpcCall], by simp [numCacheGet], by simp [numMetric]⟩

/-- The goroutine of `handleCacheSoftHit`: one remote call, then `updateCache` on its
response unless the call failed. -/
theorem refresh_run {σ ρ : Type} (env : Env σ ρ) (key : String) (rpcCall : RpcCall σ ρ)
    (softTTL hardTTL : Int) (writeToCache : WritePredicate σ ρ) (r : Run σ ρ) :
    numRpcCall (effects (Task.run env
      (Task.refresh key rpcCall softTTL hardTTL writeToCache)) r) = 1 ∧
    (∀ resp, (rpcCall r.world).1 = (resp, none) →
      Task.run env (Task.refresh key rpcCall softTTL hardTTL writeToCache) r =
        updateCache env key resp softTTL hardTTL writeToCache (callRpc rpcCall r).2) ∧
    (∀ resp err, (rpcCall r.world).1 = (resp, some err) →
      Task.run env (Task.refresh key rpcCall softTTL hardTTL writeToCache) r =
        ((), (callRpc rpcCall r).2)) := by
  refine ⟨?_, ?_, ?_⟩
  · cases h : (rpcCall r.world).1.2 with
    | some err =>
      have : (Task.run env (Task.refresh key rpcCall softTTL hardTTL writeToCache) r).2.trace
          = r.trace ++ [Event.rpcCall] := by
        simp [Task.run, callRpc_apply, h]
      rw [effects_eq _ _ _ this]
      simp [numRpcCall]
    | none =>
      obtain ⟨evs, htr, h0, -, -⟩ := updateCache_quiet env key (rpcCall r.world).1.1
        softTTL hardTTL writeToCache (callRpc rpcCall r).2
      have : (Task.run env (Task.refresh key rpcCall softTTL hardTTL writeToCache) r).2.trace
          = r.trace ++ ([Event.rpcCall] ++ evs) := by
        have hc1 : (callRpc rpcCall r).1 = (rpcCall r.world).1 := rfl
        simp only [Task.run, Prog.bind_apply, hc1, h]
        rw [htr]
        simp [callRpc_apply]
      rw [effects_eq _ _ _ this]
      simp only [numRpcCall, List.filter_append, List.length_append] at h0 ⊢
      simp [h0]
  · intro resp h
    simp [Task.run, callRpc_apply, h]
  · intro resp err h
    simp [Task.run, callRpc_apply, h]

/-- A failed cache read followed by a successful remote call whose response marshals to
`data`: the fresh entry `(t1, softTTL, data)` is handed to the statements after the
read, which take a second clock reading `t2` and test the fresh entry for staleness. -/
theorem getData_readfail_ok {σ ρ : Type} (env : Env σ ρ) (rpcCall : RpcCall σ ρ)
    (rpcCallName cacheKey : String) (softTTL hardTTL : Int)
    (readFromCache : ReadPredicate σ) (writeToCache : WritePredicate σ ρ) (r : Run σ ρ)
    (w1 w2 w3 w4 w5 : σ) (got : Bytes × Option GoError) (resp : Option ρ) (data : String)
    (t1 t2 : Int)
    (hskip : env.skipCache = false) (hrd : readFromCache r.world = (true, w1))
    (hget : env.cacheProvider.GetAPI cacheKey w1 = (got, w2))
    (hfail : got.2 ≠ none ∨
      ∃ err, DecompressStruct env.lib got.1 env.compressionLibrary = .error err)
    (hrpc : rpcCall (metricWorld env (fun m => m.IncreaseCacheMissMetric rpcCallName) w2) =
      ((resp, none), w3))
    (hm : env.lib.MarshalToString resp = .ok data)
    (hnow1 : env.timeNowUnix w3 = (t1, w4)) (hnow2 : env.timeNowUnix w4 = (t2, w5)) :
    (getData env rpcCall rpcCallName cacheKey softTTL hardTTL readFromCache writeToCache
      r).1 = generateResp env.lib ⟨t1, softTTL, data⟩ ∧
    (isPastSoftTTLThreshhold ⟨t1, softTTL, data⟩ t2 = true →
      (getData env rpcCall rpcCallName cacheKey softTTL hardTTL readFromCache writeToCache
        r).2.trace = r.trace ++ ([Event.cacheGet cacheKey] ++
          metricEvents env (Event.missMetric rpcCallName) ++
          [Event.rpcCall, Event.now t1, Event.now t2] ++
          metricEvents env (Event.softHitMetric rpcCallName) ++
          metricEvents env (Event.hitMetric rpcCallName)) ∧
      (getData env rpcCall rpcCallName cacheKey softTTL hardTTL readFromCache writeToCache
        r).2.spawned = r.spawned ++
          [Task.updateCache cacheKey resp softTTL hardTTL writeToCache,
            Task.refresh cacheKey rpcCall softTTL hardTTL writeToCache]) ∧
    (isPastSoftTTLThreshhold ⟨t1, softTTL, data⟩ t2 = false →
      (getData env rpcCall rpcCallName cacheKey softTTL hardTTL readFromCache writeToCache
        r).2.trace = r.trace ++ ([Event.cacheGet cacheKey] ++
          metricEvents env (Event.missMetric rpcCallName) ++
          [Event.rpcCall, Event.now t1, Event.now t2] ++
          metricEvents env (Event.hitMetric rpcCallName)) ∧
      (getData env rpcCall rpcCallName cacheKey softTTL hardTTL readFromCache writeToCache
        r).2.spawned = r.spawned ++
          [Task.updateCache cacheKey resp softTTL hardTTL writeToCache]) := by
  have heq := getData_readfail_eq env rpcCall rpcCallName cacheKey softTTL hardTTL
    readFromCache writeToCache r w1 w2 got hskip hrd hget hfail
  obtain ⟨a, b, c, d⟩ := getData_miss_ok env cacheKey rpcCall softTTL hardTTL rpcCallName
    writeToCache ⟨w2, r.trace ++ [Event.cacheGet cacheKey], r.spawned⟩ resp data
    (by simp [hrpc]) hm
  simp only [hrpc, hnow1] at a b c d
  rw [a] at heq
  simp only at heq
  refine ⟨by rw [heq]; exact getDataAfterRead_result _ _ _ _ _ _ _ _ _, ?_, ?_⟩
  · intro hp
    obtain ⟨-, y, z⟩ := getDataAfterRead_stale env rpcCall rpcCallName cacheKey softTTL
      hardTTL writeToCache ⟨t1, softTTL, data⟩
      (handleCacheMiss env cacheKey rpcCall softTTL hardTTL rpcCallName writeToCache
        ⟨w2, r.trace ++ [Event.cacheGet cacheKey], r.spawned⟩).2
      (by rw [d, hnow2]; exact hp)
    rw [heq, y, z, b, c, d, hnow2]
    simp
  · intro hp
    obtain ⟨-, y, z⟩ := getDataAfterRead_fresh env rpcCall rpcCallName cacheKey softTTL
      hardTTL writeToCache ⟨t1, softTTL, data⟩
      (handleCacheMiss env cacheKey rpcCall softTTL hardTTL rpcCallName writeToCache
        ⟨w2, r.trace ++ [Event.cacheGet cacheKey], r.spawned⟩).2
      (by rw [d, hnow2]; exact hp)
    rw [heq, y, z, b, c, d, hnow2]
    simp

/-- Without a metrics provider no run of `getData` records a metric, on any path. -/
theorem getData_no_provider {σ ρ : Type} (env : Env σ ρ) (rpcCall : RpcCall σ ρ)
    (rpcCallName cacheKey : String) (softTTL hardTTL : Int)
    (readFromCache : ReadPredicate σ) (writeToCache : WritePredicate σ ρ) (r : Run σ ρ)
    (hnone : env.metricsProvider = none) :
    numMetric (effects (getData env rpcCall rpcCallName cacheKey softTTL hardTTL
      readFromCache writeToCache) r) = 0 := by
  have hme : ∀ ev, metricEvents env ev = [] := by
    intro ev; simp [metricEvents, hnone]
  cases hs : env.skipCache with
  | true =>
    have h := getData_skip_eq env hs rpcCall rpcCallName cacheKey softTTL hardTTL
      readFromCache writeToCache r
    rw [effects_eq _ _ [Event.rpcCall] (by rw [h, callRpc_apply])]
    simp [numMetric]
  | false =>
    rcases hrd : readFromCache r.world with ⟨b, w1⟩
    cases b with
    | false =>
      have heq := getData_bypass_eq env rpcCall rpcCallName cacheKey softTTL hardTTL
        readFromCache writeToCache r hs (by rw [hrd])
      simp only [hrd] at heq
      rcases hr : (rpcCall (metricWorld env
        (fun m => m.IncreaseCacheMissMetric rpcCallName) w1)).1 with ⟨res, _ | err⟩
      · cases hm : env.lib.MarshalToString res with
        | error e =>
          obtain ⟨-, b, -⟩ := getData_miss_marshal_error env cacheKey rpcCall softTTL
            hardTTL rpcCallName writeToCache ⟨w1, r.trace, r.spawned⟩ res e hr hm
          rw [effects_eq _ _ _ (by rw [heq]; exact b)]
          simp [numMetric, hme]
        | ok data0 =>
          obtain ⟨-, b, -, -⟩ := getData_miss_ok env cacheKey rpcCall softTTL hardTTL
            rpcCallName writeToCache ⟨w1, r.trace, r.spawned⟩ res data0 hr hm
          rw [effects_eq _ _ _ (by rw [heq]; exact b)]
          simp [numMetric, hme]
      · obtain ⟨-, b, -⟩ := getData_miss_rpc_error env cacheKey rpcCall softTTL hardTTL
          rpcCallName writeToCache ⟨w1, r.trace, r.spawned⟩ res err hr
        rw [effects_eq _ _ _ (by rw [heq]; exact b)]
        simp [numMetric, hme]
    | true =>
      rcases hget : env.cacheProvider.GetAPI cacheKey w1 with ⟨⟨gd, ge⟩, w2⟩
      by_cases hfail : ge ≠ none ∨
          ∃ err, DecompressStruct env.lib gd env.compressionLibrary = .error err
      · have heq := getData_readfail_eq env rpcCall rpcCallName cacheKey softTTL hardTTL
          readFromCache writeToCache r w1 w2 (gd, ge) hs hrd hget hfail
        rcases hr : rpcCall (metricWorld env
          (fun m => m.IncreaseCacheMissMetric rpcCallName) w2) with ⟨⟨res, _ | err⟩, w3⟩
        · cases hm : env.lib.MarshalToString res with
          | error e =>
            obtain ⟨a, b, -⟩ := getData_miss_marshal_error env cacheKey rpcCall softTTL
              hardTTL rpcCallName writeToCache
              ⟨w2, r.trace ++ [Event.cacheGet cacheKey], r.spawned⟩ res e
              (by simp [hr]) hm
            rw [a] at heq
            simp only at heq
            rw [effects_eq _ _ ([Event.cacheGet cacheKey] ++
              (metricEvents env (Event.missMetric rpcCallName) ++ [Event.rpcCall]))
              (by rw [heq]; simp only [b]; simp)]
            simp [numMetric, hme]
          | ok data0 =>
            rcases hn1 : env.timeNowUnix w3 with ⟨t1, w4⟩
            rcases hn2 : env.timeNowUnix w4 with ⟨t2, w5⟩
            obtain ⟨-, hst, hfr⟩ := getData_readfail_ok env rpcCall rpcCallName cacheKey
              softTTL hardTTL readFromCache writeToCache r w1 w2 w3 w4 w5 (gd, ge) res
              data0 t1 t2 hs hrd hget hfail hr hm hn1 hn2
            cases hp : isPastSoftTTLThreshhold ⟨t1, softTTL, data0⟩ t2 with
            | true =>
              rw [effects_eq _ _ _ (hst hp).1]
              simp [numMetric, hme]
            | false =>
              rw [effects_eq _ _ _ (hfr hp).1]
              simp [numMetric, hme]
        · obtain ⟨a, b, -⟩ := getData_miss_rpc_error env cacheKey rpcCall softTTL hardTTL
            rpcCallName writeToCache ⟨w2, r.trace ++ [Event.cacheGet cacheKey], r.spawned⟩
            res err (by simp [hr])
          rw [a] at heq
          simp only at heq
          rw [effects_eq _ _ ([Event.cacheGet cacheKey] ++
            (metricEvents env (Event.missMetric rpcCallName) ++ [Event.rpcCall]))
            (by rw [heq]; simp only [b]; simp)]
          simp [numMetric, hme]
      · have hge : ge = none := by
          by_contra hc
          exact hfail (Or.inl hc)
        subst hge
        cases hd : DecompressStruct env.lib gd env.compressionLibrary with
        | error e0 => exact absurd (Or.inr ⟨e0, hd⟩) hfail
        | ok e =>
          have heq := getData_hit_eq env rpcCall rpcCallName cacheKey softTTL hardTTL
            readFromCache writeToCache r w1 w2 gd e hs hrd hget hd
          cases hp : isPastSoftTTLThreshhold e (env.timeNowUnix w2).1 with
          | true =>
            obtain ⟨-, b, -⟩ := getDataAfterRead_stale env rpcCall rpcCallName cacheKey
              softTTL hardTTL writeToCache e
              ⟨w2, r.trace ++ [Event.cacheGet cacheKey], r.spawned⟩ hp
            rw [effects_eq _ _ ([Event.cacheGet cacheKey] ++
              ([Event.now (env.timeNowUnix w2).1] ++
                metricEvents env (Event.softHitMetric rpcCallName) ++
                metricEvents env (Event.hitMetric rpcCallName)))
              (by rw [heq, b]; simp)]
            simp [numMetric, hme]
          | false =>
            obtain ⟨-, b, -⟩ := getDataAfterRead_fresh env rpcCall rpcCallName cacheKey
              softTTL hardTTL writeToCache e
              ⟨w2, r.trace ++ [Event.cacheGet cacheKey], r.spawned⟩ hp
            rw [effects_eq _ _ ([Event.cacheGet cacheKey] ++
              ([Event.now (env.timeNowUnix w2).1] ++
                metricEvents env (Event.hitMetric rpcCallName)))
              (by rw [heq, b]; simp)]
            simp [numMetric, hme]

theorem generateResp_error {ρ : Type} (lib : Lib ρ) (c : CacheValue) (err : GoError)
    (h : (generateResp lib c).2 = some err) :
    ∃ e, lib.UnmarshalFromString c.Data = .error e ∧
      err = GoError.wrap e "unable to marshal cache value to rpc response" := by
  unfold generateResp generateResponseStructFromCacheVal at h
  cases hu : lib.UnmarshalFromString c.Data with
  | error e =>
    simp only [hu] at h
    exact ⟨e, rfl, by simpa using h.symm⟩
  | ok v => simp [hu] at h

/-- Where an error returned by `getData` comes from: the synchronous remote call
(returned as it is when the cache is switched off, wrapped otherwise), the marshalling
of the remote call's response, or the deserialization of an entry payload. -/
theorem getData_error_cases {σ ρ : Type} (env : Env σ ρ) (rpcCall : RpcCall σ ρ)
    (rpcCallName cacheKey : String) (softTTL hardTTL : Int)
    (readFromCache : ReadPredicate σ) (writeToCache : WritePredicate σ ρ) (r : Run σ ρ)
    (err : GoError)
    (h : (getData env rpcCall rpcCallName cacheKey softTTL hardTTL readFromCache
      writeToCache r).1.2 = some err) :
    (∃ w res e, (rpcCall w).1 = (res, some e) ∧
      ((env.skipCache = true ∧ err = e) ∨
        (env.skipCache = false ∧ err = GoError.wrap e "rpc call failed"))) ∨
    (∃ res e, (∃ w, (rpcCall w).1 = (res, none)) ∧
      env.lib.MarshalToString res = .error e ∧
      err = GoError.wrap e "unable to marshal rpc response") ∨
    (∃ (c : CacheValue) (e : GoError), env.lib.UnmarshalFromString c.Data = .error e ∧
      err = GoError.wrap e "unable to marshal cache value to rpc response") := by
  cases hs : env.skipCache with
  | true =>
    rw [getData_skip_eq env hs rpcCall rpcCallName cacheKey softTTL hardTTL
      readFromCache writeToCache r, callRpc_apply] at h
    simp only at h
    exact Or.inl ⟨r.world, (rpcCall r.world).1.1, err, Prod.ext rfl h, Or.inl ⟨rfl, rfl⟩⟩
  | false =>
    rcases hrd : readFromCache r.world with ⟨b, w1⟩
    cases b with
    | false =>
      have heq := getData_bypass_eq env rpcCall rpcCallName cacheKey softTTL hardTTL
        readFromCache writeToCache r hs (by rw [hrd])
      simp only [hrd] at heq
      rcases hr : (rpcCall (metricWorld env
        (fun m => m.IncreaseCacheMissMetric rpcCallName) w1)).1 with ⟨res, _ | e⟩
      · cases hm : env.lib.MarshalToString res with
        | error e =>
          obtain ⟨a, -, -⟩ := getData_miss_marshal_error env cacheKey rpcCall softTTL
            hardTTL rpcCallName writeToCache ⟨w1, r.trace, r.spawned⟩ res e hr hm
          rw [heq] at h
          simp only [a, Option.some.injEq] at h
          exact Or.inr (Or.inl ⟨res, e, ⟨_, hr⟩, hm, h.symm⟩)
        | ok data0 =>
          obtain ⟨a, -, -, -⟩ := getData_miss_ok env cacheKey rpcCall softTTL hardTTL
            rpcCallName writeToCache ⟨w1, r.trace, r.spawned⟩ res data0 hr hm
          rw [heq] at h
          simp only [a] at h
          obtain ⟨e, h1, h2⟩ := generateResp_error _ _ _ h
          exact Or.inr (Or.inr ⟨_, e, h1, h2⟩)
      · obtain ⟨a, -, -⟩ := getData_miss_rpc_error env cacheKey rpcCall softTTL hardTTL
          rpcCallName writeToCache ⟨w1, r.trace, r.spawned⟩ res e hr
        rw [heq] at h
        simp only [a, Option.some.injEq] at h
        exact Or.inl ⟨_, res, e, hr, Or.inr ⟨rfl, h.symm⟩⟩
    | true =>
      rcases hget : env.cacheProvider.GetAPI cacheKey w1 with ⟨⟨gd, ge⟩, w2⟩
      by_cases hfail : ge ≠ none ∨
          ∃ err, DecompressStruct env.lib gd env.compressionLibrary = .error err
      · have heq := getData_readfail_eq env rpcCall rpcCallName cacheKey softTTL hardTTL
          readFromCache writeToCache r w1 w2 (gd, ge) hs hrd hget hfail
        rcases hr : rpcCall (metricWorld env
          (fun m => m.IncreaseCacheMissMetric rpcCallName) w2) with ⟨⟨res, _ | e⟩, w3⟩
        · cases hm : env.lib.MarshalToString res with
          | error e =>
            obtain ⟨a, -, -⟩ := getData_miss_marshal_error env cacheKey rpcCall softTTL
              hardTTL rpcCallName writeToCache
              ⟨w2, r.trace ++ [Event.cacheGet cacheKey], r.spawned⟩ res e
              (by simp [hr]) hm
            rw [a] at heq
            simp only at heq
            rw [heq] at h
            simp only [Option.some.injEq] at h
            exact Or.inr (Or.inl ⟨res, e, ⟨_, by rw [hr]⟩, hm, h.symm⟩)
          | ok data0 =>
            rcases hn1 : env.timeNowUnix w3 with ⟨t1, w4⟩
            rcases hn2 : env.timeNowUnix w4 with ⟨t2, w5⟩
            obtain ⟨a, -, -⟩ := getData_readfail_ok env rpcCall rpcCallName cacheKey
              softTTL hardTTL readFromCache writeToCache r w1 w2 w3 w4 w5 (gd, ge) res
              data0 t1 t2 hs hrd hget hfail hr hm hn1 hn2
            rw [a] at h
            obtain ⟨e, h1, h2⟩ := generateResp_error _ _ _ h
            exact Or.inr (Or.inr ⟨_, e, h1, h2⟩)
        · obtain ⟨a, -, -⟩ := getData_miss_rpc_error env cacheKey rpcCall softTTL hardTTL
            rpcCallName writeToCache ⟨w2, r.trace ++ [Event.cacheGet cacheKey], r.spawned⟩
            res e (by simp [hr])
          rw [a] at heq
          simp only at heq
          rw [heq] at h
          simp only [Option.some.injEq] at h
          exact Or.inl ⟨_, res, e, by rw [hr], Or.inr ⟨rfl, h.symm⟩⟩
      · have hge : ge = none := by
          by_contra hc
          exact hfail (Or.inl hc)
        subst hge
        cases hd : DecompressStruct env.lib gd env.compressionLibrary with
        | error e0 => exact absurd (Or.inr ⟨e0, hd⟩) hfail
        | ok e =>
          rw [getData_hit_eq env rpcCall rpcCallName cacheKey softTTL hardTTL
            readFromCache writeToCache r w1 w2 gd e hs hrd hget hd,
            getDataAfterRead_result] at h
          obtain ⟨e1, h1, h2⟩ := generateResp_error _ _ _ h
          exact Or.inr (Or.inr ⟨_, e1, h1, h2⟩)

/-- On a `*CacheValue` the general `CompressStruct` and `DecompressStruct` are the ones
`getData` uses. -/
theorem compress_of_cacheValue {ρ : Type} (lib : Lib ρ) (s : CacheValue) (data : Bytes)
    (c : Int) :
    CompressStructOf lib lib.Marshal s c = CompressStruct lib s c ∧
    DecompressStructOf lib lib.Unmarshal data c = DecompressStruct lib data c := by
  constructor
  · rfl
  · unfold DecompressStructOf DecompressStruct unmarshalEntry
    simp only
    split_ifs
    · cases gzipDecompression lib data with
      | error e => rfl
      | ok b => cases h : lib.Unmarshal b <;> simp [h]
    · cases snappyDecompression lib data with
      | error e => rfl
      | ok b => cases h : lib.Unmarshal b <;> simp [h]
    · cases h : lib.Unmarshal data <;> simp [h]

/-- The only entry a metric emission can leave in the trace is its own event. -/
theorem mem_metricEvents {σ ρ : Type} (env : Env σ ρ) (ev e : Event)
    (h : e ∈ metricEvents env ev) : e = ev := by
  unfold metricEvents at h
  cases hm : env.metricsProvider <;> simp [hm] at h
  exact h

/-- A trace without a cache `Set` counts none. -/
theorem numCacheSet_eq_zero (evs : List Event) (h : ∀ e ∈ evs, notCacheSet e) :
    numCacheSet evs = 0 := by
  unfold numCacheSet
  rw [List.length_eq_zero, List.filter_eq_nil_iff]
  intro e he
  have := h e he
  cases e <;> simp
  exact this _ _ _ rfl

/-- The miss handler adds no cache `Set` to the trace and starts at most the write-back
of the response. -/
theorem handleCacheMiss_adds {σ ρ : Type} (env : Env σ ρ) (key : String)
    (rpcCall : RpcCall σ ρ) (softTTL hardTTL : Int) (rpcCallName : String)
    (writeToCache : WritePredicate σ ρ) :
    Adds notCacheSet (isDetached key rpcCall softTTL hardTTL writeToCache)
      (handleCacheMiss env key rpcCall softTTL hardTTL rpcCallName writeToCache) := by
  intro r
  have hmiss : ∀ e ∈ metricEvents env (Event.missMetric rpcCallName), notCacheSet e := by
    intro e he
    rw [mem_metricEvents env _ e he]
    intro k v t hc
    cases hc
  cases h : (rpcCall (metricWorld env
      (fun m => m.IncreaseCacheMissMetric rpcCallName) r.world)).1.2 with
  | some err =>
    rw [handleCacheMiss_error env key rpcCall softTTL hardTTL rpcCallName writeToCache r err h]
    refine ⟨metricEvents env (Event.missMetric rpcCallName) ++ [Event.rpcCall], [],
      by simp, by simp, ?_, by simp⟩
    intro e he
    rcases List.mem_append.mp he with h1 | h1
    · exact hmiss e h1
    · simp only [List.mem_singleton] at h1
      subst h1
      intro k v t hc
      cases hc
  | none =>
    rw [handleCacheMiss_ok env key rpcCall softTTL hardTTL rpcCallName writeToCache r h]
    cases hm : env.lib.MarshalToString (rpcCall (metricWorld env
        (fun m => m.IncreaseCacheMissMetric rpcCallName) r.world)).1.1 with
    | error e0 =>
      rw [makeCacheValue_error env _ softTTL _ e0 hm]
      refine ⟨metricEvents env (Event.missMetric rpcCallName) ++ [Event.rpcCall], [_],
        by simp, rfl, ?_, ?_⟩
      · intro e he
        rcases List.mem_append.mp he with h1 | h1
        · exact hmiss e h1
        · simp only [List.mem_singleton] at h1
          subst h1
          intro k v t hc
          cases hc
      · intro t ht
        simp only [List.mem_singleton] at ht
        exact Or.inl ⟨_, ht⟩
    | ok data =>
      rw [makeCacheValue_ok env _ softTTL _ data hm]
      refine ⟨metricEvents env (Event.missMetric rpcCallName) ++ [Event.rpcCall] ++
        [Event.now (env.timeNowUnix (rpcCall (metricWorld env
          (fun m => m.IncreaseCacheMissMetric rpcCallName) r.world)).2).1], [_],
        by simp, rfl, ?_, ?_⟩
      · intro e he
        rcases List.mem_append.mp he with h1 | h1
        · rcases List.mem_append.mp h1 with h2 | h2
          · exact hmiss e h2
          · simp only [List.mem_singleton] at h2
            subst h2
            intro k v t hc
            cases hc
        · simp only [List.mem_singleton] at h1
          subst h1
          intro k v t hc
          cases hc
      · intro t ht
        simp only [List.mem_singleton] at ht
        exact Or.inl ⟨_, ht⟩

/-- The statements after the cache read add no cache `Set` to the trace and start at
most the refresh. -/
theorem getDataAfterRead_adds {σ ρ : Type} (env : Env σ ρ) (rpcCall : RpcCall σ ρ)
    (rpcCallName cacheKey : String) (softTTL hardTTL : Int)
    (writeToCache : WritePredicate σ ρ) (result : CacheValue) :
    Adds notCacheSet (isDetached cacheKey rpcCall softTTL hardTTL writeToCache)
      (getDataAfterRead env rpcCall rpcCallName cacheKey softTTL hardTTL writeToCache
        result) := by
  intro r
  have hmet : ∀ ev, (∀ k v t, ev ≠ Event.cacheSet k v t) →
      ∀ e ∈ metricEvents env ev, notCacheSet e := by
    intro ev hev e he
    rw [mem_metricEvents env _ e he]
    exact hev
  cases h : isPastSoftTTLThreshhold result (env.timeNowUnix r.world).1 with
  | true =>
    obtain ⟨-, h2, h3⟩ := getDataAfterRead_stale env rpcCall rpcCallName cacheKey softTTL
      hardTTL writeToCache result r h
    refine ⟨_, _, h2, h3, ?_, ?_⟩
    · intro e he
      rcases List.mem_append.mp he with h1 | h1
      · rcases List.mem_append.mp h1 with h4 | h4
        · simp only [List.mem_singleton] at h4
          subst h4
          intro k v t hc
          cases hc
        · exact hmet _ (by intro k v t hc; cases hc) e h4
      · exact hmet _ (by intro k v t hc; cases hc) e h1
    · intro t ht
      simp only [List.mem_singleton] at ht
      exact Or.inr ht
  | false =>
    obtain ⟨-, h2, h3⟩ := getDataAfterRead_fresh env rpcCall rpcCallName cacheKey softTTL
      hardTTL writeToCache result r h
    refine ⟨_, [], h2, by simp [h3], ?_, by simp⟩
    intro e he
    rcases List.mem_append.mp he with h1 | h1
    · simp only [List.mem_singleton] at h1
      subst h1
      intro k v t hc
      cases hc
    · exact hmet _ (by intro k v t hc; cases hc) e h1

/-- With the cache enabled and the read predicate returning true, the first effect of
`getData` is the cache `Get` of the key; what follows holds no cache `Set`, and the
goroutines started are the detached write-back and refresh. -/
theorem getData_read_adds {σ ρ : Type} (env : Env σ ρ) (rpcCall : RpcCall σ ρ)
    (rpcCallName cacheKey : String) (softTTL hardTTL : Int)
    (readFromCache : ReadPredicate σ) (writeToCache : WritePredicate σ ρ) (r : Run σ ρ)
    (hskip : env.skipCache = false) (hrd : (readFromCache r.world).1 = true) :
    ∃ evs ts,
      (getData env rpcCall rpcCallName cacheKey softTTL hardTTL readFromCache
        writeToCache r).2.trace = r.trace ++ Event.cacheGet cacheKey :: evs ∧
      (getData env rpcCall rpcCallName cacheKey softTTL hardTTL readFromCache
        writeToCache r).2.spawned = r.spawned ++ ts ∧
      (∀ e ∈ evs, notCacheSet e) ∧
      ∀ t ∈ ts, isDetached cacheKey rpcCall softTTL hardTTL writeToCache t := by
  rcases hrd2 : readFromCache r.world with ⟨b, w1⟩
  rw [hrd2] at hrd
  simp only at hrd
  subst hrd
  rcases hget : env.cacheProvider.GetAPI cacheKey w1 with ⟨⟨gd, ge⟩, w2⟩
  by_cases hfail : ge ≠ none ∨
      ∃ err, DecompressStruct env.lib gd env.compressionLibrary = .error err
  · have heq := getData_readfail_eq env rpcCall rpcCallName cacheKey softTTL hardTTL
      readFromCache writeToCache r w1 w2 (gd, ge) hskip hrd2 hget hfail
    obtain ⟨evs1, ts1, a1, a2, a3, a4⟩ := handleCacheMiss_adds env cacheKey rpcCall softTTL
      hardTTL rpcCallName writeToCache ⟨w2, r.trace ++ [Event.cacheGet cacheKey], r.spawned⟩
    cases hres : (handleCacheMiss env cacheKey rpcCall softTTL hardTTL rpcCallName
        writeToCache ⟨w2, r.trace ++ [Event.cacheGet cacheKey], r.spawned⟩).1 with
    | error err =>
      rw [hres] at heq
      simp only at heq
      rw [heq]
      exact ⟨evs1, ts1, by simp [a1], a2, a3, a4⟩
    | ok result =>
      rw [hres] at heq
      simp only at heq
      rw [heq]
      obtain ⟨evs2, ts2, b1, b2, b3, b4⟩ := getDataAfterRead_adds env rpcCall rpcCallName
        cacheKey softTTL hardTTL writeToCache result
        (handleCacheMiss env cacheKey rpcCall softTTL hardTTL rpcCallName
          writeToCache ⟨w2, r.trace ++ [Event.cacheGet cacheKey], r.spawned⟩).2
      refine ⟨evs1 ++ evs2, ts1 ++ ts2, by simp [b1, a1], by simp [b2, a2], ?_, ?_⟩
      · intro e he
        rcases List.mem_append.mp he with h1 | h1
        · exact a3 e h1
        · exact b3 e h1
      · intro t ht
        rcases List.mem_append.mp ht with h1 | h1
        · exact a4 t h1
        · exact b4 t h1
  · have hge : ge = none := by
      by_contra hc
      exact hfail (Or.inl hc)
    subst hge
    cases hd : DecompressStruct env.lib gd env.compressionLibrary with
    | error e0 => exact absurd (Or.inr ⟨e0, hd⟩) hfail
    | ok e =>
      rw [getData_hit_eq env rpcCall rpcCallName cacheKey softTTL hardTTL
        readFromCache writeToCache r w1 w2 gd e hskip hrd2 hget hd]
      obtain ⟨evs2, ts2, b1, b2, b3, b4⟩ := getDataAfterRead_adds env rpcCall rpcCallName
        cacheKey softTTL hardTTL writeToCache e
        ⟨w2, r.trace ++ [Event.cacheGet cacheKey], r.spawned⟩
      exact ⟨evs2, ts2, by simp [b1], b2, b3, b4⟩

/-- On every path `getData` adds no cache `Set` to the trace, and the goroutines it
starts are the detached write-back and refresh. -/
theorem getData_adds {σ ρ : Type} (env : Env σ ρ) (rpcCall : RpcCall σ ρ)
    (rpcCallName cacheKey : String) (softTTL hardTTL : Int)
    (readFromCache : ReadPredicate σ) (writeToCache : WritePredicate σ ρ) :
    Adds notCacheSet (isDetached cacheKey rpcCall softTTL hardTTL writeToCache)
      (getData env rpcCall rpcCallName cacheKey softTTL hardTTL readFromCache
        writeToCache) := by
  intro r
  cases hs : env.skipCache with
  | true =>
    rw [getData_skip_eq env hs rpcCall rpcCallName cacheKey softTTL hardTTL
      readFromCache writeToCache r, callRpc_apply]
    refine ⟨[Event.rpcCall], [], rfl, by simp, ?_, by simp⟩
    intro e he
    simp only [List.mem_singleton] at he
    subst he
    intro k v t hc
    cases hc
  | false =>
    cases hrd : (readFromCache r.world).1 with
    | false =>
      rw [getData_bypass_eq env rpcCall rpcCallName cacheKey softTTL hardTTL
        readFromCache writeToCache r hs hrd]
      exact handleCacheMiss_adds env cacheKey rpcCall softTTL hardTTL rpcCallName
        writeToCache ⟨(readFromCache r.world).2, r.trace, r.spawned⟩
    | true =>
      obtain ⟨evs, ts, a1, a2, a3, a4⟩ := getData_read_adds env rpcCall rpcCallName
        cacheKey softTTL hardTTL readFromCache writeToCache r hs hrd
      refine ⟨Event.cacheGet cacheKey :: evs, ts, a1, a2, ?_, a4⟩
      intro e he
      rcases List.mem_cons.mp he with h1 | h1
      · subst h1
        intro k v t hc
        cases hc
      · exact a3 e h1

/-- Once `initOnce` has been used, a sequence of `Init` calls returns nil errors only and
leaves the process as it is. -/
theorem initCalls_used {A MC M : Type} (lib : InitLib A MC M) (cfgs : List (Config A MC))
    (p : Process A M) (h : p.initOnce = true) :
    initCalls lib cfgs p = (List.replicate cfgs.length none, p) := by
  induction cfgs with
  | nil => rfl
  | cons cfg rest ih =>
    have h1 : Init lib cfg p = (none, p) := by simp [Init, h]
    simp only [initCalls, h1, ih, List.length_cons, List.replicate_succ]

/-- The `base64.URLEncoding` text of `3 * n + 1` bytes is `4 * n + 2` characters of the
URL alphabet followed by two padding characters. -/
theorem base64URLEncode_padded (n : Nat) :
    ∀ l : Bytes, l.length = 3 * n + 1 →
      ∃ body, base64URLEncode l = body ++ ['=', '='] ∧ body.length = 4 * n + 2 ∧
        ∀ c ∈ body, c ∈ base64URLAlphabet := by
  induction n with
  | zero =>
    intro l hl
    match l, hl with
    | [a], _ =>
      have ha := a.toNat_lt
      refine ⟨[base64URLChar (a.toNat / 4), base64URLChar (a.toNat % 4 * 16)], rfl, rfl, ?_⟩
      intro c hc
      simp only [List.mem_cons, List.mem_singleton, List.not_mem_nil, or_false] at hc
      rcases hc with rfl | rfl
      · exact base64URLChar_mem _ (by omega)
      · exact base64URLChar_mem _ (by omega)
  | succ n ih =>
    intro l hl
    match l, hl with
    | a :: b :: c :: rest, hl =>
      have ha := a.toNat_lt
      have hb := b.toNat_lt
      have hc := c.toNat_lt
      obtain ⟨body, h1, h2, h3⟩ := ih rest (by simp only [List.length_cons] at hl; omega)
      refine ⟨base64URLChar (a.toNat / 4) ::
        base64URLChar (a.toNat % 4 * 16 + b.toNat / 16) ::
        base64URLChar (b.toNat % 16 * 4 + c.toNat / 64) ::
        base64URLChar (c.toNat % 64) :: body, ?_, ?_, ?_⟩
      · simp [base64URLEncode, h1]
      · simp only [List.length_cons, h2]
        omega
      · intro x hx
        simp only [List.mem_cons] at hx
        rcases hx with rfl | rfl | rfl | rfl | hx
        · exact base64URLChar_mem _ (by omega)
        · exact base64URLChar_mem _ (by omega)
        · exact base64URLChar_mem _ (by omega)
        · exact base64URLChar_mem _ (by omega)
        · exact h3 x hx

/-- Every hashed key is 86 characters of the URL alphabet followed by `==`. -/
theorem hashKey_padded (digest : Sha512) (key : String) :
    ∃ body, (hashKey digest key).data = body ++ ['=', '='] ∧ body.length = 86 ∧
      ∀ c ∈ body, c ∈ base64URLAlphabet := by
  obtain ⟨body, h1, h2, h3⟩ := base64URLEncode_padded 21
    (digest.sum key.toUTF8.data.toList) (by rw [digest.size])
  exact ⟨body, h1, h2, h3⟩

/-! ## The claims -/

/-- C1 (as stated, refuted at two entries).  With `UpdatedTS` the largest `int64` and a
soft TTL of one second the sum wraps around and the entry is reported stale at time 0,
although `UpdatedTS + 1 < 0` is false; and for the soft TTL `16777216.999999999s` the
float conversion yields `16777217` whole seconds, so at time 16777217 an entry with
`UpdatedTS = 0` is reported not stale although `0 + 16777216 < 16777217`. -/
theorem isPastSoftTTLThreshhold_not_plain_comparison :
    (isPastSoftTTLThreshhold ⟨9223372036854775807, 1000000000, ""⟩ 0 = true ∧
      ¬ ((9223372036854775807 : Int) + Int.tdiv 1000000000 Second < 0)) ∧
    (isPastSoftTTLThreshhold ⟨0, 16777216999999999, ""⟩ 16777217 = false ∧
      (0 : Int) + Int.tdiv 16777216999999999 Second < 16777217) := by
  refine ⟨⟨?_, by decide⟩, ⟨?_, by decide⟩⟩
  · unfold isPastSoftTTLThreshhold
    rw [wholeSeconds_eq_tdiv _ (by decide) (by decide)]
    decide
  · unfold isPastSoftTTLThreshhold
    simp only [wholeSeconds_rounds_up]
    decide

/-- C1 (amended): for every cache entry whose soft TTL is below `2 ^ 24` seconds in
magnitude and for which `UpdatedTS + s` fits in an `int64`, where `s` is the entry's
`SoftTTL` truncated to whole seconds, and for every Unix time `now`:
`isPastSoftTTLThreshhold` is true iff `UpdatedTS + s < now`; an entry with
`UpdatedTS + s = now` is not stale; and inside `getData` the refresh is started iff the
entry read is stale by its own `SoftTTL`, whatever `softTTL` the call was given. -/
theorem isPastSoftTTLThreshhold_iff {σ ρ : Type} (e : CacheValue) (now : Int)
    (h1 : -16777216000000000 < e.SoftTTL) (h2 : e.SoftTTL < 16777216000000000)
    (h3 : -9223372036854775808 ≤ e.UpdatedTS + Int.tdiv e.SoftTTL Second)
    (h4 : e.UpdatedTS + Int.tdiv e.SoftTTL Second < 9223372036854775808)
    (env : Env σ ρ) (rpcCall : RpcCall σ ρ) (rpcCallName cacheKey : String)
    (softTTL hardTTL : Int) (writeToCache : WritePredicate σ ρ) (r : Run σ ρ) :
    (isPastSoftTTLThreshhold e now = true ↔
      e.UpdatedTS + Int.tdiv e.SoftTTL Second < now) ∧
    (e.UpdatedTS + Int.tdiv e.SoftTTL Second = now →
      isPastSoftTTLThreshhold e now = false) ∧
    (refreshes (started (getDataAfterRead env rpcCall rpcCallName cacheKey softTTL hardTTL
        writeToCache e) r) ≠ [] ↔
      e.UpdatedTS + Int.tdiv e.SoftTTL Second < (env.timeNowUnix r.world).1) := by
  have key := isPast_of_bounds e
  refine ⟨by rw [key now h1 h2 h3 h4]; simp, ?_, ?_⟩
  · intro h
    rw [key now h1 h2 h3 h4]
    simp [h]
  · have hk := key (env.timeNowUnix r.world).1 h1 h2 h3 h4
    cases hp : isPastSoftTTLThreshhold e (env.timeNowUnix r.world).1 with
    | true =>
      obtain ⟨-, -, hs⟩ := getDataAfterRead_stale env rpcCall rpcCallName cacheKey softTTL
        hardTTL writeToCache e r hp
      rw [started_eq _ _ _ hs]
      rw [hp] at hk
      simpa [refreshes] using hk
    | false =>
      obtain ⟨-, -, hs⟩ := getDataAfterRead_fresh env rpcCall rpcCallName cacheKey softTTL
        hardTTL writeToCache e r hp
      rw [started_eq _ _ [] (by simpa using hs)]
      rw [hp] at hk
      simpa [refreshes] using hk

/-- C1, witness: the entry updated at 90 with a soft TTL of 5s, at time 100, inside the
example environment called with a soft TTL of 60s. -/
theorem isPastSoftTTLThreshhold_iff_witness :
    (isPastSoftTTLThreshhold ⟨90, 5000000000, "1"⟩ 100 = true ↔
      (90 : Int) + Int.tdiv 5000000000 Second < 100) ∧
    ((90 : Int) + Int.tdiv 5000000000 Second = 100 →
      isPastSoftTTLThreshhold ⟨90, 5000000000, "1"⟩ 100 = false) ∧
    (refreshes (started (getDataAfterRead (exEnv false ([1], none))
        (exRpc (some Reply.plain, none)) "rpcCallName" "cacheKey" 60000000000 120000000000
        exWrite ⟨90, 5000000000, "1"⟩) exRun) ≠ [] ↔
      (90 : Int) + Int.tdiv 5000000000 Second <
        ((exEnv false ([1], none)).timeNowUnix exRun.world).1) :=
  isPastSoftTTLThreshhold_iff ⟨90, 5000000000, "1"⟩ 100 (by decide) (by decide)
    (by decide) (by decide) (exEnv false ([1], none)) (exRpc (some Reply.plain, none))
    "rpcCallName" "cacheKey" 60000000000 120000000000 exWrite exRun

/-- C8: with the process-wide `skipCache` toggle on, `getData` invokes `rpcCall` exactly
once and returns its `(response, error)` pair unchanged, whatever the remote call, key,
TTLs and predicates; the remote call is its only effect (no cache `Get`, no cache `Set`,
no metric, no clock reading, neither predicate consulted) and it starts no goroutine. -/
theorem getData_skipCache {σ ρ : Type} (env : Env σ ρ) (rpcCall : RpcCall σ ρ)
    (rpcCallName cacheKey : String) (softTTL hardTTL : Int)
    (readFromCache : ReadPredicate σ) (writeToCache : WritePredicate σ ρ) (r : Run σ ρ)
    (hskip : env.skipCache = true) :
    (getData env rpcCall rpcCallName cacheKey softTTL hardTTL readFromCache writeToCache
      r).1 = (rpcCall r.world).1 ∧
    (getData env rpcCall rpcCallName cacheKey softTTL hardTTL readFromCache writeToCache
      r).2 = ⟨(rpcCall r.world).2, r.trace ++ [Event.rpcCall], r.spawned⟩ ∧
    numRpcCall (effects (getData env rpcCall rpcCallName cacheKey softTTL hardTTL
      readFromCache writeToCache) r) = 1 ∧
    numCacheGet (effects (getData env rpcCall rpcCallName cacheKey softTTL hardTTL
      readFromCache writeToCache) r) = 0 ∧
    numCacheSet (effects (getData env rpcCall rpcCallName cacheKey softTTL hardTTL
      readFromCache writeToCache) r) = 0 ∧
    numMetric (effects (getData env rpcCall rpcCallName cacheKey softTTL hardTTL
      readFromCache writeToCache) r) = 0 ∧
    started (getData env rpcCall rpcCallName cacheKey softTTL hardTTL readFromCache
      writeToCache) r = [] := by
  have h := getData_skip_eq env hskip rpcCall rpcCallName cacheKey softTTL hardTTL
    readFromCache writeToCache r
  have he : effects (getData env rpcCall rpcCallName cacheKey softTTL hardTTL
      readFromCache writeToCache) r = [Event.rpcCall] :=
    effects_eq _ _ _ (by rw [h, callRpc_apply])
  have hs : started (getData env rpcCall rpcCallName cacheKey softTTL hardTTL
      readFromCache writeToCache) r = [] :=
    started_eq _ _ _ (by rw [h, callRpc_apply]; simp)
  rw [he, hs, h, callRpc_apply]
  simp [numRpcCall, numCacheGet, numCacheSet, numMetric]

/-- C8, witness: the cache switched off, a remote call that fails while also returning a
response, and predicates that would allow reading and writing. -/
theorem getData_skipCache_witness :
    (exEnv true ([1], none)).skipCache = true ∧
    ((getData (exEnv true ([1], none))
        (exRpc (some Reply.boxed, some (GoError.mk "unavailable")))
        "rpcCallName" "cacheKey" 1000000000 2000000000 (exRead true) exWrite exRun).1 =
      ((exRpc (some Reply.boxed, some (GoError.mk "unavailable"))) exRun.world).1 ∧
    (getData (exEnv true ([1], none))
        (exRpc (some Reply.boxed, some (GoError.mk "unavailable")))
        "rpcCallName" "cacheKey" 1000000000 2000000000 (exRead true) exWrite exRun).2 =
      ⟨((exRpc (some Reply.boxed, some (GoError.mk "unavailable"))) exRun.world).2,
        exRun.trace ++ [Event.rpcCall], exRun.spawned⟩ ∧
    numRpcCall (effects (getData (exEnv true ([1], none))
        (exRpc (some Reply.boxed, some (GoError.mk "unavailable")))
        "rpcCallName" "cacheKey" 1000000000 2000000000 (exRead true) exWrite) exRun) = 1 ∧
    numCacheGet (effects (getData (exEnv true ([1], none))
        (exRpc (some Reply.boxed, some (GoError.mk "unavailable")))
        "rpcCallName" "cacheKey" 1000000000 2000000000 (exRead true) exWrite) exRun) = 0 ∧
    numCacheSet (effects (getData (exEnv true ([1], none))
        (exRpc (some Reply.boxed, some (GoError.mk "unavailable")))
        "rpcCallName" "cacheKey" 1000000000 2000000000 (exRead true) exWrite) exRun) = 0 ∧
    numMetric (effects (getData (exEnv true ([1], none))
        (exRpc (some Reply.boxed, some (GoError.mk "unavailable")))
        "rpcCallName" "cacheKey" 1000000000 2000000000 (exRead true) exWrite) exRun) = 0 ∧
    started (getData (exEnv true ([1], none))
        (exRpc (some Reply.boxed, some (GoError.mk "unavailable")))
        "rpcCallName" "cacheKey" 1000000000 2000000000 (exRead true) exWrite) exRun = []) :=
  ⟨rfl, getData_skipCache (exEnv true ([1], none))
    (exRpc (some Reply.boxed, some (GoError.mk "unavailable")))
    "rpcCallName" "cacheKey" 1000000000 2000000000 (exRead true) exWrite exRun rfl⟩

/-- C10: cache enabled, `readFromCache` true, the backend `Get` returns bytes that decode
to an entry `e`, but `e.Data` does not deserialize into the response type.  Then
`getData` returns a nil response and the wrapped deserialization error; it does not fall
back to the miss path: `rpcCall` is not invoked, no miss metric is emitted and no
write-back is started (the only goroutine it can start is the refresh of a stale
entry). -/
theorem getData_payload_error {σ ρ : Type} (env : Env σ ρ) (rpcCall : RpcCall σ ρ)
    (rpcCallName cacheKey : String) (softTTL hardTTL : Int)
    (readFromCache : ReadPredicate σ) (writeToCache : WritePredicate σ ρ) (r : Run σ ρ)
    (w1 w2 : σ) (data : Bytes) (e : CacheValue) (err : GoError)
    (hskip : env.skipCache = false) (hrd : readFromCache r.world = (true, w1))
    (hget : env.cacheProvider.GetAPI cacheKey w1 = ((data, none), w2))
    (hdec : DecompressStruct env.lib data env.compressionLibrary = .ok e)
    (hbad : env.lib.UnmarshalFromString e.Data = .error err) :
    (getData env rpcCall rpcCallName cacheKey softTTL hardTTL readFromCache writeToCache
      r).1 = (none,
        some (GoError.wrap err "unable to marshal cache value to rpc response")) ∧
    numRpcCall (effects (getData env rpcCall rpcCallName cacheKey softTTL hardTTL
      readFromCache writeToCache) r) = 0 ∧
    numMissMetric (effects (getData env rpcCall rpcCallName cacheKey softTTL hardTTL
      readFromCache writeToCache) r) = 0 ∧
    (started (getData env rpcCall rpcCallName cacheKey softTTL hardTTL readFromCache
      writeToCache) r = [] ∨
     started (getData env rpcCall rpcCallName cacheKey softTTL hardTTL readFromCache
      writeToCache) r = [Task.refresh cacheKey rpcCall softTTL hardTTL writeToCache]) := by
  have heq := getData_hit_eq env rpcCall rpcCallName cacheKey softTTL hardTTL
    readFromCache writeToCache r w1 w2 data e hskip hrd hget hdec
  have hres : generateResp env.lib e = (none,
      some (GoError.wrap err "unable to marshal cache value to rpc response")) := by
    simp [generateResp, generateResponseStructFromCacheVal, hbad]
  obtain ⟨-, m2, m3, -, -, -, -, -, -, -, -, -, k2, k3⟩ :=
    numRpcCall_metricEvents env rpcCallName
  cases hp : isPastSoftTTLThreshhold e (env.timeNowUnix w2).1 with
  | false =>
    obtain ⟨a, b, c⟩ := getDataAfterRead_fresh env rpcCall rpcCallName cacheKey softTTL
      hardTTL writeToCache e ⟨w2, r.trace ++ [Event.cacheGet cacheKey], r.spawned⟩ hp
    have he := effects_eq (getData env rpcCall rpcCallName cacheKey softTTL hardTTL
      readFromCache writeToCache) r ([Event.cacheGet cacheKey,
        Event.now (env.timeNowUnix w2).1]
        ++ metricEvents env (Event.hitMetric rpcCallName)) (by rw [heq, b]; simp)
    have hs := started_eq (getData env rpcCall rpcCallName cacheKey softTTL hardTTL
      readFromCache writeToCache) r [] (by rw [heq]; simpa using c)
    refine ⟨by rw [heq, a, hres], ?_, ?_, Or.inl hs⟩
    · rw [he]
      simp only [numRpcCall, List.filter_append, List.length_append] at m2 ⊢
      simp [m2]
    · rw [he]
      simp only [numMissMetric, List.filter_append, List.length_append] at k2 ⊢
      simp [k2]
  | true =>
    obtain ⟨a, b, c⟩ := getDataAfterRead_stale env rpcCall rpcCallName cacheKey softTTL
      hardTTL writeToCache e ⟨w2, r.trace ++ [Event.cacheGet cacheKey], r.spawned⟩ hp
    have he := effects_eq (getData env rpcCall rpcCallName cacheKey softTTL hardTTL
      readFromCache writeToCache) r ([Event.cacheGet cacheKey,
        Event.now (env.timeNowUnix w2).1]
        ++ metricEvents env (Event.softHitMetric rpcCallName)
        ++ metricEvents env (Event.hitMetric rpcCallName)) (by rw [heq, b]; simp)
    have hs := started_eq (getData env rpcCall rpcCallName cacheKey softTTL hardTTL
      readFromCache writeToCache) r _ (by rw [heq]; exact c)
    refine ⟨by rw [heq, a, hres], ?_, ?_, Or.inr hs⟩
    · rw [he]
      simp only [numRpcCall, List.filter_append, List.length_append] at m2 m3 ⊢
      simp [m2, m3]
    · rw [he]
      simp only [numMissMetric, List.filter_append, List.length_append] at k2 k3 ⊢
      simp [k2, k3]

/-- C10, witness: the stored entry is fresh but its payload `2` does not deserialize into
the response type. -/
theorem getData_payload_error_witness :
    (exEnv false ([3], none)).skipCache = false ∧
    exRead true exRun.world = (true, 0) ∧
    (exEnv false ([3], none)).cacheProvider.GetAPI "cacheKey" 0 = (([3], none), 0) ∧
    DecompressStruct (exEnv false ([3], none)).lib [3]
      (exEnv false ([3], none)).compressionLibrary = .ok ⟨100, 5000000000, "2"⟩ ∧
    (exEnv false ([3], none)).lib.UnmarshalFromString
      (⟨100, 5000000000, "2"⟩ : CacheValue).Data =
        .error (GoError.mk "json: cannot unmarshal into Go value") ∧
    (getData (exEnv false ([3], none)) (exRpc (some Reply.plain, none)) "rpcCallName"
      "cacheKey" 10000000000 40000000000 (exRead true) exWrite exRun).1 =
        (none, some (GoError.wrap (GoError.mk "json: cannot unmarshal into Go value")
          "unable to marshal cache value to rpc response")) ∧
    numRpcCall (effects (getData (exEnv false ([3], none)) (exRpc (some Reply.plain, none))
      "rpcCallName" "cacheKey" 10000000000 40000000000 (exRead true) exWrite) exRun) = 0 ∧
    numMissMetric (effects (getData (exEnv false ([3], none))
      (exRpc (some Reply.plain, none))
      "rpcCallName" "cacheKey" 10000000000 40000000000 (exRead true) exWrite) exRun) = 0 :=
  ⟨rfl, rfl, rfl, rfl, rfl,
    (getData_payload_error (exEnv false ([3], none)) (exRpc (some Reply.plain, none))
      "rpcCallName" "cacheKey" 10000000000 40000000000 (exRead true) exWrite exRun 0 0 [3]
      ⟨100, 5000000000, "2"⟩ (GoError.mk "json: cannot unmarshal into Go value")
      rfl rfl rfl rfl rfl).1,
    (getData_payload_error (exEnv false ([3], none)) (exRpc (some Reply.plain, none))
      "rpcCallName" "cacheKey" 10000000000 40000000000 (exRead true) exWrite exRun 0 0 [3]
      ⟨100, 5000000000, "2"⟩ (GoError.mk "json: cannot unmarshal into Go value")
      rfl rfl rfl rfl rfl).2.1,
    (getData_payload_error (exEnv false ([3], none)) (exRpc (some Reply.plain, none))
      "rpcCallName" "cacheKey" 10000000000 40000000000 (exRead true) exWrite exRun 0 0 [3]
      ⟨100, 5000000000, "2"⟩ (GoError.mk "json: cannot unmarshal into Go value")
      rfl rfl rfl rfl rfl).2.2.1⟩

/-- C4 (as stated, refuted at two inputs).  In both, the cache is enabled, the read
predicate returns true, the cache read fails and the synchronous remote call succeeds,
yet `getData` returns a nil response and a non-nil error.  First input: the backend
`Get` fails and the response is a NaN, which has no JSON form, so `makeCacheValue`
fails.  Second input: the backend returns undecodable bytes and the response marshals
to JSON that does not deserialize into the response type, so `generateResp` fails. -/
theorem getData_readfail_rpc_ok_still_errors :
    ((exRpc (some Reply.nan, none) 0).1.2 = none ∧
      (getData (exEnv false ([], some (GoError.mk "connection refused")))
        (exRpc (some Reply.nan, none)) "rpcCallName" "cacheKey" 1000000000 2000000000
        (exRead true) exWrite exRun).1 =
      (none, some (GoError.wrap (GoError.mk "json: unsupported value: NaN")
        "unable to marshal rpc response"))) ∧
    ((exRpc (some Reply.boxed, none) 0).1.2 = none ∧
      (getData (exEnv false ([9], none))
        (exRpc (some Reply.boxed, none)) "rpcCallName" "cacheKey" 1000000000 2000000000
        (exRead true) exWrite exRun).1 =
      (none, some (GoError.wrap (GoError.mk "json: cannot unmarshal into Go value")
        "unable to marshal cache value to rpc response"))) := by
  refine ⟨⟨rfl, ?_⟩, ⟨rfl, ?_⟩⟩
  · have heq := getData_readfail_eq (exEnv false ([], some (GoError.mk "connection refused")))
      (exRpc (some Reply.nan, none)) "rpcCallName" "cacheKey" 1000000000 2000000000
      (exRead true) exWrite exRun 0 0 ([], some (GoError.mk "connection refused")) rfl rfl
      rfl (Or.inl (by simp))
    obtain ⟨a, -, -⟩ := getData_miss_marshal_error
      (exEnv false ([], some (GoError.mk "connection refused"))) "cacheKey"
      (exRpc (some Reply.nan, none)) 1000000000 2000000000 "rpcCallName" exWrite
      ⟨0, exRun.trace ++ [Event.cacheGet "cacheKey"], exRun.spawned⟩ (some Reply.nan)
      (GoError.mk "json: unsupported value: NaN") rfl rfl
    rw [heq, a]
  · have h := getData_readfail_ok (exEnv false ([9], none))
      (exRpc (some Reply.boxed, none)) "rpcCallName" "cacheKey" 1000000000 2000000000
      (exRead true) exWrite exRun 0 0 0 1 2 ([9], none) (some Reply.boxed) "2" 100 101
      rfl rfl rfl (Or.inr ⟨_, rfl⟩) rfl rfl rfl rfl
    rw [h.1]
    rfl

/-- C5 (evaluation at the failing input): soft TTL 0, hard TTL 2s, a backend `Get` that
fails, a remote call that succeeds, and a clock that shows 100 when the fresh entry is
stamped and 101 when `getData` goes on to test that entry for staleness.  `getData`
makes the synchronous remote call, then finds the entry it has just built stale and
starts a refresh as well; the refresh makes a second remote call. -/
theorem getData_readfail_starts_refresh :
    effects (getData (exEnv false ([], some (GoError.mk "connection refused")))
      (exRpc (some Reply.plain, none)) "rpcCallName" "cacheKey" 0 2000000000
      (exRead true) exWrite) exRun =
        [Event.cacheGet "cacheKey", Event.rpcCall, Event.now 100, Event.now 101] ∧
    started (getData (exEnv false ([], some (GoError.mk "connection refused")))
      (exRpc (some Reply.plain, none)) "rpcCallName" "cacheKey" 0 2000000000
      (exRead true) exWrite) exRun =
        [Task.updateCache "cacheKey" (some Reply.plain) 0 2000000000 exWrite,
          Task.refresh "cacheKey" (exRpc (some Reply.plain, none)) 0 2000000000 exWrite] ∧
    numRpcCall (effects (getData (exEnv false ([], some (GoError.mk "connection refused")))
      (exRpc (some Reply.plain, none)) "rpcCallName" "cacheKey" 0 2000000000
      (exRead true) exWrite) exRun) = 1 ∧
    numRpcCall (effects (Task.run (exEnv false ([], some (GoError.mk "connection refused")))
      (Task.refresh "cacheKey" (exRpc (some Reply.plain, none)) 0 2000000000 exWrite))
      (getData (exEnv false ([], some (GoError.mk "connection refused")))
        (exRpc (some Reply.plain, none)) "rpcCallName" "cacheKey" 0 2000000000
        (exRead true) exWrite exRun).2) = 1 := by
  have hstale : isPastSoftTTLThreshhold ⟨100, 0, "1"⟩ 101 = true := by
    rw [isPast_of_bounds _ _ (by decide) (by decide) (by decide) (by decide)]
    decide
  have h := getData_readfail_ok (exEnv false ([], some (GoError.mk "connection refused")))
    (exRpc (some Reply.plain, none)) "rpcCallName" "cacheKey" 0 2000000000
    (exRead true) exWrite exRun 0 0 0 1 2 ([], some (GoError.mk "connection refused"))
    (some Reply.plain) "1" 100 101 rfl rfl rfl (Or.inl (by simp)) rfl rfl rfl rfl
  obtain ⟨htr, hsp⟩ := h.2.1 hstale
  have he := effects_eq _ _ _ htr
  have hs := started_eq _ _ _ hsp
  refine ⟨?_, hs, ?_, ?_⟩
  · rw [he]; rfl
  · rw [he]; rfl
  · exact (refresh_run _ _ _ _ _ _ _).1

/-- C6: on the miss path, whether it is entered because `readFromCache` returns false or
because the cache read fails, a failing `rpcCall` makes `getData` return a nil response
and the error of `rpcCall` wrapped as `rpc call failed`; the run performs no cache
`Set`, starts no goroutine (so none is scheduled), and takes no clock reading (no cache
entry is built): after the optional cache `Get`, its only effects are the miss metric
and the remote call. -/
theorem getData_miss_rpc_fails {σ ρ : Type} (env : Env σ ρ) (rpcCall : RpcCall σ ρ)
    (rpcCallName cacheKey : String) (softTTL hardTTL : Int)
    (readFromCache : ReadPredicate σ) (writeToCache : WritePredicate σ ρ) (r : Run σ ρ)
    (hskip : env.skipCache = false) :
    (∀ (w1 : σ) (resp : Option ρ) (err : GoError),
      readFromCache r.world = (false, w1) →
      (rpcCall (metricWorld env (fun m => m.IncreaseCacheMissMetric rpcCallName) w1)).1 =
        (resp, some err) →
      (getData env rpcCall rpcCallName cacheKey softTTL hardTTL readFromCache writeToCache
        r).1 = (none, some (GoError.wrap err "rpc call failed")) ∧
      (getData env rpcCall rpcCallName cacheKey softTTL hardTTL readFromCache writeToCache
        r).2.trace = r.trace ++
          (metricEvents env (Event.missMetric rpcCallName) ++ [Event.rpcCall]) ∧
      numCacheSet (effects (getData env rpcCall rpcCallName cacheKey softTTL hardTTL
        readFromCache writeToCache) r) = 0 ∧
      numNow (effects (getData env rpcCall rpcCallName cacheKey softTTL hardTTL
        readFromCache writeToCache) r) = 0 ∧
      started (getData env rpcCall rpcCallName cacheKey softTTL hardTTL readFromCache
        writeToCache) r = []) ∧
    (∀ (w1 w2 : σ) (got : Bytes × Option GoError) (resp : Option ρ) (err : GoError),
      readFromCache r.world = (true, w1) →
      env.cacheProvider.GetAPI cacheKey w1 = (got, w2) →
      (got.2 ≠ none ∨
        ∃ e, DecompressStruct env.lib got.1 env.compressionLibrary = .error e) →
      (rpcCall (metricWorld env (fun m => m.IncreaseCacheMissMetric rpcCallName) w2)).1 =
        (resp, some err) →
      (getData env rpcCall rpcCallName cacheKey softTTL hardTTL readFromCache writeToCache
        r).1 = (none, some (GoError.wrap err "rpc call failed")) ∧
      (getData env rpcCall rpcCallName cacheKey softTTL hardTTL readFromCache writeToCache
        r).2.trace = r.trace ++ ([Event.cacheGet cacheKey] ++
          metricEvents env (Event.missMetric rpcCallName) ++ [Event.rpcCall]) ∧
      numCacheSet (effects (getData env rpcCall rpcCallName cacheKey softTTL hardTTL
        readFromCache writeToCache) r) = 0 ∧
      numNow (effects (getData env rpcCall rpcCallName cacheKey softTTL hardTTL
        readFromCache writeToCache) r) = 0 ∧
      started (getData env rpcCall rpcCallName cacheKey softTTL hardTTL readFromCache
        writeToCache) r = []) := by
  obtain ⟨-, -, -, -, -, -, s1, -, -, n1, -⟩ := numRpcCall_metricEvents env rpcCallName
  constructor
  · intro w1 resp err hrd hrpc
    have heq := getData_bypass_eq env rpcCall rpcCallName cacheKey softTTL hardTTL
      readFromCache writeToCache r hskip (by rw [hrd])
    simp only [hrd] at heq
    obtain ⟨a, b, c⟩ := getData_miss_rpc_error env cacheKey rpcCall softTTL hardTTL
      rpcCallName writeToCache ⟨w1, r.trace, r.spawned⟩ resp err hrpc
    have htr : (getData env rpcCall rpcCallName cacheKey softTTL hardTTL readFromCache
        writeToCache r).2.trace = r.trace ++
          (metricEvents env (Event.missMetric rpcCallName) ++ [Event.rpcCall]) := by
      rw [heq]; exact b
    have he := effects_eq _ _ _ htr
    have hs := started_eq (getData env rpcCall rpcCallName cacheKey softTTL hardTTL
      readFromCache writeToCache) r [] (by rw [heq]; simpa using c)
    refine ⟨by rw [heq]; simp only [a], htr, ?_, ?_, hs⟩
    · rw [he]
      simp only [numCacheSet, List.filter_append, List.length_append] at s1 ⊢
      simp [s1]
    · rw [he]
      simp only [numNow, List.filter_append, List.length_append] at n1 ⊢
      simp [n1]
  · intro w1 w2 got resp err hrd hget hfail hrpc
    have heq := getData_readfail_eq env rpcCall rpcCallName cacheKey softTTL hardTTL
      readFromCache writeToCache r w1 w2 got hskip hrd hget hfail
    obtain ⟨a, b, c⟩ := getData_miss_rpc_error env cacheKey rpcCall softTTL hardTTL
      rpcCallName writeToCache ⟨w2, r.trace ++ [Event.cacheGet cacheKey], r.spawned⟩
      resp err hrpc
    rw [a] at heq
    simp only at heq
    have htr : (getData env rpcCall rpcCallName cacheKey softTTL hardTTL readFromCache
        writeToCache r).2.trace = r.trace ++ ([Event.cacheGet cacheKey] ++
          metricEvents env (Event.missMetric rpcCallName) ++ [Event.rpcCall]) := by
      rw [heq]; simp only [b]; simp
    have he := effects_eq _ _ _ htr
    have hs := started_eq (getData env rpcCall rpcCallName cacheKey softTTL hardTTL
      readFromCache writeToCache) r [] (by rw [heq]; simpa using c)
    refine ⟨by rw [heq], htr, ?_, ?_, hs⟩
    · rw [he]
      simp only [numCacheSet, List.filter_append, List.length_append] at s1 ⊢
      simp [s1]
    · rw [he]
      simp only [numNow, List.filter_append, List.length_append] at n1 ⊢
      simp [n1]

/-- C6, witness: a remote call that fails, once behind a read predicate that returns
false and once behind a backend `Get` that fails. -/
theorem getData_miss_rpc_fails_witness :
    (exEnv false ([], some (GoError.mk "connection refused"))).skipCache = false ∧
    ((getData (exEnv false ([], some (GoError.mk "connection refused")))
      (exRpc (none, some (GoError.mk "unavailable"))) "rpcCallName" "cacheKey" 1000000000
      2000000000 (exRead false) exWrite exRun).1 =
        (none, some (GoError.wrap (GoError.mk "unavailable") "rpc call failed")) ∧
    started (getData (exEnv false ([], some (GoError.mk "connection refused")))
      (exRpc (none, some (GoError.mk "unavailable"))) "rpcCallName" "cacheKey" 1000000000
      2000000000 (exRead false) exWrite) exRun = []) ∧
    ((getData (exEnv false ([], some (GoError.mk "connection refused")))
      (exRpc (none, some (GoError.mk "unavailable"))) "rpcCallName" "cacheKey" 1000000000
      2000000000 (exRead true) exWrite exRun).1 =
        (none, some (GoError.wrap (GoError.mk "unavailable") "rpc call failed")) ∧
    numCacheSet (effects (getData (exEnv false ([], some (GoError.mk "connection refused")))
      (exRpc (none, some (GoError.mk "unavailable"))) "rpcCallName" "cacheKey" 1000000000
      2000000000 (exRead true) exWrite) exRun) = 0 ∧
    started (getData (exEnv false ([], some (GoError.mk "connection refused")))
      (exRpc (none, some (GoError.mk "unavailable"))) "rpcCallName" "cacheKey" 1000000000
      2000000000 (exRead true) exWrite) exRun = []) :=
  ⟨rfl,
    ⟨((getData_miss_rpc_fails (exEnv false ([], some (GoError.mk "connection refused")))
        (exRpc (none, some (GoError.mk "unavailable"))) "rpcCallName" "cacheKey" 1000000000
        2000000000 (exRead false) exWrite exRun rfl).1 0 none (GoError.mk "unavailable")
        rfl rfl).1,
     ((getData_miss_rpc_fails (exEnv false ([], some (GoError.mk "connection refused")))
        (exRpc (none, some (GoError.mk "unavailable"))) "rpcCallName" "cacheKey" 1000000000
        2000000000 (exRead false) exWrite exRun rfl).1 0 none (GoError.mk "unavailable")
        rfl rfl).2.2.2.2⟩,
    ⟨((getData_miss_rpc_fails (exEnv false ([], some (GoError.mk "connection refused")))
        (exRpc (none, some (GoError.mk "unavailable"))) "rpcCallName" "cacheKey" 1000000000
        2000000000 (exRead true) exWrite exRun rfl).2 0 0
        ([], some (GoError.mk "connection refused")) none (GoError.mk "unavailable")
        rfl rfl (Or.inl (by simp)) rfl).1,
     ((getData_miss_rpc_fails (exEnv false ([], some (GoError.mk "connection refused")))
        (exRpc (none, some (GoError.mk "unavailable"))) "rpcCallName" "cacheKey" 1000000000
        2000000000 (exRead true) exWrite exRun rfl).2 0 0
        ([], some (GoError.mk "connection refused")) none (GoError.mk "unavailable")
        rfl rfl (Or.inl (by simp)) rfl).2.2.1,
     ((getData_miss_rpc_fails (exEnv false ([], some (GoError.mk "connection refused")))
        (exRpc (none, some (GoError.mk "unavailable"))) "rpcCallName" "cacheKey" 1000000000
        2000000000 (exRead true) exWrite exRun rfl).2 0 0
        ([], some (GoError.mk "connection refused")) none (GoError.mk "unavailable")
        rfl rfl (Or.inl (by simp)) rfl).2.2.2.2⟩⟩

/-- C17 (as stated, refuted): for the nil request (the nil interface value) with
`worldHello`, 2s, 3s and `v1.0.0`, the string that `GenerateCacheKey` hashes is
`worldHello::2:3:v1.0.0`, with an empty request component, and not
`worldHello:null:2:3:v1.0.0`; under the stand-in digest the two keys differ. -/
theorem GenerateCacheKey_nil_interface_not_null :
    GenerateCacheKey exDigest exMarshalReq none "worldHello" 2000000000 3000000000
      "v1.0.0" = (hashKey exDigest "worldHello::2:3:v1.0.0", none) ∧
    hashKey exDigest "worldHello::2:3:v1.0.0" ≠
      hashKey exDigest "worldHello:null:2:3:v1.0.0" := by
  refine ⟨?_, by decide⟩
  simp [GenerateCacheKey, constructUnhashedKey_examples.2.1]

/-- C17 (amended): for a nil request pointer, which the JSON marshaller renders as
`null` (this is the request every caller in the package and the test `nil req` pass),
`GenerateCacheKey` returns a nil error and the digest of `fn:null:S:H:v`; for the nil
interface value it returns a nil error and the digest of `fn::S:H:v`, the request
component being empty. -/
theorem GenerateCacheKey_nil {τ : Type} (digest : Sha512)
    (marshal : Option τ → Except GoError String) (fn : String) (soft hard : Int)
    (v : String) (hnull : marshal none = .ok "null") :
    GenerateCacheKey digest marshal (some none) fn soft hard v =
      (hashKey digest (fn ++ ":" ++ "null" ++ ":" ++ formatDecimal (wholeSeconds soft)
        ++ ":" ++ formatDecimal (wholeSeconds hard) ++ ":" ++ v), none) ∧
    GenerateCacheKey digest marshal none fn soft hard v =
      (hashKey digest (fn ++ ":" ++ "" ++ ":" ++ formatDecimal (wholeSeconds soft)
        ++ ":" ++ formatDecimal (wholeSeconds hard) ++ ":" ++ v), none) := by
  constructor
  · simp [GenerateCacheKey, hnull, constructUnhashedKey]
  · simp [GenerateCacheKey, constructUnhashedKey]

/-- C17, witness: the test `nil req`: a nil request pointer, `worldHello`, 2s, 3s,
`v1.0.0` gives the hash of `worldHello:null:2:3:v1.0.0`. -/
theorem GenerateCacheKey_nil_witness :
    exMarshalReq none = .ok "null" ∧
    GenerateCacheKey exDigest exMarshalReq (some none) "worldHello" 2000000000 3000000000
      "v1.0.0" = (hashKey exDigest "worldHello:null:2:3:v1.0.0", none) :=
  ⟨rfl, by
    have h := (GenerateCacheKey_nil exDigest exMarshalReq "worldHello" 2000000000
      3000000000 "v1.0.0" rfl).1
    rw [h]
    have k := constructUnhashedKey_examples.1
    unfold constructUnhashedKey at k
    rw [k]⟩

/-- C18: for a fixed call identity, request, soft TTL and hard TTL, two different
version strings give different composite key strings. -/
theorem constructUnhashedKey_version (fn req : String) (soft hard : Int) (v1 v2 : String)
    (h : v1 ≠ v2) :
    constructUnhashedKey fn req soft hard v1 ≠ constructUnhashedKey fn req soft hard v2 := by
  intro hk
  apply h
  unfold constructUnhashedKey at hk
  exact string_append_left_cancel _ _ _ hk

/-- C18, witness: versions `v1.0.0` and `v1.0.1`. -/
theorem constructUnhashedKey_version_witness :
    "v1.0.0" ≠ "v1.0.1" ∧
    constructUnhashedKey "helloWorld" "[1,2]" 1000000000 2000000000 "v1.0.0" ≠
      constructUnhashedKey "helloWorld" "[1,2]" 1000000000 2000000000 "v1.0.1" :=
  ⟨by decide, constructUnhashedKey_version "helloWorld" "[1,2]" 1000000000 2000000000
    "v1.0.0" "v1.0.1" (by decide)⟩

/-- C19 (as stated, refuted): the soft TTLs 1s and 1.5s are different durations but give
the same composite key string, and so do the hard TTLs 1s and 1.5s. -/
theorem constructUnhashedKey_ttl_collision :
    ((1000000000 : Int) ≠ 1500000000 ∧
      constructUnhashedKey "helloWorld" "[1,2]" 1000000000 2000000000 "v1.0.0" =
        constructUnhashedKey "helloWorld" "[1,2]" 1500000000 2000000000 "v1.0.0") ∧
    ((1000000000 : Int) ≠ 1500000000 ∧
      constructUnhashedKey "helloWorld" "[1,2]" 1000000000 1000000000 "v1.0.0" =
        constructUnhashedKey "helloWorld" "[1,2]" 1000000000 1500000000 "v1.0.0") := by
  obtain ⟨e1, e15, -, -⟩ := wholeSeconds_examples
  refine ⟨⟨by decide, ?_⟩, ⟨by decide, ?_⟩⟩
  · rw [constructUnhashedKey_soft_iff, e1, e15]
  · rw [constructUnhashedKey_hard_iff, e1, e15]

/-- C19 (amended): for a fixed request, call identity and version, changing the soft TTL
or the hard TTL to a duration with a different number of whole seconds changes the
composite key string; two durations with the same number of whole seconds in the same
TTL position give the same string. -/
theorem constructUnhashedKey_ttl (fn req : String) (d1 d2 other : Int) (v : String) :
    (wholeSeconds d1 ≠ wholeSeconds d2 →
      constructUnhashedKey fn req d1 other v ≠ constructUnhashedKey fn req d2 other v ∧
      constructUnhashedKey fn req other d1 v ≠ constructUnhashedKey fn req other d2 v) ∧
    (wholeSeconds d1 = wholeSeconds d2 →
      constructUnhashedKey fn req d1 other v = constructUnhashedKey fn req d2 other v ∧
      constructUnhashedKey fn req other d1 v = constructUnhashedKey fn req other d2 v) := by
  constructor
  · intro hne
    exact ⟨fun hk => hne ((constructUnhashedKey_soft_iff fn req d1 d2 other v).mp hk),
      fun hk => hne ((constructUnhashedKey_hard_iff fn req other d1 d2 v).mp hk)⟩
  · intro heq
    exact ⟨(constructUnhashedKey_soft_iff fn req d1 d2 other v).mpr heq,
      (constructUnhashedKey_hard_iff fn req other d1 d2 v).mpr heq⟩

/-- C19, witness: 1s against 2s, in either TTL position. -/
theorem constructUnhashedKey_ttl_witness :
    wholeSeconds 1000000000 ≠ wholeSeconds 2000000000 ∧
    constructUnhashedKey "helloWorld" "[1,2]" 1000000000 3000000000 "v1.0.0" ≠
      constructUnhashedKey "helloWorld" "[1,2]" 2000000000 3000000000 "v1.0.0" ∧
    constructUnhashedKey "helloWorld" "[1,2]" 3000000000 1000000000 "v1.0.0" ≠
      constructUnhashedKey "helloWorld" "[1,2]" 3000000000 2000000000 "v1.0.0" :=
  have hne : wholeSeconds 1000000000 ≠ wholeSeconds 2000000000 := by
    rw [wholeSeconds_examples.1, wholeSeconds_examples.2.2.1]; decide
  ⟨hne, (constructUnhashedKey_ttl "helloWorld" "[1,2]" 1000000000 2000000000 3000000000
    "v1.0.0").1 hne⟩

/-- C11: on a stale hit `getData` starts the refresh and returns the response
deserialized from the stale entry (with a nil error when the payload deserializes),
whatever remote call it was given.  When the refresh runs and `rpcCall` returns an
error, the refresh ends there: its only effect is that one remote call (so no cache
`Set` and no second call) and it starts no goroutine. -/
theorem refresh_rpc_error {σ ρ : Type} (env : Env σ ρ) (rpcCall : RpcCall σ ρ)
    (rpcCallName cacheKey : String) (softTTL hardTTL : Int)
    (readFromCache : ReadPredicate σ) (writeToCache : WritePredicate σ ρ) (r : Run σ ρ)
    (w1 w2 : σ) (data : Bytes) (e : CacheValue) (r' : Run σ ρ) (resp : Option ρ)
    (err : GoError)
    (hskip : env.skipCache = false) (hrd : readFromCache r.world = (true, w1))
    (hget : env.cacheProvider.GetAPI cacheKey w1 = ((data, none), w2))
    (hdec : DecompressStruct env.lib data env.compressionLibrary = .ok e)
    (hstale : isPastSoftTTLThreshhold e (env.timeNowUnix w2).1 = true)
    (hfail : (rpcCall r'.world).1 = (resp, some err)) :
    started (getData env rpcCall rpcCallName cacheKey softTTL hardTTL readFromCache
      writeToCache) r = [Task.refresh cacheKey rpcCall softTTL hardTTL writeToCache] ∧
    (getData env rpcCall rpcCallName cacheKey softTTL hardTTL readFromCache writeToCache
      r).1 = generateResp env.lib e ∧
    (∀ v, env.lib.UnmarshalFromString e.Data = .ok v →
      (getData env rpcCall rpcCallName cacheKey softTTL hardTTL readFromCache writeToCache
        r).1 = (some v, none)) ∧
    (∀ rpcCall2 : RpcCall σ ρ,
      (getData env rpcCall2 rpcCallName cacheKey softTTL hardTTL readFromCache writeToCache
        r).1 =
      (getData env rpcCall rpcCallName cacheKey softTTL hardTTL readFromCache writeToCache
        r).1) ∧
    Task.run env (Task.refresh cacheKey rpcCall softTTL hardTTL writeToCache) r' =
      ((), ⟨(rpcCall r'.world).2, r'.trace ++ [Event.rpcCall], r'.spawned⟩) ∧
    numRpcCall (effects (Task.run env
      (Task.refresh cacheKey rpcCall softTTL hardTTL writeToCache)) r') = 1 ∧
    numCacheSet (effects (Task.run env
      (Task.refresh cacheKey rpcCall softTTL hardTTL writeToCache)) r') = 0 ∧
    started (Task.run env
      (Task.refresh cacheKey rpcCall softTTL hardTTL writeToCache)) r' = [] := by
  have hval : ∀ rc : RpcCall σ ρ,
      (getData env rc rpcCallName cacheKey softTTL hardTTL readFromCache writeToCache
        r).1 = generateResp env.lib e := by
    intro rc
    rw [getData_hit_eq env rc rpcCallName cacheKey softTTL hardTTL readFromCache
      writeToCache r w1 w2 data e hskip hrd hget hdec]
    exact getDataAfterRead_result _ _ _ _ _ _ _ _ _
  have heq := getData_hit_eq env rpcCall rpcCallName cacheKey softTTL hardTTL
    readFromCache writeToCache r w1 w2 data e hskip hrd hget hdec
  obtain ⟨-, -, c⟩ := getDataAfterRead_stale env rpcCall rpcCallName cacheKey softTTL
    hardTTL writeToCache e ⟨w2, r.trace ++ [Event.cacheGet cacheKey], r.spawned⟩ hstale
  have hs := started_eq (getData env rpcCall rpcCallName cacheKey softTTL hardTTL
    readFromCache writeToCache) r _ (by rw [heq]; exact c)
  have hrun : Task.run env (Task.refresh cacheKey rpcCall softTTL hardTTL writeToCache) r' =
      ((), ⟨(rpcCall r'.world).2, r'.trace ++ [Event.rpcCall], r'.spawned⟩) := by
    rw [(refresh_run env cacheKey rpcCall softTTL hardTTL writeToCache r').2.2 resp err
      hfail, callRpc_apply]
  refine ⟨hs, hval rpcCall, ?_, ?_, hrun, ?_, ?_, ?_⟩
  · intro v hv
    rw [hval rpcCall]
    simp [generateResp, generateResponseStructFromCacheVal, hv]
  · intro rc
    rw [hval rc, hval rpcCall]
  · rw [effects_eq _ _ [Event.rpcCall] (by rw [hrun])]
    simp [numRpcCall]
  · rw [effects_eq _ _ [Event.rpcCall] (by rw [hrun])]
    simp [numCacheSet]
  · exact started_eq _ _ [] (by rw [hrun]; simp)

/-- C11, witness: the stale entry of the test `cache soft hit` and a remote call that
fails when the refresh runs. -/
theorem refresh_rpc_error_witness :
    (exEnv false ([1], none)).skipCache = false ∧
    exRead true exRun.world = (true, 0) ∧
    (exEnv false ([1], none)).cacheProvider.GetAPI "cacheKey" 0 = (([1], none), 0) ∧
    DecompressStruct (exEnv false ([1], none)).lib [1]
      (exEnv false ([1], none)).compressionLibrary = .ok ⟨90, 5000000000, "1"⟩ ∧
    isPastSoftTTLThreshhold ⟨90, 5000000000, "1"⟩
      ((exEnv false ([1], none)).timeNowUnix 0).1 = true ∧
    (exRpc (none, some (GoError.mk "unavailable")) exRun.world).1 =
      (none, some (GoError.mk "unavailable")) ∧
    (getData (exEnv false ([1], none)) (exRpc (none, some (GoError.mk "unavailable")))
      "rpcCallName" "cacheKey" 10000000000 40000000000 (exRead true) exWrite exRun).1 =
        (some Reply.plain, none) ∧
    numCacheSet (effects (Task.run (exEnv false ([1], none))
      (Task.refresh "cacheKey" (exRpc (none, some (GoError.mk "unavailable")))
        10000000000 40000000000 exWrite)) exRun) = 0 ∧
    numRpcCall (effects (Task.run (exEnv false ([1], none))
      (Task.refresh "cacheKey" (exRpc (none, some (GoError.mk "unavailable")))
        10000000000 40000000000 exWrite)) exRun) = 1 :=
  have hstale : isPastSoftTTLThreshhold ⟨90, 5000000000, "1"⟩
      ((exEnv false ([1], none)).timeNowUnix 0).1 = true := by
    rw [isPast_of_bounds _ _ (by decide) (by decide) (by decide) (by decide)]
    decide
  ⟨rfl, rfl, rfl, rfl, hstale, rfl,
    (refresh_rpc_error (exEnv false ([1], none))
      (exRpc (none, some (GoError.mk "unavailable"))) "rpcCallName" "cacheKey" 10000000000
      40000000000 (exRead true) exWrite exRun 0 0 [1] ⟨90, 5000000000, "1"⟩ exRun none
      (GoError.mk "unavailable") rfl rfl rfl rfl hstale rfl).2.2.1 Reply.plain rfl,
    (refresh_rpc_error (exEnv false ([1], none))
      (exRpc (none, some (GoError.mk "unavailable"))) "rpcCallName" "cacheKey" 10000000000
      40000000000 (exRead true) exWrite exRun 0 0 [1] ⟨90, 5000000000, "1"⟩ exRun none
      (GoError.mk "unavailable") rfl rfl rfl rfl hstale rfl).2.2.2.2.2.2.1,
    (refresh_rpc_error (exEnv false ([1], none))
      (exRpc (none, some (GoError.mk "unavailable"))) "rpcCallName" "cacheKey" 10000000000
      40000000000 (exRead true) exWrite exRun 0 0 [1] ⟨90, 5000000000, "1"⟩ exRun none
      (GoError.mk "unavailable") rfl rfl rfl rfl hstale rfl).2.2.2.2.2.1⟩

/-- C13 (evaluation at the failing input): a metrics client is configured, the read
predicate returns true, the backend `Get` fails and the remote call succeeds, with the
ordinary TTLs 1s and 2s.  The run emits the miss metric and then, having fallen through
to the statements that follow a cache read, the hit metric as well. -/
theorem getData_readfail_emits_hit :
    effects (getData (exEnvMetrics ([], some (GoError.mk "connection refused")))
      (exRpc (some Reply.plain, none)) "rpcCallName" "cacheKey" 1000000000 2000000000
      (exRead true) exWrite) exRun =
        [Event.cacheGet "cacheKey", Event.missMetric "rpcCallName", Event.rpcCall,
          Event.now 100, Event.now 101, Event.hitMetric "rpcCallName"] ∧
    numMissMetric (effects (getData
      (exEnvMetrics ([], some (GoError.mk "connection refused")))
      (exRpc (some Reply.plain, none)) "rpcCallName" "cacheKey" 1000000000 2000000000
      (exRead true) exWrite) exRun) = 1 ∧
    numHitMetric (effects (getData
      (exEnvMetrics ([], some (GoError.mk "connection refused")))
      (exRpc (some Reply.plain, none)) "rpcCallName" "cacheKey" 1000000000 2000000000
      (exRead true) exWrite) exRun) = 1 := by
  have hfresh : isPastSoftTTLThreshhold ⟨100, 1000000000, "1"⟩ 101 = false := by
    rw [isPast_of_bounds _ _ (by decide) (by decide) (by decide) (by decide)]
    decide
  have h := getData_readfail_ok (exEnvMetrics ([], some (GoError.mk "connection refused")))
    (exRpc (some Reply.plain, none)) "rpcCallName" "cacheKey" 1000000000 2000000000
    (exRead true) exWrite exRun 0 0 0 1 2 ([], some (GoError.mk "connection refused"))
    (some Reply.plain) "1" 100 101 rfl rfl rfl (Or.inl (by simp)) rfl rfl rfl rfl
  obtain ⟨htr, -⟩ := h.2.2 hfresh
  have he := effects_eq _ _ _ htr
  refine ⟨?_, ?_, ?_⟩
  · rw [he]; rfl
  · rw [he]; rfl
  · rw [he]; rfl

/-- C14 (as stated, refuted at three inputs).  A nil function yields the error
`grpcFunc is nil` without any remote call; a request that cannot be marshalled yields
the key-derivation error without any remote call; and on a failed cache read followed
by a successful remote call whose response has no JSON form, the marshalling error of
the response is returned. -/
theorem GRPCCallWithTTL_other_errors :
    (GRPCCallWithTTL (exEnv false ([1], none)) exKeyLib exDefaults
        (none : Option (GrpcFunc Nat Unit Ask Unit Reply)) () (some Ask.listed)
        1000000000 2000000000 [] exRun =
      ((none, some (GoError.mk "grpcFunc is nil")), exRun)) ∧
    (GRPCCallWithTTL (exEnv false ([1], none)) exKeyLib exDefaults
        (some (exGrpc (some Reply.plain, none))) () (some Ask.cyclic)
        1000000000 2000000000 [] exRun =
      ((none, some (GoError.wrap (GoError.mk "json: unsupported value") "")), exRun)) ∧
    ((exGrpc (some Reply.nan, none)).call () (some Ask.listed) [] 0 =
        ((some Reply.nan, none), 0) ∧
      (GRPCCallWithTTL (exEnv false ([], some (GoError.mk "connection refused"))) exKeyLib
        exDefaults (some (exGrpc (some Reply.nan, none))) () (some Ask.listed)
        1000000000 2000000000 [] exRun).1 =
      (none, some (GoError.wrap (GoError.mk "json: unsupported value: NaN")
        "unable to marshal rpc response"))) := by
  refine ⟨rfl, ?_, rfl, ?_⟩
  · simp [GRPCCallWithTTL, GenerateCacheKey, exKeyLib, exMarshalReq]
  · have hk : (GenerateCacheKey exKeyLib.digest exKeyLib.MarshalToString
        (some (some Ask.listed)) (GetFunctionName (exGrpc (some Reply.nan, none)).runtimeName)
        1000000000 2000000000 exDefaults.version).2 = none := by
      simp [GenerateCacheKey, exKeyLib, exMarshalReq]
    simp only [GRPCCallWithTTL, hk]
    have heq := getData_readfail_eq (exEnv false ([], some (GoError.mk "connection refused")))
      (wrapGRPCCallFunc (exGrpc (some Reply.nan, none)) () (some Ask.listed) [])
      (GetFunctionName (exGrpc (some Reply.nan, none)).runtimeName)
      (GenerateCacheKey exKeyLib.digest exKeyLib.MarshalToString
        (some (some Ask.listed)) (GetFunctionName (exGrpc (some Reply.nan, none)).runtimeName)
        1000000000 2000000000 exDefaults.version).1
      1000000000 2000000000 (fun w => (true, w)) (fun _ w => (true, w)) exRun 0 0
      ([], some (GoError.mk "connection refused")) rfl rfl rfl (Or.inl (by simp))
    obtain ⟨a, -, -⟩ := getData_miss_marshal_error
      (exEnv false ([], some (GoError.mk "connection refused")))
      (GenerateCacheKey exKeyLib.digest exKeyLib.MarshalToString
        (some (some Ask.listed)) (GetFunctionName (exGrpc (some Reply.nan, none)).runtimeName)
        1000000000 2000000000 exDefaults.version).1
      (wrapGRPCCallFunc (exGrpc (some Reply.nan, none)) () (some Ask.listed) [])
      1000000000 2000000000
      (GetFunctionName (exGrpc (some Reply.nan, none)).runtimeName)
      (fun _ w => (true, w))
      ⟨0, exRun.trace ++ [Event.cacheGet (GenerateCacheKey exKeyLib.digest
        exKeyLib.MarshalToString (some (some Ask.listed))
        (GetFunctionName (exGrpc (some Reply.nan, none)).runtimeName)
        1000000000 2000000000 exDefaults.version).1], exRun.spawned⟩ (some Reply.nan)
      (GoError.mk "json: unsupported value: NaN") rfl rfl
    rw [heq, a]

/-- C14 (amended): `GRPCCall` is `GRPCCallWithTTL` at the default TTLs, and every non-nil
error that `GRPCCallWithTTL` returns is one of five: `grpcFunc is nil` for a nil
function; the wrapped marshalling error of the request, from key derivation; the error
of the synchronous remote call (as it is when the cache is switched off, wrapped as
`rpc call failed` otherwise); the wrapped marshalling error of the remote call's
response; or the wrapped error of deserializing an entry payload into the response
type.  No cache read or cache write produces an error for the caller. -/
theorem GRPCCallWithTTL_errors {σ κ τ ω ρ : Type} (env : Env σ ρ) (klib : KeyLib τ)
    (d : Defaults) (grpcFunc : Option (GrpcFunc σ κ τ ω ρ)) (ctx : κ) (req : Option τ)
    (softTTL hardTTL : Int) (opts : List ω) (r : Run σ ρ) (err : GoError)
    (h : (GRPCCallWithTTL env klib d grpcFunc ctx req softTTL hardTTL opts r).1.2 =
      some err) :
    GRPCCall env klib d grpcFunc ctx req opts =
      GRPCCallWithTTL env klib d grpcFunc ctx req d.defaultSoftTTL d.defaultHardTTL [] ∧
    ((grpcFunc = none ∧ err = GoError.mk "grpcFunc is nil") ∨
     (∃ e, klib.MarshalToString req = .error e ∧ err = GoError.wrap e "") ∨
     (∃ f w res e, grpcFunc = some f ∧ (f.call ctx req opts w).1 = (res, some e) ∧
        ((env.skipCache = true ∧ err = e) ∨
          (env.skipCache = false ∧ err = GoError.wrap e "rpc call failed"))) ∨
     (∃ f res e, grpcFunc = some f ∧ (∃ w, (f.call ctx req opts w).1 = (res, none)) ∧
        env.lib.MarshalToString res = .error e ∧
        err = GoError.wrap e "unable to marshal rpc response") ∨
     (∃ (c : CacheValue) (e : GoError), env.lib.UnmarshalFromString c.Data = .error e ∧
        err = GoError.wrap e "unable to marshal cache value to rpc response")) := by
  refine ⟨rfl, ?_⟩
  cases grpcFunc with
  | none =>
    simp only [GRPCCallWithTTL, Prog.pure_apply, Option.some.injEq] at h
    exact Or.inl ⟨rfl, h.symm⟩
  | some f =>
    cases hm : klib.MarshalToString req with
    | error e =>
      simp only [GRPCCallWithTTL, GenerateCacheKey, hm, Prog.pure_apply,
        Option.some.injEq] at h
      exact Or.inr (Or.inl ⟨e, rfl, h.symm⟩)
    | ok j =>
      simp only [GRPCCallWithTTL, GenerateCacheKey, hm] at h
      rcases getData_error_cases _ _ _ _ _ _ _ _ _ _ h with
        ⟨w, res, e, h1, h2⟩ | ⟨res, e, ⟨w, h0⟩, h1, h2⟩ | ⟨c, e, h1, h2⟩
      · exact Or.inr (Or.inr (Or.inl ⟨f, w, res, e, rfl, h1, h2⟩))
      · exact Or.inr (Or.inr (Or.inr (Or.inl ⟨f, res, e, rfl, ⟨w, h0⟩, h1, h2⟩)))
      · exact Or.inr (Or.inr (Or.inr (Or.inr ⟨c, e, h1, h2⟩)))

/-- C14, witness: the call with a nil function, whose error is the first of the five. -/
theorem GRPCCallWithTTL_errors_witness :
    (GRPCCallWithTTL (exEnv false ([1], none)) exKeyLib exDefaults
        (none : Option (GrpcFunc Nat Unit Ask Unit Reply)) () (some Ask.listed)
        1000000000 2000000000 [] exRun).1.2 = some (GoError.mk "grpcFunc is nil") ∧
    (GRPCCall (exEnv false ([1], none)) exKeyLib exDefaults
        (none : Option (GrpcFunc Nat Unit Ask Unit Reply)) () (some Ask.listed) [] =
      GRPCCallWithTTL (exEnv false ([1], none)) exKeyLib exDefaults
        (none : Option (GrpcFunc Nat Unit Ask Unit Reply)) () (some Ask.listed)
        exDefaults.defaultSoftTTL exDefaults.defaultHardTTL [] ∧
    (((none : Option (GrpcFunc Nat Unit Ask Unit Reply)) = none ∧
        GoError.mk "grpcFunc is nil" = GoError.mk "grpcFunc is nil") ∨
     (∃ e, exKeyLib.MarshalToString (some Ask.listed) = .error e ∧
        GoError.mk "grpcFunc is nil" = GoError.wrap e "") ∨
     (∃ f w res e, (none : Option (GrpcFunc Nat Unit Ask Unit Reply)) = some f ∧
        (f.call () (some Ask.listed) [] w).1 = (res, some e) ∧
        (((exEnv false ([1], none)).skipCache = true ∧ GoError.mk "grpcFunc is nil" = e) ∨
          ((exEnv false ([1], none)).skipCache = false ∧
            GoError.mk "grpcFunc is nil" = GoError.wrap e "rpc call failed"))) ∨
     (∃ f res e, (none : Option (GrpcFunc Nat Unit Ask Unit Reply)) = some f ∧
        (∃ w, (f.call () (some Ask.listed) [] w).1 = (res, none)) ∧
        (exEnv false ([1], none)).lib.MarshalToString res = .error e ∧
        GoError.mk "grpcFunc is nil" = GoError.wrap e "unable to marshal rpc response") ∨
     (∃ (c : CacheValue) (e : GoError),
        (exEnv false ([1], none)).lib.UnmarshalFromString c.Data = .error e ∧
        GoError.mk "grpcFunc is nil" =
          GoError.wrap e "unable to marshal cache value to rpc response"))) :=
  ⟨rfl, GRPCCallWithTTL_errors (exEnv false ([1], none)) exKeyLib exDefaults
    (none : Option (GrpcFunc Nat Unit Ask Unit Reply)) () (some Ask.listed)
    1000000000 2000000000 [] exRun (GoError.mk "grpcFunc is nil") rfl⟩

/-- C15 (as stated, refuted): a struct whose only field is unexported is accepted by the
JSON marshaller, and for each of the three selectors `CompressStruct` succeeds and
`DecompressStruct` with the same selector succeeds, but the target ends up with the
field at zero, not equal to the value compressed. -/
theorem compress_roundtrip_loses_unexported :
    (CompressStructOf exLib exMarshalHidden ⟨5⟩ NoCompressionType = .ok [123, 125] ∧
      DecompressStructOf exLib exUnmarshalHidden [123, 125] NoCompressionType = .ok ⟨0⟩) ∧
    (CompressStructOf exLib exMarshalHidden ⟨5⟩ GzipCompressionType = .ok [123, 125] ∧
      DecompressStructOf exLib exUnmarshalHidden [123, 125] GzipCompressionType = .ok ⟨0⟩) ∧
    (CompressStructOf exLib exMarshalHidden ⟨5⟩ SnappyCompressionType = .ok [123, 125] ∧
      DecompressStructOf exLib exUnmarshalHidden [123, 125] SnappyCompressionType
        = .ok ⟨0⟩) ∧
    (⟨0⟩ : Hidden) ≠ ⟨5⟩ := by
  refine ⟨⟨rfl, rfl⟩, ⟨rfl, rfl⟩, ⟨rfl, rfl⟩, by decide⟩

/-- C21 (evaluation at the failing input): the test configuration (cache enabled, soft
TTL 10s, hard TTL 40s, custom cache) with `CompressionLibrary = 3`, which is none of the
supported selectors 0, 1 and 2, passes `validate`, and the first `Init` returns no error
and installs the selector 3.  The selectors 0, 1 and 2 pass as well; 4 and -1 are
rejected. -/
theorem validate_accepts_selector_three :
    (exConfigSelector 3).SkipCache = false ∧
    (exConfigSelector 3).validate = none ∧
    (Init exInitLib (exConfigSelector 3) exProcess).1 = none ∧
    (Init exInitLib (exConfigSelector 3) exProcess).2.vars.compressionLibrary = 3 ∧
    (exConfigSelector NoCompressionType).validate = none ∧
    (exConfigSelector GzipCompressionType).validate = none ∧
    (exConfigSelector SnappyCompressionType).validate = none ∧
    (exConfigSelector 4).validate =
      some (GoError.mk "invalid compression library type specified.") ∧
    (exConfigSelector (-1)).validate =
      some (GoError.mk "invalid compression library type specified.") := by
  refine ⟨rfl, ?_, ?_, ?_, ?_, ?_, ?_, ?_, ?_⟩ <;> decide

/-- C22: in a process whose `initOnce` is unused, the first `Init` call is the one that
runs `freeze`: it returns the error of `freeze` and leaves the variables as `freeze`
leaves them.  Every call of any later sequence of `Init` calls returns a nil error, and
the process after them is the process after the first call, whatever the configurations
are and whether or not the first call succeeded. -/
theorem Init_first_call_wins {A MC M : Type} (lib : InitLib A MC M) (p : Process A M)
    (cfg : Config A MC) (later : List (Config A MC)) (h : p.initOnce = false) :
    Init lib cfg p = ((cfg.freeze lib p.vars).1, ⟨(cfg.freeze lib p.vars).2, true⟩) ∧
    (initCalls lib later (Init lib cfg p).2).1 = List.replicate later.length none ∧
    (initCalls lib later (Init lib cfg p).2).2 = (Init lib cfg p).2 ∧
    (initCalls lib (cfg :: later) p).2.vars = (cfg.freeze lib p.vars).2 := by
  have h1 : Init lib cfg p =
      ((cfg.freeze lib p.vars).1, ⟨(cfg.freeze lib p.vars).2, true⟩) := by
    simp [Init, h]
  have h2 := initCalls_used lib later (Init lib cfg p).2 (by rw [h1])
  refine ⟨h1, by rw [h2], by rw [h2], ?_⟩
  simp only [initCalls, h2]
  rw [h1]

/-- C22, witness: a fresh process in which the first `Init` call fails (soft TTL 40s
above hard TTL 10s) and is followed by two calls with valid configurations. -/
theorem Init_first_call_wins_witness :
    exProcess.initOnce = false ∧
    Init exInitLib (exConfig 40000000000 10000000000 false) exProcess =
      (((exConfig 40000000000 10000000000 false).freeze exInitLib exProcess.vars).1,
        ⟨((exConfig 40000000000 10000000000 false).freeze exInitLib exProcess.vars).2,
          true⟩) ∧
    (initCalls exInitLib [exConfig 10000000000 40000000000 false, exConfigSelector 1]
      (Init exInitLib (exConfig 40000000000 10000000000 false) exProcess).2).1 =
        List.replicate
          [exConfig 10000000000 40000000000 false, exConfigSelector 1].length none ∧
    (initCalls exInitLib [exConfig 10000000000 40000000000 false, exConfigSelector 1]
      (Init exInitLib (exConfig 40000000000 10000000000 false) exProcess).2).2 =
        (Init exInitLib (exConfig 40000000000 10000000000 false) exProcess).2 ∧
    (initCalls exInitLib (exConfig 40000000000 10000000000 false ::
      [exConfig 10000000000 40000000000 false, exConfigSelector 1]) exProcess).2.vars =
        ((exConfig 40000000000 10000000000 false).freeze exInitLib exProcess.vars).2 :=
  ⟨rfl, Init_first_call_wins exInitLib exProcess (exConfig 40000000000 10000000000 false)
    [exConfig 10000000000 40000000000 false, exConfigSelector 1] rfl⟩

/-- C23: after `ToggleCache(b)` the variable `skipCache` equals `b` and the six other
variables of `consts.go` are as before.  In a process whose `skipCache` is the one
`ToggleCache(b)` left, `getData` after `ToggleCache(true)` is the bypass (its result is
the result of `rpcCall`, its only effect is that call, and it starts no goroutine), and
`getData` after `ToggleCache(false)` consults the cache: when the read predicate returns
true, its first effect is the cache `Get` of the key. -/
theorem ToggleCache_spec {A M σ ρ : Type} (b : Bool) (g : Globals A M) (env : Env σ ρ)
    (rpcCall : RpcCall σ ρ) (rpcCallName cacheKey : String) (softTTL hardTTL : Int)
    (readFromCache : ReadPredicate σ) (writeToCache : WritePredicate σ ρ) (r : Run σ ρ)
    (henv : env.skipCache = (ToggleCache b g).skipCache) :
    (ToggleCache b g).skipCache = b ∧
    (ToggleCache b g).defaultSoftTTL = g.defaultSoftTTL ∧
    (ToggleCache b g).defaultHardTTL = g.defaultHardTTL ∧
    (ToggleCache b g).cacheProvider = g.cacheProvider ∧
    (ToggleCache b g).metricsProvider = g.metricsProvider ∧
    (ToggleCache b g).compressionLibrary = g.compressionLibrary ∧
    (ToggleCache b g).version = g.version ∧
    (b = true →
      (getData env rpcCall rpcCallName cacheKey softTTL hardTTL readFromCache
        writeToCache r).1 = (rpcCall r.world).1 ∧
      effects (getData env rpcCall rpcCallName cacheKey softTTL hardTTL readFromCache
        writeToCache) r = [Event.rpcCall] ∧
      started (getData env rpcCall rpcCallName cacheKey softTTL hardTTL readFromCache
        writeToCache) r = []) ∧
    (b = false → (readFromCache r.world).1 = true →
      ∃ rest, effects (getData env rpcCall rpcCallName cacheKey softTTL hardTTL
        readFromCache writeToCache) r = Event.cacheGet cacheKey :: rest) := by
  have hb : env.skipCache = b := henv
  refine ⟨rfl, rfl, rfl, rfl, rfl, rfl, rfl, ?_, ?_⟩
  · intro h
    rw [h] at hb
    have heq := getData_skip_eq env hb rpcCall rpcCallName cacheKey softTTL hardTTL
      readFromCache writeToCache r
    refine ⟨by rw [heq, callRpc_apply], ?_, ?_⟩
    · exact effects_eq _ _ _ (by rw [heq, callRpc_apply])
    · exact started_eq _ _ _ (by rw [heq, callRpc_apply]; simp)
  · intro h hrd
    rw [h] at hb
    obtain ⟨evs, ts, a1, -, -, -⟩ := getData_read_adds env rpcCall rpcCallName cacheKey
      softTTL hardTTL readFromCache writeToCache r hb hrd
    exact ⟨evs, effects_eq _ _ _ a1⟩

/-- C23, witness: `ToggleCache(true)` and `ToggleCache(false)` on the variables of a
fresh process, each followed by a call with the soft TTL 1s and the hard TTL 2s in an
environment with the flag it left. -/
theorem ToggleCache_spec_witness :
    ((exEnv true ([1], none)).skipCache = (ToggleCache true exProcess.vars).skipCache ∧
      (ToggleCache true exProcess.vars).skipCache = true ∧
      (getData (exEnv true ([1], none)) (exRpc (some Reply.plain, none)) "rpcCallName"
        "cacheKey" 1000000000 2000000000 (exRead true) exWrite exRun).1 =
          (exRpc (some Reply.plain, none) exRun.world).1 ∧
      effects (getData (exEnv true ([1], none)) (exRpc (some Reply.plain, none))
        "rpcCallName" "cacheKey" 1000000000 2000000000 (exRead true) exWrite) exRun =
          [Event.rpcCall] ∧
      started (getData (exEnv true ([1], none)) (exRpc (some Reply.plain, none))
        "rpcCallName" "cacheKey" 1000000000 2000000000 (exRead true) exWrite) exRun =
          []) ∧
    ((exEnv false ([1], none)).skipCache = (ToggleCache false exProcess.vars).skipCache ∧
      (ToggleCache false exProcess.vars).skipCache = false ∧
      ∃ rest, effects (getData (exEnv false ([1], none)) (exRpc (some Reply.plain, none))
        "rpcCallName" "cacheKey" 1000000000 2000000000 (exRead true) exWrite) exRun =
          Event.cacheGet "cacheKey" :: rest) :=
  ⟨⟨rfl,
    (ToggleCache_spec true exProcess.vars (exEnv true ([1], none))
      (exRpc (some Reply.plain, none)) "rpcCallName" "cacheKey" 1000000000 2000000000
      (exRead true) exWrite exRun rfl).1,
    (ToggleCache_spec true exProcess.vars (exEnv true ([1], none))
      (exRpc (some Reply.plain, none)) "rpcCallName" "cacheKey" 1000000000 2000000000
      (exRead true) exWrite exRun rfl).2.2.2.2.2.2.2.1 rfl⟩,
   ⟨rfl,
    (ToggleCache_spec false exProcess.vars (exEnv false ([1], none))
      (exRpc (some Reply.plain, none)) "rpcCallName" "cacheKey" 1000000000 2000000000
      (exRead true) exWrite exRun rfl).1,
    (ToggleCache_spec false exProcess.vars (exEnv false ([1], none))
      (exRpc (some Reply.plain, none)) "rpcCallName" "cacheKey" 1000000000 2000000000
      (exRead true) exWrite exRun rfl).2.2.2.2.2.2.2.2 rfl rfl⟩⟩

/-- C25: for a `cache.Config` whose `CacheProvider` is `CustomCacheType`, `Validate`
returns an error iff `CustomConfiguration` is nil, `Freeze` returns an error iff
`Validate` does, `Freeze` returns a nil client whenever it returns an error, and on
success the client it returns has the supplied custom client as both `GetAPI` and
`SetAPI`.  For a `CacheProvider` that is neither `CustomCacheType` nor `RedisCacheType`
both `Validate` and `Freeze` return an error. -/
theorem CacheConfig_custom {A MC M : Type} (lib : InitLib A MC M) (c : CacheConfig A) :
    (c.CacheProvider = CustomCacheType →
      (c.Validate ≠ none ↔ c.CustomConfiguration = none) ∧
      ((CacheConfig.Freeze lib (some c)).2 ≠ none ↔ c.Validate ≠ none) ∧
      ((CacheConfig.Freeze lib (some c)).2 ≠ none →
        (CacheConfig.Freeze lib (some c)).1 = none) ∧
      ((CacheConfig.Freeze lib (some c)).2 = none →
        ∃ cc, c.CustomConfiguration = some cc ∧
          (CacheConfig.Freeze lib (some c)).1 = some ⟨cc.Client, cc.Client⟩)) ∧
    (c.CacheProvider ≠ CustomCacheType → c.CacheProvider ≠ RedisCacheType →
      c.Validate ≠ none ∧ (CacheConfig.Freeze lib (some c)).2 ≠ none) := by
  constructor
  · intro hp
    cases hcc : c.CustomConfiguration with
    | none => simp [CacheConfig.Validate, CacheConfig.Freeze, hp, hcc, newCustom, TernaryOp]
    | some cc =>
      simp [CacheConfig.Validate, CacheConfig.Freeze, hp, hcc, newCustom, TernaryOp]
  · intro h1 h2
    simp [CacheConfig.Validate, CacheConfig.Freeze, h1, h2]

/-- C25, witness: the two configurations of `TestCacheInit` (a custom provider without
and with a custom configuration) and a configuration that names no provider. -/
theorem CacheConfig_custom_witness :
    ((⟨CustomCacheType, none, none⟩ : CacheConfig Unit).Validate ≠ none ∧
      (CacheConfig.Freeze exInitLib (some ⟨CustomCacheType, none, none⟩)).2 ≠ none ∧
      (CacheConfig.Freeze exInitLib (some ⟨CustomCacheType, none, none⟩)).1 = none) ∧
    (∃ cc, (⟨CustomCacheType, some ⟨some ()⟩, none⟩ :
        CacheConfig Unit).CustomConfiguration = some cc ∧
      (CacheConfig.Freeze exInitLib (some ⟨CustomCacheType, some ⟨some ()⟩, none⟩)).1 =
        some ⟨cc.Client, cc.Client⟩) ∧
    ((⟨0, none, none⟩ : CacheConfig Unit).Validate ≠ none ∧
      (CacheConfig.Freeze exInitLib (some ⟨0, none, none⟩)).2 ≠ none) :=
  ⟨⟨((CacheConfig_custom exInitLib ⟨CustomCacheType, none, none⟩).1 rfl).1.mpr rfl,
      ((CacheConfig_custom exInitLib ⟨CustomCacheType, none, none⟩).1 rfl).2.1.mpr
        (by decide),
      ((CacheConfig_custom exInitLib ⟨CustomCacheType, none, none⟩).1 rfl).2.2.1
        (by decide)⟩,
    ((CacheConfig_custom exInitLib ⟨CustomCacheType, some ⟨some ()⟩, none⟩).1 rfl).2.2.2
      (by decide),
    (CacheConfig_custom exInitLib ⟨0, none, none⟩).2 (by decide) (by decide)⟩

/-- C26: on every path `getData` returns with the detached work still to be run.  Its own
effects hold no cache `Set`; the goroutines it has started, and not run, are the
write-back of the response after a miss and the refresh after a soft hit; its whole
outcome is the same whatever the backend `Set` does; and when the cache read succeeds,
its result and its own effects are the same whatever `rpcCall` does, so that no failure
of the refresh can change what was returned. -/
theorem getData_detached {σ ρ : Type} (env : Env σ ρ) (rpcCall : RpcCall σ ρ)
    (rpcCallName cacheKey : String) (softTTL hardTTL : Int)
    (readFromCache : ReadPredicate σ) (writeToCache : WritePredicate σ ρ) (r : Run σ ρ) :
    numCacheSet (effects (getData env rpcCall rpcCallName cacheKey softTTL hardTTL
      readFromCache writeToCache) r) = 0 ∧
    (∀ t ∈ started (getData env rpcCall rpcCallName cacheKey softTTL hardTTL
        readFromCache writeToCache) r,
      isDetached cacheKey rpcCall softTTL hardTTL writeToCache t) ∧
    (∀ setAPI : String → Bytes → Int → σ → Option GoError × σ,
      getData ⟨env.skipCache, env.compressionLibrary,
          ⟨env.cacheProvider.GetAPI, setAPI⟩, env.metricsProvider, env.timeNowUnix,
          env.lib⟩ rpcCall rpcCallName cacheKey softTTL hardTTL readFromCache
          writeToCache r =
        getData env rpcCall rpcCallName cacheKey softTTL hardTTL readFromCache
          writeToCache r) ∧
    (∀ (other : RpcCall σ ρ) (w1 w2 : σ) (data : Bytes) (e : CacheValue),
      env.skipCache = false → readFromCache r.world = (true, w1) →
      env.cacheProvider.GetAPI cacheKey w1 = ((data, none), w2) →
      DecompressStruct env.lib data env.compressionLibrary = .ok e →
      (getData env other rpcCallName cacheKey softTTL hardTTL readFromCache
          writeToCache r).1 =
        (getData env rpcCall rpcCallName cacheKey softTTL hardTTL readFromCache
          writeToCache r).1 ∧
      effects (getData env other rpcCallName cacheKey softTTL hardTTL readFromCache
          writeToCache) r =
        effects (getData env rpcCall rpcCallName cacheKey softTTL hardTTL readFromCache
          writeToCache) r) := by
  obtain ⟨evs, ts, a1, a2, a3, a4⟩ := getData_adds env rpcCall rpcCallName cacheKey
    softTTL hardTTL readFromCache writeToCache r
  refine ⟨?_, ?_, ?_, ?_⟩
  · rw [effects_eq _ _ _ a1]
    exact numCacheSet_eq_zero evs a3
  · rw [started_eq _ _ _ a2]
    exact a4
  · intro setAPI
    rfl
  · intro other w1 w2 data e hskip hrd hget hdec
    have h1 := getData_hit_eq env other rpcCallName cacheKey softTTL hardTTL readFromCache
      writeToCache r w1 w2 data e hskip hrd hget hdec
    have h2 := getData_hit_eq env rpcCall rpcCallName cacheKey softTTL hardTTL
      readFromCache writeToCache r w1 w2 data e hskip hrd hget hdec
    constructor
    · rw [h1, h2, getDataAfterRead_result, getDataAfterRead_result]
    · unfold effects
      rw [h1, h2]
      cases hp : isPastSoftTTLThreshhold e (env.timeNowUnix w2).1 with
      | true =>
        rw [(getDataAfterRead_stale env other rpcCallName cacheKey softTTL hardTTL
            writeToCache e ⟨w2, r.trace ++ [Event.cacheGet cacheKey], r.spawned⟩ hp).2.1,
          (getDataAfterRead_stale env rpcCall rpcCallName cacheKey softTTL hardTTL
            writeToCache e ⟨w2, r.trace ++ [Event.cacheGet cacheKey], r.spawned⟩ hp).2.1]
      | false =>
        rw [(getDataAfterRead_fresh env other rpcCallName cacheKey softTTL hardTTL
            writeToCache e ⟨w2, r.trace ++ [Event.cacheGet cacheKey], r.spawned⟩ hp).2.1,
          (getDataAfterRead_fresh env rpcCall rpcCallName cacheKey softTTL hardTTL
            writeToCache e ⟨w2, r.trace ++ [Event.cacheGet cacheKey], r.spawned⟩ hp).2.1]

/-- C26, witness: the stale entry of the test `cache soft hit` is read; the call with a
remote call that fails returns what the call with one that succeeds returns, with the
same effects, and neither holds a cache `Set`. -/
theorem getData_detached_witness :
    numCacheSet (effects (getData (exEnv false ([1], none))
      (exRpc (some Reply.plain, none)) "rpcCallName" "cacheKey" 10000000000 40000000000
      (exRead true) exWrite) exRun) = 0 ∧
    (getData (exEnv false ([1], none)) (exRpc (none, some (GoError.mk "unavailable")))
        "rpcCallName" "cacheKey" 10000000000 40000000000 (exRead true) exWrite exRun).1 =
      (getData (exEnv false ([1], none)) (exRpc (some Reply.plain, none))
        "rpcCallName" "cacheKey" 10000000000 40000000000 (exRead true) exWrite exRun).1 ∧
    effects (getData (exEnv false ([1], none)) (exRpc (none, some (GoError.mk "unavailable")))
        "rpcCallName" "cacheKey" 10000000000 40000000000 (exRead true) exWrite) exRun =
      effects (getData (exEnv false ([1], none)) (exRpc (some Reply.plain, none))
        "rpcCallName" "cacheKey" 10000000000 40000000000 (exRead true) exWrite) exRun :=
  ⟨(getData_detached (exEnv false ([1], none)) (exRpc (some Reply.plain, none))
      "rpcCallName" "cacheKey" 10000000000 40000000000 (exRead true) exWrite exRun).1,
    (getData_detached (exEnv false ([1], none)) (exRpc (some Reply.plain, none))
      "rpcCallName" "cacheKey" 10000000000 40000000000 (exRead true) exWrite exRun).2.2.2
      (exRpc (none, some (GoError.mk "unavailable"))) 0 0 [1] ⟨90, 5000000000, "1"⟩
      rfl rfl rfl rfl⟩

/-- C27 (evaluation at the failing input): with the cache switched off, so that the
result of the remote call is returned as it is, `GRPCCall` is given one call option and
a method that returns `plain` when it receives no call option and `boxed` when it
receives some.  `GRPCCall` returns `plain`: the option did not reach the method.
`GRPCCallWithTTL` at the default TTLs with the same option returns `boxed`. -/
theorem GRPCCall_drops_call_options :
    (GRPCCall (exEnv true ([], none)) exKeyLib exDefaults (some exGrpcOpts) ()
        (some Ask.listed) [()] exRun).1 = (some Reply.plain, none) ∧
    (GRPCCallWithTTL (exEnv true ([], none)) exKeyLib exDefaults (some exGrpcOpts) ()
        (some Ask.listed) exDefaults.defaultSoftTTL exDefaults.defaultHardTTL [()]
        exRun).1 = (some Reply.boxed, none) := by
  constructor
  · simp [GRPCCall, GRPCCallWithTTL, GenerateCacheKey, exKeyLib, exMarshalReq, getData,
      isSkipCache, exEnv, wrapGRPCCallFunc, exGrpcOpts, exRun, callRpc_apply]
  · simp [GRPCCallWithTTL, GenerateCacheKey, exKeyLib, exMarshalReq, getData,
      isSkipCache, exEnv, wrapGRPCCallFunc, exGrpcOpts, exRun, callRpc_apply]

/-- C28: on argument tuples whose function name and version hold no colon,
`constructUnhashedKey` is injective up to whole seconds: equal composite strings have
equal function names, equal marshalled requests and equal versions, and their soft TTLs
and their hard TTLs agree in `int64(ttl.Seconds())`. -/
theorem constructUnhashedKey_injective (fn1 fn2 req1 req2 : String) (s1 s2 h1 h2 : Int)
    (v1 v2 : String) (hf1 : ':' ∉ fn1.data) (hf2 : ':' ∉ fn2.data)
    (hv1 : ':' ∉ v1.data) (hv2 : ':' ∉ v2.data)
    (h : constructUnhashedKey fn1 req1 s1 h1 v1 = constructUnhashedKey fn2 req2 s2 h2 v2) :
    fn1 = fn2 ∧ req1 = req2 ∧ v1 = v2 ∧ wholeSeconds s1 = wholeSeconds s2 ∧
      wholeSeconds h1 = wholeSeconds h2 := by
  have hd := congrArg String.data h
  simp only [constructUnhashedKey_data] at hd
  obtain ⟨a1, a2⟩ := split_at_first_colon _ _ _ _ hf1 hf2 hd
  have a3 : (req1.data ++ ':' :: (formatDecimal (wholeSeconds s1)).data ++
      ':' :: (formatDecimal (wholeSeconds h1)).data) ++ ':' :: v1.data =
      (req2.data ++ ':' :: (formatDecimal (wholeSeconds s2)).data ++
      ':' :: (formatDecimal (wholeSeconds h2)).data) ++ ':' :: v2.data := by
    simpa [List.append_assoc] using a2
  obtain ⟨b1, b2⟩ := split_at_last_colon _ _ _ _ hv1 hv2 a3
  obtain ⟨c1, c2⟩ := split_at_last_colon _ _ _ _ (formatDecimal_no_colon _)
    (formatDecimal_no_colon _) b1
  obtain ⟨d1, d2⟩ := split_at_last_colon _ _ _ _ (formatDecimal_no_colon _)
    (formatDecimal_no_colon _) c1
  exact ⟨String.ext a1, String.ext d1, String.ext b2,
    formatDecimal_inj _ _ (String.ext d2), formatDecimal_inj _ _ (String.ext c2)⟩

/-- C28, witness: the function name `helloWorld`, the request `[1,2]`, the version
`v1.0.0`, and the soft TTLs 1s and 1.5s, which give the same composite
string. -/
theorem constructUnhashedKey_injective_witness :
    (':' ∉ "helloWorld".data ∧ ':' ∉ "v1.0.0".data ∧
      constructUnhashedKey "helloWorld" "[1,2]" 1000000000 2000000000 "v1.0.0" =
        constructUnhashedKey "helloWorld" "[1,2]" 1500000000 2000000000 "v1.0.0") ∧
    ("helloWorld" = "helloWorld" ∧ "[1,2]" = "[1,2]" ∧ "v1.0.0" = "v1.0.0" ∧
      wholeSeconds 1000000000 = wholeSeconds 1500000000 ∧
      wholeSeconds 2000000000 = wholeSeconds 2000000000) :=
  ⟨⟨by decide, by decide,
      (constructUnhashedKey_soft_iff "helloWorld" "[1,2]" 1000000000 1500000000
        2000000000 "v1.0.0").mpr
        (by rw [wholeSeconds_examples.1, wholeSeconds_examples.2.1])⟩,
    constructUnhashedKey_injective "helloWorld" "helloWorld" "[1,2]" "[1,2]"
      1000000000 1500000000 2000000000 2000000000 "v1.0.0" "v1.0.0"
      (by decide) (by decide) (by decide) (by decide)
      ((constructUnhashedKey_soft_iff "helloWorld" "[1,2]" 1000000000 1500000000
        2000000000 "v1.0.0").mpr
        (by rw [wholeSeconds_examples.1, wholeSeconds_examples.2.1]))⟩

/-- C29 (as stated, refuted): the test configuration with the cache enabled, a soft TTL
of -2s and a hard TTL of -1s passes `validate`, and the first `Init` with it succeeds:
negative TTLs are not rejected. -/
theorem validate_accepts_negative_ttls :
    (exConfig (-2000000000) (-1000000000) false).SkipCache = false ∧
    (exConfig (-2000000000) (-1000000000) false).validate = none ∧
    (exConfig (-2000000000) (-1000000000) false).DefaultSoftTTL < 0 ∧
    (exConfig (-2000000000) (-1000000000) false).DefaultHardTTL < 0 ∧
    (Init exInitLib (exConfig (-2000000000) (-1000000000) false) exProcess).1 = none := by
  refine ⟨rfl, by decide, by decide, by decide, by decide⟩

/-- C29 (amended): every `Config` that `validate` accepts with `SkipCache` false has
`DefaultHardTTL` different from 0 and `DefaultSoftTTL <= DefaultHardTTL`; so when its
soft TTL is not negative, its hard TTL is positive. -/
theorem validate_ttls {A MC : Type} (c : Config A MC) (hskip : c.SkipCache = false)
    (hok : c.validate = none) :
    c.DefaultHardTTL ≠ 0 ∧ c.DefaultSoftTTL ≤ c.DefaultHardTTL ∧
      (0 ≤ c.DefaultSoftTTL → 0 < c.DefaultHardTTL) := by
  have h0 : c.DefaultHardTTL ≠ 0 := by
    intro h
    simp [Config.validate, hskip, h] at hok
  have h1 : ¬ c.DefaultHardTTL < c.DefaultSoftTTL := by
    intro h
    simp [Config.validate, hskip, h0, h] at hok
  have h2 : c.DefaultSoftTTL ≤ c.DefaultHardTTL := not_lt.mp h1
  exact ⟨h0, h2, fun h3 => lt_of_le_of_ne (le_trans h3 h2) (Ne.symm h0)⟩

/-- C29, witness: the test configuration, soft TTL 10s and hard TTL 40s. -/
theorem validate_ttls_witness :
    ((exConfig 10000000000 40000000000 false).SkipCache = false ∧
      (exConfig 10000000000 40000000000 false).validate = none) ∧
    ((exConfig 10000000000 40000000000 false).DefaultHardTTL ≠ 0 ∧
      (exConfig 10000000000 40000000000 false).DefaultSoftTTL ≤
        (exConfig 10000000000 40000000000 false).DefaultHardTTL ∧
      (0 ≤ (exConfig 10000000000 40000000000 false).DefaultSoftTTL →
        0 < (exConfig 10000000000 40000000000 false).DefaultHardTTL)) :=
  ⟨⟨rfl, by decide⟩,
    validate_ttls (exConfig 10000000000 40000000000 false) rfl (by decide)⟩

/-- C30 (as stated, refuted): the configuration with `SkipCache` true and a
`CacheConfig` that names no cache provider passes `validate`, but `freeze`, and so the
first `Init`, returns the error `cache type 0 is not supported` of
`CacheConfig.Freeze`. -/
theorem freeze_skipCache_needs_backend :
    exConfigNoBackend.SkipCache = true ∧
    exConfigNoBackend.validate = none ∧
    (exConfigNoBackend.freeze exInitLib exProcess.vars).1 =
      some (GoError.mk ("cache type " ++ formatDecimal 0 ++ " is not supported")) ∧
    (Init exInitLib exConfigNoBackend exProcess).1 =
      some (GoError.mk ("cache type " ++ formatDecimal 0 ++ " is not supported")) ∧
    formatDecimal 0 = "0" := by
  refine ⟨rfl, by decide, rfl, rfl, ?_⟩
  simp [formatDecimal, decimalDigits]

/-- C30 (amended): for every `Config` with `SkipCache` true, `validate` returns no
error, whatever the TTLs, the cache configuration and the compression selector are.
`freeze` still freezes `CacheConfig`: it returns the error of `CacheConfig.Freeze` when
there is one and installs nothing, and it returns no error when `CacheConfig` freezes
and the metrics configuration, if enabled and given, freezes. -/
theorem freeze_skipCache {A MC M : Type} (lib : InitLib A MC M) (c : Config A MC)
    (g : Globals A M) (hskip : c.SkipCache = true) :
    c.validate = none ∧
    (∀ err, (CacheConfig.Freeze lib (some c.CacheConfig)).2 = some err →
      c.freeze lib g = (some err, g)) ∧
    ((CacheConfig.Freeze lib (some c.CacheConfig)).2 = none →
      (c.EnableMetricsEmission = false ∨ c.MetricsConfig = none ∨
        (MetricsConfig.Freeze lib c.MetricsConfig).2 = none) →
      (c.freeze lib g).1 = none) := by
  have hv : c.validate = none := by simp [Config.validate, hskip]
  refine ⟨hv, ?_, ?_⟩
  · intro err hc
    simp [Config.freeze, hv, hc]
  · intro hc hm
    unfold Config.freeze
    simp only [hv, hc]
    rcases hm with h | h | h
    · simp [h]
    · simp [h]
    · split_ifs
      · simp [h]
      · rfl

/-- C30, witness: `SkipCache` true with both TTLs at zero, once with the custom cache of
the test configuration, which freezes, and once with no cache provider named. -/
theorem freeze_skipCache_witness :
    ((exConfig 0 0 true).SkipCache = true ∧
      (exConfig 0 0 true).validate = none ∧
      ((exConfig 0 0 true).freeze exInitLib exProcess.vars).1 = none) ∧
    (exConfigNoBackend.SkipCache = true ∧
      exConfigNoBackend.freeze exInitLib exProcess.vars =
        (some (GoError.mk ("cache type " ++ formatDecimal 0 ++ " is not supported")),
          exProcess.vars)) :=
  ⟨⟨rfl, (freeze_skipCache exInitLib (exConfig 0 0 true) exProcess.vars rfl).1,
      (freeze_skipCache exInitLib (exConfig 0 0 true) exProcess.vars rfl).2.2
        (by decide) (Or.inl rfl)⟩,
    ⟨rfl, (freeze_skipCache exInitLib exConfigNoBackend exProcess.vars rfl).2.1 _ rfl⟩⟩

/-- C2: cache enabled, `readFromCache` true, the backend `Get` returns bytes that decode
to an entry `e`, and `e` is stale at the clock reading `t` of the staleness test.  Then
`getData` returns the response that `e.Data` deserializes to (the stale data) with a nil
error, or the wrapped error of the deserialization; it performs exactly one cache `Get`
and no remote call, and starts exactly one goroutine, the refresh; the
refresh, whenever it runs, invokes `rpcCall` exactly once and, if that succeeds, is
`updateCache` on the response with the key, soft TTL, hard TTL and write predicate that
`getData` was given (and does nothing more if it fails). -/
theorem getData_soft_hit {σ ρ : Type} (env : Env σ ρ) (rpcCall : RpcCall σ ρ)
    (rpcCallName cacheKey : String) (softTTL hardTTL : Int)
    (readFromCache : ReadPredicate σ) (writeToCache : WritePredicate σ ρ) (r : Run σ ρ)
    (w1 w2 : σ) (data : Bytes) (e : CacheValue)
    (hskip : env.skipCache = false) (hrd : readFromCache r.world = (true, w1))
    (hget : env.cacheProvider.GetAPI cacheKey w1 = ((data, none), w2))
    (hdec : DecompressStruct env.lib data env.compressionLibrary = .ok e)
    (hstale : isPastSoftTTLThreshhold e (env.timeNowUnix w2).1 = true) :
    (∀ v, env.lib.UnmarshalFromString e.Data = .ok v →
      (getData env rpcCall rpcCallName cacheKey softTTL hardTTL readFromCache writeToCache
        r).1 = (some v, none)) ∧
    (∀ err, env.lib.UnmarshalFromString e.Data = .error err →
      (getData env rpcCall rpcCallName cacheKey softTTL hardTTL readFromCache writeToCache
        r).1 = (none,
          some (GoError.wrap err "unable to marshal cache value to rpc response"))) ∧
    (getData env rpcCall rpcCallName cacheKey softTTL hardTTL readFromCache writeToCache
      r).2.trace = r.trace ++ ([Event.cacheGet cacheKey, Event.now (env.timeNowUnix w2).1]
        ++ metricEvents env (Event.softHitMetric rpcCallName)
        ++ metricEvents env (Event.hitMetric rpcCallName)) ∧
    numCacheGet (effects (getData env rpcCall rpcCallName cacheKey softTTL hardTTL
      readFromCache writeToCache) r) = 1 ∧
    numRpcCall (effects (getData env rpcCall rpcCallName cacheKey softTTL hardTTL
      readFromCache writeToCache) r) = 0 ∧
    started (getData env rpcCall rpcCallName cacheKey softTTL hardTTL readFromCache
      writeToCache) r = [Task.refresh cacheKey rpcCall softTTL hardTTL writeToCache] ∧
    (∀ r' : Run σ ρ,
      numRpcCall (effects (Task.run env
        (Task.refresh cacheKey rpcCall softTTL hardTTL writeToCache)) r') = 1 ∧
      (∀ resp, (rpcCall r'.world).1 = (resp, none) →
        Task.run env (Task.refresh cacheKey rpcCall softTTL hardTTL writeToCache) r' =
          updateCache env cacheKey resp softTTL hardTTL writeToCache
            ⟨(rpcCall r'.world).2, r'.trace ++ [Event.rpcCall], r'.spawned⟩) ∧
      (∀ resp err, (rpcCall r'.world).1 = (resp, some err) →
        Task.run env (Task.refresh cacheKey rpcCall softTTL hardTTL writeToCache) r' =
          ((), ⟨(rpcCall r'.world).2, r'.trace ++ [Event.rpcCall], r'.spawned⟩))) := by
  have heq := getData_hit_eq env rpcCall rpcCallName cacheKey softTTL hardTTL
    readFromCache writeToCache r w1 w2 data e hskip hrd hget hdec
  obtain ⟨a, b, c⟩ := getDataAfterRead_stale env rpcCall rpcCallName cacheKey softTTL
    hardTTL writeToCache e ⟨w2, r.trace ++ [Event.cacheGet cacheKey], r.spawned⟩ hstale
  have htr : (getData env rpcCall rpcCallName cacheKey softTTL hardTTL readFromCache
      writeToCache r).2.trace = r.trace ++ ([Event.cacheGet cacheKey,
        Event.now (env.timeNowUnix w2).1]
        ++ metricEvents env (Event.softHitMetric rpcCallName)
        ++ metricEvents env (Event.hitMetric rpcCallName)) := by
    rw [heq, b]; simp
  have he := effects_eq _ _ _ htr
  have hs := started_eq (getData env rpcCall rpcCallName cacheKey softTTL hardTTL
    readFromCache writeToCache) r _ (by rw [heq]; exact c)
  obtain ⟨-, m2, m3, -, g2, g3, -⟩ := numRpcCall_metricEvents env rpcCallName
  refine ⟨fun v hv => by
      rw [heq, a]
      simp [generateResp, generateResponseStructFromCacheVal, hv],
    fun err hv => by
      rw [heq, a]
      simp [generateResp, generateResponseStructFromCacheVal, hv], htr, ?_, ?_, hs, ?_⟩
  · rw [he]
    simp only [numCacheGet, List.filter_append, List.length_append] at g2 g3 ⊢
    simp [g2, g3]
  · rw [he]
    simp only [numRpcCall, List.filter_append, List.length_append] at m2 m3 ⊢
    simp [m2, m3]
  · intro r'
    exact refresh_run env cacheKey rpcCall softTTL hardTTL writeToCache r'

/-- C2, witness: the stored entry was updated at 90 with a soft TTL of 5s and the clock
reads 100 (the test `cache soft hit`); the call itself carries a soft TTL of 10s.  The
payload `1` of the entry deserializes to `plain`, which is what is returned. -/
theorem getData_soft_hit_witness :
    (exEnv false ([1], none)).skipCache = false ∧
    exRead true exRun.world = (true, 0) ∧
    (exEnv false ([1], none)).cacheProvider.GetAPI "cacheKey" 0 = (([1], none), 0) ∧
    DecompressStruct (exEnv false ([1], none)).lib [1]
      (exEnv false ([1], none)).compressionLibrary = .ok ⟨90, 5000000000, "1"⟩ ∧
    isPastSoftTTLThreshhold ⟨90, 5000000000, "1"⟩
      ((exEnv false ([1], none)).timeNowUnix 0).1 = true ∧
    (getData (exEnv false ([1], none)) (exRpc (some Reply.plain, none)) "rpcCallName"
      "cacheKey" 10000000000 40000000000 (exRead true) exWrite exRun).1 =
        (some Reply.plain, none) ∧
    numRpcCall (effects (getData (exEnv false ([1], none)) (exRpc (some Reply.plain, none))
      "rpcCallName" "cacheKey" 10000000000 40000000000 (exRead true) exWrite) exRun) = 0 ∧
    started (getData (exEnv false ([1], none)) (exRpc (some Reply.plain, none))
      "rpcCallName" "cacheKey" 10000000000 40000000000 (exRead true) exWrite) exRun =
        [Task.refresh "cacheKey" (exRpc (some Reply.plain, none)) 10000000000 40000000000
          exWrite] :=
  have hstale : isPastSoftTTLThreshhold ⟨90, 5000000000, "1"⟩
      ((exEnv false ([1], none)).timeNowUnix 0).1 = true := by
    rw [isPast_of_bounds _ _ (by decide) (by decide) (by decide) (by decide)]
    decide
  ⟨rfl, rfl, rfl, rfl, hstale,
    (getData_soft_hit (exEnv false ([1], none)) (exRpc (some Reply.plain, none))
      "rpcCallName" "cacheKey" 10000000000 40000000000 (exRead true) exWrite exRun 0 0 [1]
      ⟨90, 5000000000, "1"⟩ rfl rfl rfl rfl hstale).1 Reply.plain rfl,
    (getData_soft_hit (exEnv false ([1], none)) (exRpc (some Reply.plain, none))
      "rpcCallName" "cacheKey" 10000000000 40000000000 (exRead true) exWrite exRun 0 0 [1]
      ⟨90, 5000000000, "1"⟩ rfl rfl rfl rfl hstale).2.2.2.2.1,
    (getData_soft_hit (exEnv false ([1], none)) (exRpc (some Reply.plain, none))
      "rpcCallName" "cacheKey" 10000000000 40000000000 (exRead true) exWrite exRun 0 0 [1]
      ⟨90, 5000000000, "1"⟩ rfl rfl rfl rfl hstale).2.2.2.2.2.1⟩

/-- C3: cache enabled, `readFromCache` true, the backend `Get` returns bytes that decode
to an entry `e`, and `e` is not stale at the clock reading of the staleness test.  Then
`getData` returns the response that `e.Data` deserializes to with a nil error (or the
wrapped error of the deserialization), invokes `rpcCall` zero times,
performs no cache `Set`, and starts no goroutine (so no remote call and no `Set` happen
in the background either); its effects are the cache `Get`, the clock reading and the
hit metric. -/
theorem getData_fresh_hit {σ ρ : Type} (env : Env σ ρ) (rpcCall : RpcCall σ ρ)
    (rpcCallName cacheKey : String) (softTTL hardTTL : Int)
    (readFromCache : ReadPredicate σ) (writeToCache : WritePredicate σ ρ) (r : Run σ ρ)
    (w1 w2 : σ) (data : Bytes) (e : CacheValue)
    (hskip : env.skipCache = false) (hrd : readFromCache r.world = (true, w1))
    (hget : env.cacheProvider.GetAPI cacheKey w1 = ((data, none), w2))
    (hdec : DecompressStruct env.lib data env.compressionLibrary = .ok e)
    (hfresh : isPastSoftTTLThreshhold e (env.timeNowUnix w2).1 = false) :
    (∀ v, env.lib.UnmarshalFromString e.Data = .ok v →
      (getData env rpcCall rpcCallName cacheKey softTTL hardTTL readFromCache writeToCache
        r).1 = (some v, none)) ∧
    (∀ err, env.lib.UnmarshalFromString e.Data = .error err →
      (getData env rpcCall rpcCallName cacheKey softTTL hardTTL readFromCache writeToCache
        r).1 = (none,
          some (GoError.wrap err "unable to marshal cache value to rpc response"))) ∧
    (getData env rpcCall rpcCallName cacheKey softTTL hardTTL readFromCache writeToCache
      r).2.trace = r.trace ++ ([Event.cacheGet cacheKey, Event.now (env.timeNowUnix w2).1]
        ++ metricEvents env (Event.hitMetric rpcCallName)) ∧
    numRpcCall (effects (getData env rpcCall rpcCallName cacheKey softTTL hardTTL
      readFromCache writeToCache) r) = 0 ∧
    numCacheSet (effects (getData env rpcCall rpcCallName cacheKey softTTL hardTTL
      readFromCache writeToCache) r) = 0 ∧
    started (getData env rpcCall rpcCallName cacheKey softTTL hardTTL readFromCache
      writeToCache) r = [] := by
  have heq := getData_hit_eq env rpcCall rpcCallName cacheKey softTTL hardTTL
    readFromCache writeToCache r w1 w2 data e hskip hrd hget hdec
  obtain ⟨a, b, c⟩ := getDataAfterRead_fresh env rpcCall rpcCallName cacheKey softTTL
    hardTTL writeToCache e ⟨w2, r.trace ++ [Event.cacheGet cacheKey], r.spawned⟩ hfresh
  have htr : (getData env rpcCall rpcCallName cacheKey softTTL hardTTL readFromCache
      writeToCache r).2.trace = r.trace ++ ([Event.cacheGet cacheKey,
        Event.now (env.timeNowUnix w2).1]
        ++ metricEvents env (Event.hitMetric rpcCallName)) := by
    rw [heq, b]; simp
  have he := effects_eq _ _ _ htr
  have hs := started_eq (getData env rpcCall rpcCallName cacheKey softTTL hardTTL
    readFromCache writeToCache) r [] (by rw [heq]; simpa using c)
  obtain ⟨-, m2, -, -, -, -, -, s2, -⟩ := numRpcCall_metricEvents env rpcCallName
  refine ⟨fun v hv => by
      rw [heq, a]
      simp [generateResp, generateResponseStructFromCacheVal, hv],
    fun err hv => by
      rw [heq, a]
      simp [generateResp, generateResponseStructFromCacheVal, hv], htr, ?_, ?_, hs⟩
  · rw [he]
    simp only [numRpcCall, List.filter_append, List.length_append] at m2 ⊢
    simp [m2]
  · rw [he]
    simp only [numCacheSet, List.filter_append, List.length_append] at s2 ⊢
    simp [s2]

/-- C3, witness: the stored entry was updated at 100 with a soft TTL of 5s and the clock
reads 100 (the test `cache hit`). -/
theorem getData_fresh_hit_witness :
    (exEnv false ([2], none)).skipCache = false ∧
    exRead true exRun.world = (true, 0) ∧
    (exEnv false ([2], none)).cacheProvider.GetAPI "cacheKey" 0 = (([2], none), 0) ∧
    DecompressStruct (exEnv false ([2], none)).lib [2]
      (exEnv false ([2], none)).compressionLibrary = .ok ⟨100, 5000000000, "1"⟩ ∧
    isPastSoftTTLThreshhold ⟨100, 5000000000, "1"⟩
      ((exEnv false ([2], none)).timeNowUnix 0).1 = false ∧
    (getData (exEnv false ([2], none)) (exRpc (some Reply.plain, none)) "rpcCallName"
      "cacheKey" 10000000000 40000000000 (exRead true) exWrite exRun).1 =
        (some Reply.plain, none) ∧
    numRpcCall (effects (getData (exEnv false ([2], none)) (exRpc (some Reply.plain, none))
      "rpcCallName" "cacheKey" 10000000000 40000000000 (exRead true) exWrite) exRun) = 0 ∧
    numCacheSet (effects (getData (exEnv false ([2], none)) (exRpc (some Reply.plain, none))
      "rpcCallName" "cacheKey" 10000000000 40000000000 (exRead true) exWrite) exRun) = 0 ∧
    started (getData (exEnv false ([2], none)) (exRpc (some Reply.plain, none))
      "rpcCallName" "cacheKey" 10000000000 40000000000 (exRead true) exWrite) exRun = [] :=
  have hfresh : isPastSoftTTLThreshhold ⟨100, 5000000000, "1"⟩
      ((exEnv false ([2], none)).timeNowUnix 0).1 = false := by
    rw [isPast_of_bounds _ _ (by decide) (by decide) (by decide) (by decide)]
    decide
  ⟨rfl, rfl, rfl, rfl, hfresh,
    (getData_fresh_hit (exEnv false ([2], none)) (exRpc (some Reply.plain, none))
      "rpcCallName" "cacheKey" 10000000000 40000000000 (exRead true) exWrite exRun 0 0 [2]
      ⟨100, 5000000000, "1"⟩ rfl rfl rfl rfl hfresh).1 Reply.plain rfl,
    (getData_fresh_hit (exEnv false ([2], none)) (exRpc (some Reply.plain, none))
      "rpcCallName" "cacheKey" 10000000000 40000000000 (exRead true) exWrite exRun 0 0 [2]
      ⟨100, 5000000000, "1"⟩ rfl rfl rfl rfl hfresh).2.2.2.1,
    (getData_fresh_hit (exEnv false ([2], none)) (exRpc (some Reply.plain, none))
      "rpcCallName" "cacheKey" 10000000000 40000000000 (exRead true) exWrite exRun 0 0 [2]
      ⟨100, 5000000000, "1"⟩ rfl rfl rfl rfl hfresh).2.2.2.2.1,
    (getData_fresh_hit (exEnv false ([2], none)) (exRpc (some Reply.plain, none))
      "rpcCallName" "cacheKey" 10000000000 40000000000 (exRead true) exWrite exRun 0 0 [2]
      ⟨100, 5000000000, "1"⟩ rfl rfl rfl rfl hfresh).2.2.2.2.2⟩

/-- C9: with the cache enabled and `readFromCache` returning false, `getData` performs no
cache `Get` and invokes `rpcCall` exactly once; it takes at most one clock reading (the
one that stamps the fresh entry, so none for a staleness test) and starts no refresh,
whatever `softTTL` is; and when the call succeeds with a response that marshals to
`data`, it returns what the payload `data` of the fresh entry `(now, softTTL, data)`
deserializes to with a nil error (or the wrapped error of that deserialization), its
effects being the miss metric, the remote call and the clock
reading, and the only goroutine started being the write-back. -/
theorem getData_bypass {σ ρ : Type} (env : Env σ ρ) (rpcCall : RpcCall σ ρ)
    (rpcCallName cacheKey : String) (softTTL hardTTL : Int)
    (readFromCache : ReadPredicate σ) (writeToCache : WritePredicate σ ρ) (r : Run σ ρ)
    (w1 : σ)
    (hskip : env.skipCache = false) (hrd : readFromCache r.world = (false, w1)) :
    numCacheGet (effects (getData env rpcCall rpcCallName cacheKey softTTL hardTTL
      readFromCache writeToCache) r) = 0 ∧
    numRpcCall (effects (getData env rpcCall rpcCallName cacheKey softTTL hardTTL
      readFromCache writeToCache) r) = 1 ∧
    numNow (effects (getData env rpcCall rpcCallName cacheKey softTTL hardTTL
      readFromCache writeToCache) r) ≤ 1 ∧
    refreshes (started (getData env rpcCall rpcCallName cacheKey softTTL hardTTL
      readFromCache writeToCache) r) = [] ∧
    (∀ resp data,
      (rpcCall (metricWorld env (fun m => m.IncreaseCacheMissMetric rpcCallName) w1)).1 =
        (resp, none) →
      env.lib.MarshalToString resp = .ok data →
      (∀ v, env.lib.UnmarshalFromString data = .ok v →
        (getData env rpcCall rpcCallName cacheKey softTTL hardTTL readFromCache
          writeToCache r).1 = (some v, none)) ∧
      (∀ err, env.lib.UnmarshalFromString data = .error err →
        (getData env rpcCall rpcCallName cacheKey softTTL hardTTL readFromCache
          writeToCache r).1 = (none,
            some (GoError.wrap err "unable to marshal cache value to rpc response"))) ∧
      (getData env rpcCall rpcCallName cacheKey softTTL hardTTL readFromCache writeToCache
        r).2.trace = r.trace ++ (metricEvents env (Event.missMetric rpcCallName) ++
          [Event.rpcCall, Event.now (env.timeNowUnix (rpcCall (metricWorld env
            (fun m => m.IncreaseCacheMissMetric rpcCallName) w1)).2).1]) ∧
      (getData env rpcCall rpcCallName cacheKey softTTL hardTTL readFromCache writeToCache
        r).2.spawned =
          r.spawned ++ [Task.updateCache cacheKey resp softTTL hardTTL writeToCache]) := by
  have heq := getData_bypass_eq env rpcCall rpcCallName cacheKey softTTL hardTTL
    readFromCache writeToCache r hskip (by rw [hrd])
  simp only [hrd] at heq
  obtain ⟨m1, m2, m3, m4, -⟩ := numRpcCall_metricEvents env rpcCallName
  obtain ⟨-, -, -, g1, -, -, -, -, -, n1, -⟩ := numRpcCall_metricEvents env rpcCallName
  have hsplit : ∀ (a b : List Event), numRpcCall (a ++ b) = numRpcCall a + numRpcCall b ∧
      numCacheGet (a ++ b) = numCacheGet a + numCacheGet b ∧
      numNow (a ++ b) = numNow a + numNow b := by
    intro a b
    simp [numRpcCall, numCacheGet, numNow]
  rcases hr : (rpcCall (metricWorld env
      (fun m => m.IncreaseCacheMissMetric rpcCallName) w1)).1 with ⟨res, _ | err⟩
  · cases hm : env.lib.MarshalToString res with
    | error e =>
      obtain ⟨-, b, c⟩ := getData_miss_marshal_error env cacheKey rpcCall softTTL hardTTL
        rpcCallName writeToCache ⟨w1, r.trace, r.spawned⟩ res e hr hm
      have he := effects_eq (getData env rpcCall rpcCallName cacheKey softTTL hardTTL
        readFromCache writeToCache) r _ (by rw [heq]; exact b)
      have hs := started_eq (getData env rpcCall rpcCallName cacheKey softTTL hardTTL
        readFromCache writeToCache) r _ (by rw [heq]; exact c)
      rw [he, hs]
      refine ⟨by rw [(hsplit _ _).2.1, g1]; simp [numCacheGet],
        by rw [(hsplit _ _).1, m1]; simp [numRpcCall],
        by rw [(hsplit _ _).2.2, n1]; simp [numNow], by simp [refreshes], ?_⟩
      intro resp data h1 h2
      simp only [Prod.mk.injEq] at h1
      rw [← h1.1, hm] at h2
      cases h2
    | ok data0 =>
      obtain ⟨a, b, c, -⟩ := getData_miss_ok env cacheKey rpcCall softTTL hardTTL
        rpcCallName writeToCache ⟨w1, r.trace, r.spawned⟩ res data0 hr hm
      have he := effects_eq (getData env rpcCall rpcCallName cacheKey softTTL hardTTL
        readFromCache writeToCache) r _ (by rw [heq]; exact b)
      have hs := started_eq (getData env rpcCall rpcCallName cacheKey softTTL hardTTL
        readFromCache writeToCache) r _ (by rw [heq]; exact c)
      rw [he, hs]
      refine ⟨by rw [(hsplit _ _).2.1, g1]; simp [numCacheGet],
        by rw [(hsplit _ _).1, m1]; simp [numRpcCall],
        by rw [(hsplit _ _).2.2, n1]; simp [numNow], by simp [refreshes], ?_⟩
      intro resp data h1 h2
      simp only [Prod.mk.injEq] at h1
      rw [← h1.1, hm] at h2
      cases h2
      rw [heq]
      refine ⟨?_, ?_, b, ?_⟩
      · intro v hv
        simp only [a]
        simp [generateResp, generateResponseStructFromCacheVal, hv]
      · intro err hv
        simp only [a]
        simp [generateResp, generateResponseStructFromCacheVal, hv]
      · rw [← h1.1]; exact c
  · obtain ⟨-, b, c⟩ := getData_miss_rpc_error env cacheKey rpcCall softTTL hardTTL
      rpcCallName writeToCache ⟨w1, r.trace, r.spawned⟩ res err hr
    have he := effects_eq (getData env rpcCall rpcCallName cacheKey softTTL hardTTL
      readFromCache writeToCache) r _ (by rw [heq]; exact b)
    have hs := started_eq (getData env rpcCall rpcCallName cacheKey softTTL hardTTL
      readFromCache writeToCache) r [] (by rw [heq]; simpa using c)
    rw [he, hs]
    refine ⟨by rw [(hsplit _ _).2.1, g1]; simp [numCacheGet],
      by rw [(hsplit _ _).1, m1]; simp [numRpcCall],
      by rw [(hsplit _ _).2.2, n1]; simp [numNow], by simp [refreshes], ?_⟩
    intro resp data h1
    simp at h1

/-- C9, witness: the setting of `TestGetData` (soft TTL 1s, hard TTL 2s, a read predicate
that returns false, a remote call that succeeds) at clock reading 100; the response
`plain` marshals to `1`, which deserializes to `plain`. -/
theorem getData_bypass_witness :
    (exEnv false ([1], none)).skipCache = false ∧
    exRead false exRun.world = (false, 0) ∧
    numCacheGet (effects (getData (exEnv false ([1], none)) (exRpc (some Reply.plain, none))
      "rpcCallName" "cacheKey" 1000000000 2000000000 (exRead false) exWrite) exRun) = 0 ∧
    numRpcCall (effects (getData (exEnv false ([1], none)) (exRpc (some Reply.plain, none))
      "rpcCallName" "cacheKey" 1000000000 2000000000 (exRead false) exWrite) exRun) = 1 ∧
    refreshes (started (getData (exEnv false ([1], none)) (exRpc (some Reply.plain, none))
      "rpcCallName" "cacheKey" 1000000000 2000000000 (exRead false) exWrite) exRun) = [] ∧
    (getData (exEnv false ([1], none)) (exRpc (some Reply.plain, none))
      "rpcCallName" "cacheKey" 1000000000 2000000000 (exRead false) exWrite exRun).1 =
        (some Reply.plain, none) ∧
    (getData (exEnv false ([1], none)) (exRpc (some Reply.plain, none))
      "rpcCallName" "cacheKey" 1000000000 2000000000 (exRead false) exWrite exRun).2.trace =
        [Event.rpcCall, Event.now 100] :=
  ⟨rfl, rfl,
    (getData_bypass (exEnv false ([1], none)) (exRpc (some Reply.plain, none))
      "rpcCallName" "cacheKey" 1000000000 2000000000 (exRead false) exWrite exRun 0
      rfl rfl).1,
    (getData_bypass (exEnv false ([1], none)) (exRpc (some Reply.plain, none))
      "rpcCallName" "cacheKey" 1000000000 2000000000 (exRead false) exWrite exRun 0
      rfl rfl).2.1,
    (getData_bypass (exEnv false ([1], none)) (exRpc (some Reply.plain, none))
      "rpcCallName" "cacheKey" 1000000000 2000000000 (exRead false) exWrite exRun 0
      rfl rfl).2.2.2.1,
    ((getData_bypass (exEnv false ([1], none)) (exRpc (some Reply.plain, none))
      "rpcCallName" "cacheKey" 1000000000 2000000000 (exRead false) exWrite exRun 0
      rfl rfl).2.2.2.2 (some Reply.plain) "1" rfl rfl).1 Reply.plain rfl,
    ((getData_bypass (exEnv false ([1], none)) (exRpc (some Reply.plain, none))
      "rpcCallName" "cacheKey" 1000000000 2000000000 (exRead false) exWrite exRun 0
      rfl rfl).2.2.2.2 (some Reply.plain) "1" rfl rfl).2.2.1⟩

/-- C4 (amended): cache enabled, `readFromCache` true, and the cache read fails (the
backend `Get` returns an error, or its bytes do not decode to a `CacheValue`).  Then
whenever the synchronous `rpcCall` succeeds with a response `resp` that marshals to JSON
`data`, and `data` deserializes into the response type as `v`, `getData` returns a
response and a nil error: the response is `v`, the value deserialized from the JSON of
`resp` (for a nil `resp` a non-nil value, deserialized from `null`).  The read failure is
not surfaced. -/
theorem getData_readfail_returns {σ ρ : Type} (env : Env σ ρ) (rpcCall : RpcCall σ ρ)
    (rpcCallName cacheKey : String) (softTTL hardTTL : Int)
    (readFromCache : ReadPredicate σ) (writeToCache : WritePredicate σ ρ) (r : Run σ ρ)
    (w1 w2 : σ) (got : Bytes × Option GoError) (resp : Option ρ) (data : String) (v : ρ)
    (hskip : env.skipCache = false) (hrd : readFromCache r.world = (true, w1))
    (hget : env.cacheProvider.GetAPI cacheKey w1 = (got, w2))
    (hfail : got.2 ≠ none ∨
      ∃ err, DecompressStruct env.lib got.1 env.compressionLibrary = .error err)
    (hrpc : (rpcCall (metricWorld env
      (fun m => m.IncreaseCacheMissMetric rpcCallName) w2)).1 = (resp, none))
    (hm : env.lib.MarshalToString resp = .ok data)
    (hu : env.lib.UnmarshalFromString data = .ok v) :
    (getData env rpcCall rpcCallName cacheKey softTTL hardTTL readFromCache writeToCache
      r).1 = (some v, none) := by
  have h := getData_readfail_ok env rpcCall rpcCallName cacheKey softTTL hardTTL
    readFromCache writeToCache r w1 w2 _ _ _ got resp data _ _ hskip hrd hget hfail
    (Prod.ext hrpc rfl) hm rfl rfl
  rw [h.1]
  simp [generateResp, generateResponseStructFromCacheVal, hu]

/-- C4, witness: the backend `Get` fails.  A remote call that returns `plain`, which
marshals to `1`, gives `plain`; a remote call that returns a nil response with a nil
error, which marshals to `null`, gives the non-nil value that `null` deserializes to. -/
theorem getData_readfail_returns_witness :
    (exEnv false ([], some (GoError.mk "connection refused"))).skipCache = false ∧
    exRead true exRun.world = (true, 0) ∧
    (exEnv false ([], some (GoError.mk "connection refused"))).cacheProvider.GetAPI
      "cacheKey" 0 = (([], some (GoError.mk "connection refused")), 0) ∧
    (([], some (GoError.mk "connection refused")) : Bytes × Option GoError).2 ≠ none ∧
    (getData (exEnv false ([], some (GoError.mk "connection refused")))
      (exRpc (some Reply.plain, none)) "rpcCallName" "cacheKey" 1000000000 2000000000
      (exRead true) exWrite exRun).1 = (some Reply.plain, none) ∧
    exLib.MarshalToString none = .ok "null" ∧
    exLib.UnmarshalFromString "null" = .ok Reply.plain ∧
    (getData (exEnv false ([], some (GoError.mk "connection refused")))
      (exRpc (none, none)) "rpcCallName" "cacheKey" 1000000000 2000000000
      (exRead true) exWrite exRun).1 = (some Reply.plain, none) :=
  ⟨rfl, rfl, rfl, by simp,
    getData_readfail_returns (exEnv false ([], some (GoError.mk "connection refused")))
      (exRpc (some Reply.plain, none)) "rpcCallName" "cacheKey" 1000000000 2000000000
      (exRead true) exWrite exRun 0 0 ([], some (GoError.mk "connection refused"))
      (some Reply.plain) "1" Reply.plain rfl rfl rfl (Or.inl (by simp)) rfl rfl rfl,
    rfl, rfl,
    getData_readfail_returns (exEnv false ([], some (GoError.mk "connection refused")))
      (exRpc (none, none)) "rpcCallName" "cacheKey" 1000000000 2000000000
      (exRead true) exWrite exRun 0 0 ([], some (GoError.mk "connection refused"))
      none "null" Reply.plain rfl rfl rfl (Or.inl (by simp)) rfl rfl rfl⟩

/-- C7: `updateCache` performs at most one cache `Set`; it performs one iff the response
is non-nil, `writeToCache` accepts it, and marshalling and compression succeed; and
every `Set` it performs carries the given key, the hard TTL as its ttl, and as its value
the encoding under the configured compression selector of the entry with `UpdatedTS`
the clock reading, `SoftTTL` the given soft TTL and `Data` the JSON of the response:
the output of the gzip writer (selector 1) or of the snappy writer (selector 2) on the
JSON of that entry, or that JSON itself (any other selector). -/
theorem updateCache_set_once {σ ρ : Type} (env : Env σ ρ) (key : String)
    (rpcCallResp : Option ρ) (softTTL hardTTL : Int) (writeToCache : WritePredicate σ ρ)
    (r : Run σ ρ) :
    numCacheSet (effects (updateCache env key rpcCallResp softTTL hardTTL writeToCache) r)
      ≤ 1 ∧
    (numCacheSet (effects (updateCache env key rpcCallResp softTTL hardTTL writeToCache) r)
      = 1 ↔
      ∃ resp data val json, rpcCallResp = some resp ∧
        (writeToCache resp r.world).1 = true ∧
        env.lib.MarshalToString (some resp) = .ok data ∧
        env.lib.Marshal
          ⟨(env.timeNowUnix (writeToCache resp r.world).2).1, softTTL, data⟩ = .ok json ∧
        ((env.compressionLibrary = GzipCompressionType ∧
            env.lib.gzipWriter json = GzipWrite.ok val) ∨
          (env.compressionLibrary = SnappyCompressionType ∧
            env.lib.snappyWriter json = SnappyWrite.ok val) ∨
          (env.compressionLibrary ≠ GzipCompressionType ∧
            env.compressionLibrary ≠ SnappyCompressionType ∧ val = json))) ∧
    (∀ k v ttl, Event.cacheSet k v ttl ∈
        effects (updateCache env key rpcCallResp softTTL hardTTL writeToCache) r →
      k = key ∧ ttl = hardTTL ∧
      ∃ resp data json, rpcCallResp = some resp ∧
        env.lib.MarshalToString (some resp) = .ok data ∧
        env.lib.Marshal
          ⟨(env.timeNowUnix (writeToCache resp r.world).2).1, softTTL, data⟩ = .ok json ∧
        ((env.compressionLibrary = GzipCompressionType ∧
            env.lib.gzipWriter json = GzipWrite.ok v) ∨
          (env.compressionLibrary = SnappyCompressionType ∧
            env.lib.snappyWriter json = SnappyWrite.ok v) ∨
          (env.compressionLibrary ≠ GzipCompressionType ∧
            env.compressionLibrary ≠ SnappyCompressionType ∧ v = json))) := by
  obtain ⟨-, h⟩ := updateCache_cases env key rpcCallResp softTTL hardTTL writeToCache r
  have hiff : ∀ (s : CacheValue) (c : Int) (val : Bytes),
      CompressStruct env.lib s c = .ok val ↔
        ∃ json, env.lib.Marshal s = .ok json ∧
          ((c = GzipCompressionType ∧ env.lib.gzipWriter json = GzipWrite.ok val) ∨
            (c = SnappyCompressionType ∧ env.lib.snappyWriter json = SnappyWrite.ok val) ∨
            (c ≠ GzipCompressionType ∧ c ≠ SnappyCompressionType ∧ val = json)) := by
    intro s c val
    have hne : SnappyCompressionType ≠ GzipCompressionType := by decide
    unfold CompressStruct
    cases hm : env.lib.Marshal s with
    | error e => simp
    | ok json =>
      simp only [Except.ok.injEq, exists_eq_left']
      by_cases h1 : c = GzipCompressionType
      · subst h1
        simp only [if_true, gzipCompression, true_and, ne_eq, not_true_eq_false, false_and,
          or_false, hne.symm]
        cases hw : env.lib.gzipWriter json <;> simp
      · by_cases h2 : c = SnappyCompressionType
        · subst h2
          simp only [h1, if_false, if_true, snappyCompression, false_and, true_and,
            false_or, ne_eq, not_true_eq_false, and_false, or_false]
          cases hw : env.lib.snappyWriter json <;> simp
        · simp only [h1, h2, if_false, false_and, false_or, ne_eq, not_false_eq_true,
            true_and, Except.ok.injEq]
          exact eq_comm
  have hconv : (∃ resp data val json, rpcCallResp = some resp ∧
        (writeToCache resp r.world).1 = true ∧
        env.lib.MarshalToString (some resp) = .ok data ∧
        env.lib.Marshal
          ⟨(env.timeNowUnix (writeToCache resp r.world).2).1, softTTL, data⟩ = .ok json ∧
        ((env.compressionLibrary = GzipCompressionType ∧
            env.lib.gzipWriter json = GzipWrite.ok val) ∨
          (env.compressionLibrary = SnappyCompressionType ∧
            env.lib.snappyWriter json = SnappyWrite.ok val) ∨
          (env.compressionLibrary ≠ GzipCompressionType ∧
            env.compressionLibrary ≠ SnappyCompressionType ∧ val = json))) →
      ∃ resp data val, rpcCallResp = some resp ∧ (writeToCache resp r.world).1 = true ∧
        env.lib.MarshalToString (some resp) = .ok data ∧
        CompressStruct env.lib
          ⟨(env.timeNowUnix (writeToCache resp r.world).2).1, softTTL, data⟩
          env.compressionLibrary = .ok val := by
    rintro ⟨resp, data, val, json, h1, h2, h3, h4, h5⟩
    exact ⟨resp, data, val, h1, h2, h3,
      (hiff _ _ _).mpr ⟨json, h4, h5⟩⟩
  rcases h with ⟨resp, data, val, h1, h2, h3, h4, htr⟩ | ⟨hno, htr | ⟨t, htr⟩⟩
  · obtain ⟨json, h5, h6⟩ := (hiff _ _ _).mp h4
    rw [effects_eq _ _ _ htr]
    refine ⟨by simp [numCacheSet], ⟨fun _ => ⟨resp, data, val, json, h1, h2, h3, h5, h6⟩,
      fun _ => by simp [numCacheSet]⟩, ?_⟩
    intro k v ttl hmem
    simp at hmem
    obtain ⟨rfl, rfl, rfl⟩ := hmem
    exact ⟨rfl, rfl, resp, data, json, h1, h3, h5, h6⟩
  · rw [effects_eq _ _ [] (by simpa using htr)]
    refine ⟨by simp [numCacheSet], ⟨fun h => by simp [numCacheSet] at h,
      fun h => absurd (hconv h) hno⟩, ?_⟩
    intro k v ttl hmem
    simp at hmem
  · rw [effects_eq _ _ _ htr]
    refine ⟨by simp [numCacheSet], ⟨fun h => by simp [numCacheSet] at h,
      fun h => absurd (hconv h) hno⟩, ?_⟩
    intro k v ttl hmem
    simp at hmem

/-- C7, witness: the gzip selector, a response `plain` with JSON `1`, the soft TTL 5s and
the hard TTL 40s at clock reading 100.  The entry has the JSON bytes `[2]`, the gzip
writer of the examples makes `[31, 139, 2]` of them, and the run of `updateCache` is the
clock reading followed by the one `Set` of the key with those bytes and the hard TTL. -/
theorem updateCache_set_once_witness :
    numCacheSet (effects (updateCache (exCodecEnv GzipCompressionType ([], none))
      "cacheKey" (some Reply.plain) 5000000000 40000000000 exWrite) exRun) = 1 ∧
    effects (updateCache (exCodecEnv GzipCompressionType ([], none))
      "cacheKey" (some Reply.plain) 5000000000 40000000000 exWrite) exRun =
        [Event.now 100, Event.cacheSet "cacheKey" [31, 139, 2] 40000000000] ∧
    numCacheSet (effects (updateCache (exCodecEnv SnappyCompressionType ([], none))
      "cacheKey" (some Reply.plain) 5000000000 40000000000 exWrite) exRun) = 1 ∧
    effects (updateCache (exCodecEnv SnappyCompressionType ([], none))
      "cacheKey" (some Reply.plain) 5000000000 40000000000 exWrite) exRun =
        [Event.now 100, Event.cacheSet "cacheKey" [255, 2] 40000000000] ∧
    numCacheSet (effects (updateCache (exCodecEnv NoCompressionType ([], none))
      "cacheKey" (some Reply.plain) 5000000000 40000000000 exWrite) exRun) = 1 ∧
    effects (updateCache (exCodecEnv NoCompressionType ([], none))
      "cacheKey" (some Reply.plain) 5000000000 40000000000 exWrite) exRun =
        [Event.now 100, Event.cacheSet "cacheKey" [2] 40000000000] :=
  ⟨(updateCache_set_once (exCodecEnv GzipCompressionType ([], none)) "cacheKey"
      (some Reply.plain) 5000000000 40000000000 exWrite exRun).2.1.mpr
      ⟨Reply.plain, "1", [31, 139, 2], [2], rfl, rfl, rfl, rfl, Or.inl ⟨rfl, rfl⟩⟩,
    rfl,
    (updateCache_set_once (exCodecEnv SnappyCompressionType ([], none)) "cacheKey"
      (some Reply.plain) 5000000000 40000000000 exWrite exRun).2.1.mpr
      ⟨Reply.plain, "1", [255, 2], [2], rfl, rfl, rfl, rfl, Or.inr (Or.inl ⟨rfl, rfl⟩)⟩,
    rfl,
    (updateCache_set_once (exCodecEnv NoCompressionType ([], none)) "cacheKey"
      (some Reply.plain) 5000000000 40000000000 exWrite exRun).2.1.mpr
      ⟨Reply.plain, "1", [2], [2], rfl, rfl, rfl, rfl,
        Or.inr (Or.inr ⟨by decide, by decide, rfl⟩)⟩,
    rfl⟩

/-- C12: when the cache read succeeds with a metrics provider `m` configured, `getData`
emits the hit metric exactly once whether the entry is stale or fresh, emits the
soft-hit metric at most once and exactly once iff the entry is stale, and emits no miss
metric: the trace holds those emissions, and the outside world after the call is the
world after the clock reading with the method `IncreaseCacheSoftHitMetric` of `m`
applied once if the entry is stale and then its method `IncreaseCacheHitMetric` applied
once, and no other method of `m`.  With no metrics provider no metric is emitted on any
path, and a successful cache read still returns the response that the payload of the
entry deserializes to, with a nil error. -/
theorem getData_metrics {σ ρ : Type} (env : Env σ ρ) (rpcCall : RpcCall σ ρ)
    (rpcCallName cacheKey : String) (softTTL hardTTL : Int)
    (readFromCache : ReadPredicate σ) (writeToCache : WritePredicate σ ρ) (r : Run σ ρ) :
    (∀ (w1 w2 : σ) (data : Bytes) (e : CacheValue) (m : MetricsClient σ),
      env.skipCache = false → readFromCache r.world = (true, w1) →
      env.cacheProvider.GetAPI cacheKey w1 = ((data, none), w2) →
      DecompressStruct env.lib data env.compressionLibrary = .ok e →
      env.metricsProvider = some m →
      numHitMetric (effects (getData env rpcCall rpcCallName cacheKey softTTL hardTTL
        readFromCache writeToCache) r) = 1 ∧
      numSoftHitMetric (effects (getData env rpcCall rpcCallName cacheKey softTTL hardTTL
        readFromCache writeToCache) r) ≤ 1 ∧
      (numSoftHitMetric (effects (getData env rpcCall rpcCallName cacheKey softTTL hardTTL
        readFromCache writeToCache) r) = 1 ↔
          isPastSoftTTLThreshhold e (env.timeNowUnix w2).1 = true) ∧
      numMissMetric (effects (getData env rpcCall rpcCallName cacheKey softTTL hardTTL
        readFromCache writeToCache) r) = 0 ∧
      (isPastSoftTTLThreshhold e (env.timeNowUnix w2).1 = true →
        (getData env rpcCall rpcCallName cacheKey softTTL hardTTL readFromCache
          writeToCache r).2.world =
          m.IncreaseCacheHitMetric rpcCallName
            (m.IncreaseCacheSoftHitMetric rpcCallName (env.timeNowUnix w2).2)) ∧
      (isPastSoftTTLThreshhold e (env.timeNowUnix w2).1 = false →
        (getData env rpcCall rpcCallName cacheKey softTTL hardTTL readFromCache
          writeToCache r).2.world =
          m.IncreaseCacheHitMetric rpcCallName (env.timeNowUnix w2).2)) ∧
    (env.metricsProvider = none →
      numMetric (effects (getData env rpcCall rpcCallName cacheKey softTTL hardTTL
        readFromCache writeToCache) r) = 0 ∧
      ∀ (w1 w2 : σ) (data : Bytes) (e : CacheValue),
        env.skipCache = false → readFromCache r.world = (true, w1) →
        env.cacheProvider.GetAPI cacheKey w1 = ((data, none), w2) →
        DecompressStruct env.lib data env.compressionLibrary = .ok e →
        ∀ v, env.lib.UnmarshalFromString e.Data = .ok v →
          (getData env rpcCall rpcCallName cacheKey softTTL hardTTL readFromCache
            writeToCache r).1 = (some v, none)) := by
  constructor
  · intro w1 w2 data e m hskip hrd hget hdec hm
    have hme : ∀ ev, metricEvents env ev = [ev] := by
      intro ev; simp [metricEvents, hm]
    have heq := getData_hit_eq env rpcCall rpcCallName cacheKey softTTL hardTTL
      readFromCache writeToCache r w1 w2 data e hskip hrd hget hdec
    have hw : (isPastSoftTTLThreshhold e (env.timeNowUnix w2).1 = true →
          (getData env rpcCall rpcCallName cacheKey softTTL hardTTL readFromCache
            writeToCache r).2.world =
            m.IncreaseCacheHitMetric rpcCallName
              (m.IncreaseCacheSoftHitMetric rpcCallName (env.timeNowUnix w2).2)) ∧
        (isPastSoftTTLThreshhold e (env.timeNowUnix w2).1 = false →
          (getData env rpcCall rpcCallName cacheKey softTTL hardTTL readFromCache
            writeToCache r).2.world =
            m.IncreaseCacheHitMetric rpcCallName (env.timeNowUnix w2).2) := by
      rw [heq]
      constructor
      · intro h
        simp [getDataAfterRead, checkPastSoftTTL, timeNowUnix_apply, h,
          handleCacheSoftHit, handleCacheHit, emitMetric, hm]
      · intro h
        simp [getDataAfterRead, checkPastSoftTTL, timeNowUnix_apply, h, handleCacheHit,
          emitMetric, hm]
    cases hp : isPastSoftTTLThreshhold e (env.timeNowUnix w2).1 with
    | true =>
      obtain ⟨-, b, -⟩ := getDataAfterRead_stale env rpcCall rpcCallName cacheKey
        softTTL hardTTL writeToCache e
        ⟨w2, r.trace ++ [Event.cacheGet cacheKey], r.spawned⟩ hp
      rw [effects_eq _ _ ([Event.cacheGet cacheKey] ++
        ([Event.now (env.timeNowUnix w2).1] ++
          metricEvents env (Event.softHitMetric rpcCallName) ++
          metricEvents env (Event.hitMetric rpcCallName)))
        (by rw [heq, b]; simp)]
      simp only [hp] at hw
      simp [numHitMetric, numSoftHitMetric, numMissMetric, hme, hw]
    | false =>
      obtain ⟨-, b, -⟩ := getDataAfterRead_fresh env rpcCall rpcCallName cacheKey
        softTTL hardTTL writeToCache e
        ⟨w2, r.trace ++ [Event.cacheGet cacheKey], r.spawned⟩ hp
      rw [effects_eq _ _ ([Event.cacheGet cacheKey] ++
        ([Event.now (env.timeNowUnix w2).1] ++
          metricEvents env (Event.hitMetric rpcCallName)))
        (by rw [heq, b]; simp)]
      simp only [hp] at hw
      simp [numHitMetric, numSoftHitMetric, numMissMetric, hme, hw]
  · intro hnone
    refine ⟨getData_no_provider env rpcCall rpcCallName cacheKey softTTL hardTTL
      readFromCache writeToCache r hnone, ?_⟩
    intro w1 w2 data e hskip hrd hget hdec v hv
    rw [getData_hit_eq env rpcCall rpcCallName cacheKey softTTL hardTTL readFromCache
      writeToCache r w1 w2 data e hskip hrd hget hdec, getDataAfterRead_result]
    simp [generateResp, generateResponseStructFromCacheVal, hv]

/-- C12, witness: a metrics client that counts the calls of its methods.  After a stale
hit the counters show one hit, one soft hit and no miss; after a fresh hit one hit, no
soft hit and no miss.  The same stale hit without a metrics provider emits no metric
and returns the response of the entry. -/
theorem getData_metrics_witness :
    (numHitMetric (effects (getData (exEnvTally ([1], none))
        (fun w => ((some Reply.plain, none), w)) "rpcCallName" "cacheKey" 10000000000
        40000000000 (fun w => (true, w)) (fun _ w => (true, w))) ⟨⟨0, 0, 0, 0⟩, [], []⟩)
        = 1 ∧
      numMissMetric (effects (getData (exEnvTally ([1], none))
        (fun w => ((some Reply.plain, none), w)) "rpcCallName" "cacheKey" 10000000000
        40000000000 (fun w => (true, w)) (fun _ w => (true, w))) ⟨⟨0, 0, 0, 0⟩, [], []⟩)
        = 0) ∧
    (getData (exEnvTally ([1], none)) (fun w => ((some Reply.plain, none), w))
      "rpcCallName" "cacheKey" 10000000000 40000000000 (fun w => (true, w))
      (fun _ w => (true, w)) ⟨⟨0, 0, 0, 0⟩, [], []⟩).2.world = ⟨1, 1, 0, 1⟩ ∧
    (getData (exEnvTally ([2], none)) (fun w => ((some Reply.plain, none), w))
      "rpcCallName" "cacheKey" 10000000000 40000000000 (fun w => (true, w))
      (fun _ w => (true, w)) ⟨⟨0, 0, 0, 0⟩, [], []⟩).2.world = ⟨1, 1, 0, 0⟩ ∧
    numMetric (effects (getData (exEnv false ([1], none))
      (exRpc (some Reply.plain, none)) "rpcCallName" "cacheKey" 10000000000 40000000000
      (exRead true) exWrite) exRun) = 0 ∧
    (getData (exEnv false ([1], none)) (exRpc (some Reply.plain, none)) "rpcCallName"
      "cacheKey" 10000000000 40000000000 (exRead true) exWrite exRun).1 =
        (some Reply.plain, none) :=
  have hstale : isPastSoftTTLThreshhold ⟨90, 5000000000, "1"⟩ 100 = true := by
    rw [isPast_of_bounds _ _ (by decide) (by decide) (by decide) (by decide)]
    decide
  have hfresh : isPastSoftTTLThreshhold ⟨100, 5000000000, "1"⟩ 100 = false := by
    rw [isPast_of_bounds _ _ (by decide) (by decide) (by decide) (by decide)]
    decide
  ⟨⟨((getData_metrics (exEnvTally ([1], none)) (fun w => ((some Reply.plain, none), w))
        "rpcCallName" "cacheKey" 10000000000 40000000000 (fun w => (true, w))
        (fun _ w => (true, w)) ⟨⟨0, 0, 0, 0⟩, [], []⟩).1
        ⟨0, 0, 0, 0⟩ ⟨0, 0, 0, 0⟩ [1] ⟨90, 5000000000, "1"⟩ tallyMetrics
        rfl rfl rfl rfl rfl).1,
      ((getData_metrics (exEnvTally ([1], none)) (fun w => ((some Reply.plain, none), w))
        "rpcCallName" "cacheKey" 10000000000 40000000000 (fun w => (true, w))
        (fun _ w => (true, w)) ⟨⟨0, 0, 0, 0⟩, [], []⟩).1
        ⟨0, 0, 0, 0⟩ ⟨0, 0, 0, 0⟩ [1] ⟨90, 5000000000, "1"⟩ tallyMetrics
        rfl rfl rfl rfl rfl).2.2.2.1⟩,
    ((getData_metrics (exEnvTally ([1], none)) (fun w => ((some Reply.plain, none), w))
      "rpcCallName" "cacheKey" 10000000000 40000000000 (fun w => (true, w))
      (fun _ w => (true, w)) ⟨⟨0, 0, 0, 0⟩, [], []⟩).1
      ⟨0, 0, 0, 0⟩ ⟨0, 0, 0, 0⟩ [1] ⟨90, 5000000000, "1"⟩ tallyMetrics
      rfl rfl rfl rfl rfl).2.2.2.2.1 hstale,
    ((getData_metrics (exEnvTally ([2], none)) (fun w => ((some Reply.plain, none), w))
      "rpcCallName" "cacheKey" 10000000000 40000000000 (fun w => (true, w))
      (fun _ w => (true, w)) ⟨⟨0, 0, 0, 0⟩, [], []⟩).1
      ⟨0, 0, 0, 0⟩ ⟨0, 0, 0, 0⟩ [2] ⟨100, 5000000000, "1"⟩ tallyMetrics
      rfl rfl rfl rfl rfl).2.2.2.2.2 hfresh,
    ((getData_metrics (exEnv false ([1], none)) (exRpc (some Reply.plain, none))
      "rpcCallName" "cacheKey" 10000000000 40000000000 (exRead true) exWrite exRun).2
      rfl).1,
    ((getData_metrics (exEnv false ([1], none)) (exRpc (some Reply.plain, none))
      "rpcCallName" "cacheKey" 10000000000 40000000000 (exRead true) exWrite exRun).2
      rfl).2 0 0 [1] ⟨90, 5000000000, "1"⟩ rfl rfl rfl rfl Reply.plain rfl⟩

/-- C15 (amended): let `s` be a value that the JSON marshaller accepts, with JSON `j`
that the unmarshaller decodes back to `s`.  Then for every compression selector
`CompressStruct(s, c)` succeeds with some bytes `b`, and `DecompressStruct(b, target, c)`
with the same selector succeeds and leaves the target equal to `s`; in particular this
holds of `CompressStruct` and `DecompressStruct` on every `CacheValue` whose JSON
decodes back to it. -/
theorem compress_roundtrip {ρ α : Type} (L : LosslessLib ρ)
    (marshal : α → Except GoError Bytes) (unmarshal : Bytes → Except GoError α)
    (s : α) (j : Bytes) (c : Int)
    (hj : marshal s = .ok j) (hu : unmarshal j = .ok s) :
    (∃ b, CompressStructOf L.toLib marshal s c = .ok b ∧
      DecompressStructOf L.toLib unmarshal b c = .ok s) ∧
    (∀ (e : CacheValue) (je : Bytes), L.Marshal e = .ok je → L.Unmarshal je = .ok e →
      ∃ b, CompressStruct L.toLib e c = .ok b ∧ DecompressStruct L.toLib b c = .ok e) := by
  have key : ∀ (β : Type) (m : β → Except GoError Bytes) (u : Bytes → Except GoError β)
      (x : β) (jx : Bytes), m x = .ok jx → u jx = .ok x →
      ∃ b, CompressStructOf L.toLib m x c = .ok b ∧
        DecompressStructOf L.toLib u b c = .ok x := by
    intro β m u x jx hm hux
    obtain ⟨zg, hg1, hg2⟩ := L.gzip_restores jx
    obtain ⟨zs, hs1, hs2⟩ := L.snappy_restores jx
    by_cases h1 : c = GzipCompressionType
    · refine ⟨zg, ?_, ?_⟩
      · simp [CompressStructOf, hm, h1, gzipCompression, hg1]
      · simp [DecompressStructOf, h1, gzipDecompression, hg2, hux]
    · by_cases h2 : c = SnappyCompressionType
      · have hne : SnappyCompressionType ≠ GzipCompressionType := by decide
        refine ⟨zs, ?_, ?_⟩
        · simp [CompressStructOf, hm, h2, hne, snappyCompression, hs1]
        · simp [DecompressStructOf, h2, hne, snappyDecompression, hs2, hux]
      · refine ⟨jx, ?_, ?_⟩
        · simp [CompressStructOf, hm, h1, h2]
        · simp [DecompressStructOf, h1, h2, hux]
  refine ⟨key α marshal unmarshal s j hj hu, ?_⟩
  intro e je he hue
  obtain ⟨zg, hg1, hg2⟩ := L.gzip_restores je
  obtain ⟨zs, hs1, hs2⟩ := L.snappy_restores je
  by_cases h1 : c = GzipCompressionType
  · refine ⟨zg, ?_, ?_⟩
    · simp [CompressStruct, he, h1, gzipCompression, hg1]
    · simp [DecompressStruct, h1, gzipDecompression, hg2, unmarshalEntry, hue]
  · by_cases h2 : c = SnappyCompressionType
    · have hne : SnappyCompressionType ≠ GzipCompressionType := by decide
      refine ⟨zs, ?_, ?_⟩
      · simp [CompressStruct, he, h2, hne, snappyCompression, hs1]
      · simp [DecompressStruct, h2, hne, snappyDecompression, hs2, unmarshalEntry, hue]
    · refine ⟨je, ?_, ?_⟩
      · simp [CompressStruct, he, h1, h2]
      · simp [DecompressStruct, h1, h2, unmarshalEntry, hue]

/-- C15, witness: the struct of the tests, with `Foo` `Bar` and `World` 42, and the
cache entry updated at 100 with soft TTL 5s and payload `1`, each under gzip, under
snappy and without compression, with writers that change the bytes: the bytes the
compression gives, and the value the decompression restores. -/
theorem compress_roundtrip_witness :
    (exMarshalTest ⟨"Bar", 42⟩ = .ok [66, 42] ∧
      exUnmarshalTest [66, 42] = .ok ⟨"Bar", 42⟩) ∧
    ((∃ b, CompressStructOf exCodecLib exMarshalTest ⟨"Bar", 42⟩ GzipCompressionType =
        .ok b ∧
      DecompressStructOf exCodecLib exUnmarshalTest b GzipCompressionType =
        .ok ⟨"Bar", 42⟩) ∧
    (∃ b, CompressStructOf exCodecLib exMarshalTest ⟨"Bar", 42⟩ SnappyCompressionType =
        .ok b ∧
      DecompressStructOf exCodecLib exUnmarshalTest b SnappyCompressionType =
        .ok ⟨"Bar", 42⟩) ∧
    (∃ b, CompressStructOf exCodecLib exMarshalTest ⟨"Bar", 42⟩ NoCompressionType =
        .ok b ∧
      DecompressStructOf exCodecLib exUnmarshalTest b NoCompressionType =
        .ok ⟨"Bar", 42⟩)) ∧
    ((∃ b, CompressStruct exCodecLib ⟨100, 5000000000, "1"⟩ GzipCompressionType = .ok b ∧
      DecompressStruct exCodecLib b GzipCompressionType = .ok ⟨100, 5000000000, "1"⟩) ∧
    (∃ b, CompressStruct exCodecLib ⟨100, 5000000000, "1"⟩ SnappyCompressionType = .ok b ∧
      DecompressStruct exCodecLib b SnappyCompressionType =
        .ok ⟨100, 5000000000, "1"⟩) ∧
    (∃ b, CompressStruct exCodecLib ⟨100, 5000000000, "1"⟩ NoCompressionType = .ok b ∧
      DecompressStruct exCodecLib b NoCompressionType = .ok ⟨100, 5000000000, "1"⟩)) ∧
    (CompressStructOf exCodecLib exMarshalTest ⟨"Bar", 42⟩ GzipCompressionType =
        .ok [31, 139, 66, 42] ∧
      CompressStruct exCodecLib ⟨100, 5000000000, "1"⟩ SnappyCompressionType =
        .ok [255, 2]) :=
  ⟨⟨rfl, rfl⟩,
    ⟨(compress_roundtrip exLossless exMarshalTest exUnmarshalTest ⟨"Bar", 42⟩ [66, 42]
        GzipCompressionType rfl rfl).1,
      (compress_roundtrip exLossless exMarshalTest exUnmarshalTest ⟨"Bar", 42⟩ [66, 42]
        SnappyCompressionType rfl rfl).1,
      (compress_roundtrip exLossless exMarshalTest exUnmarshalTest ⟨"Bar", 42⟩ [66, 42]
        NoCompressionType rfl rfl).1⟩,
    ⟨(compress_roundtrip exLossless exMarshalTest exUnmarshalTest ⟨"Bar", 42⟩ [66, 42]
        GzipCompressionType rfl rfl).2 ⟨100, 5000000000, "1"⟩ [2] rfl rfl,
      (compress_roundtrip exLossless exMarshalTest exUnmarshalTest ⟨"Bar", 42⟩ [66, 42]
        SnappyCompressionType rfl rfl).2 ⟨100, 5000000000, "1"⟩ [2] rfl rfl,
      (compress_roundtrip exLossless exMarshalTest exUnmarshalTest ⟨"Bar", 42⟩ [66, 42]
        NoCompressionType rfl rfl).2 ⟨100, 5000000000, "1"⟩ [2] rfl rfl⟩,
    ⟨rfl, rfl⟩⟩

/-- C16 (as stated, refuted): the key of the request of the test `normal` (function
`helloWorld`, soft TTL 1s, hard TTL 2s, version `v1.0.0`) ends in the padding
character `=`, which is not a character of the URL-safe alphabet: a key does not hold
URL-safe characters only. -/
theorem GenerateCacheKey_key_is_padded :
    GenerateCacheKey exDigest exMarshalReq (some (some Ask.listed)) "helloWorld"
      1000000000 2000000000 "v1.0.0" =
        (hashKey exDigest "helloWorld:[1,2]:1:2:v1.0.0", none) ∧
    (hashKey exDigest "helloWorld:[1,2]:1:2:v1.0.0").data.getLast? = some '=' ∧
    '=' ∉ base64URLAlphabet := by
  refine ⟨?_, by decide, by decide⟩
  simp [GenerateCacheKey, exMarshalReq, constructUnhashedKey_examples.2.2]

/-- C16 (amended): for a non-nil request that marshals to the JSON string `j`,
`GenerateCacheKey` returns a nil error and the `base64.URLEncoding` text of the SHA-512
digest of the bytes of `fn:j:S:H:v`, where `S` and `H` are `int64(soft.Seconds())` and
`int64(hard.Seconds())` in decimal (for durations below `2 ^ 24` seconds, the duration
divided by one second and truncated).  Every key has the same length, 88 characters: 86
characters of the URL-safe alphabet (letters, digits, `-`, `_`) followed by the padding
`==`.  If the request cannot be marshalled, it returns the empty key and the wrapped
error. -/
theorem GenerateCacheKey_spec {α : Type} (digest : Sha512)
    (marshal : α → Except GoError String) (x : α) (fn : String) (soft hard : Int)
    (v : String) :
    (∀ j, marshal x = .ok j →
      GenerateCacheKey digest marshal (some x) fn soft hard v =
        (String.mk (base64URLEncode (digest.sum
          (fn ++ ":" ++ j ++ ":" ++ formatDecimal (wholeSeconds soft) ++ ":"
            ++ formatDecimal (wholeSeconds hard) ++ ":" ++ v).toUTF8.data.toList)),
          none) ∧
      (GenerateCacheKey digest marshal (some x) fn soft hard v).1.length = 88 ∧
      ∃ body, (GenerateCacheKey digest marshal (some x) fn soft hard v).1.data =
          body ++ ['=', '='] ∧ body.length = 86 ∧ ∀ c ∈ body, c ∈ base64URLAlphabet) ∧
    (∀ err, marshal x = .error err →
      GenerateCacheKey digest marshal (some x) fn soft hard v =
        ("", some (GoError.wrap err ""))) ∧
    (-16777216000000000 < soft → soft < 16777216000000000 →
      wholeSeconds soft = Int.tdiv soft Second) ∧
    (-16777216000000000 < hard → hard < 16777216000000000 →
      wholeSeconds hard = Int.tdiv hard Second) := by
  refine ⟨?_, ?_, wholeSeconds_eq_tdiv soft, wholeSeconds_eq_tdiv hard⟩
  · intro j hj
    have h : GenerateCacheKey digest marshal (some x) fn soft hard v =
        (hashKey digest (constructUnhashedKey fn j soft hard v), none) := by
      simp [GenerateCacheKey, hj]
    rw [h]
    exact ⟨rfl, (hashKey_shape digest _).1, hashKey_padded digest _⟩
  · intro err he
    simp [GenerateCacheKey, he]

/-- C16, witness: the request of the test `normal`, with soft TTL 1s and hard TTL 2s,
whose key is the encoding of the digest of `helloWorld:[1,2]:1:2:v1.0.0`, and a request
that cannot be marshalled. -/
theorem GenerateCacheKey_spec_witness :
    GenerateCacheKey exDigest exMarshalReq (some (some Ask.listed)) "helloWorld"
      1000000000 2000000000 "v1.0.0" =
        (String.mk (base64URLEncode (exDigest.sum
          "helloWorld:[1,2]:1:2:v1.0.0".toUTF8.data.toList)), none) ∧
    (GenerateCacheKey exDigest exMarshalReq (some (some Ask.listed)) "helloWorld"
      1000000000 2000000000 "v1.0.0").1.length = 88 ∧
    GenerateCacheKey exDigest exMarshalReq (some (some Ask.cyclic)) "helloWorld"
      1000000000 2000000000 "v1.0.0" =
        ("", some (GoError.wrap (GoError.mk "json: unsupported value") "")) :=
  ⟨by
    have h := ((GenerateCacheKey_spec exDigest exMarshalReq (some Ask.listed) "helloWorld"
      1000000000 2000000000 "v1.0.0").1 "[1,2]" rfl).1
    rw [h]
    have k := constructUnhashedKey_examples.2.2
    unfold constructUnhashedKey at k
    rw [k],
   ((GenerateCacheKey_spec exDigest exMarshalReq (some Ask.listed) "helloWorld"
      1000000000 2000000000 "v1.0.0").1 "[1,2]" rfl).2.1,
   (GenerateCacheKey_spec exDigest exMarshalReq (some Ask.cyclic) "helloWorld"
      1000000000 2000000000 "v1.0.0").2.1 (GoError.mk "json: unsupported value") rfl⟩

/-- C20 (evaluation at the failing input): the test configuration with `SkipCache` set,
a soft TTL of 40s and a hard TTL of 10s.  `validate` returns no error, `freeze` and the
first `Init` return no error and install the default soft TTL 40s above the default
hard TTL 10s; after `ToggleCache(false)` the cache is enabled with those defaults.  The
same TTLs with `SkipCache` false are rejected. -/
theorem validate_skipCache_accepts_inverted_ttls :
    (exConfig 40000000000 10000000000 true).DefaultSoftTTL >
      (exConfig 40000000000 10000000000 true).DefaultHardTTL ∧
    (exConfig 40000000000 10000000000 true).validate = none ∧
    ((exConfig 40000000000 10000000000 true).freeze exInitLib exProcess.vars).1 = none ∧
    (Init exInitLib (exConfig 40000000000 10000000000 true) exProcess).1 = none ∧
    (Init exInitLib (exConfig 40000000000 10000000000 true) exProcess).2.vars.defaultSoftTTL
      = 40000000000 ∧
    (Init exInitLib (exConfig 40000000000 10000000000 true) exProcess).2.vars.defaultHardTTL
      = 10000000000 ∧
    (ToggleCache false
      (Init exInitLib (exConfig 40000000000 10000000000 true) exProcess).2.vars).skipCache
      = false ∧
    (ToggleCache false
      (Init exInitLib (exConfig 40000000000 10000000000 true)
        exProcess).2.vars).defaultSoftTTL >
      (ToggleCache false
        (Init exInitLib (exConfig 40000000000 10000000000 true)
          exProcess).2.vars).defaultHardTTL ∧
    (exConfig 40000000000 10000000000 false).validate =
      some (GoError.mk ("hard ttl is less than soft ttl, if you want to disable soft TTL " ++
        "behavior, set DefaultSoftTTL to HardTTL")) := by
  refine ⟨by decide, rfl, rfl, rfl, rfl, rfl, rfl, by decide, by decide⟩

/-- C24 (evaluation at the failing input): the test configuration with
`EnableMetricsEmission` true and a nil `MetricsConfig`.  `freeze` returns no error and
the metrics provider it installs is nil, so the first `Init` succeeds with metrics
disabled.  A metrics configuration that is given and names an unsupported provider is
reported as an error. -/
theorem freeze_accepts_missing_metrics_config :
    (exConfigMetrics none).EnableMetricsEmission = true ∧
    (exConfigMetrics none).MetricsConfig = none ∧
    ((exConfigMetrics none).freeze exInitLib exProcess.vars).1 = none ∧
    ((exConfigMetrics none).freeze exInitLib exProcess.vars).2.metricsProvider = none ∧
    (Init exInitLib (exConfigMetrics none) exProcess).1 = none ∧
    (exConfigMetrics (some ⟨7, none⟩)).freeze exInitLib exProcess.vars =
      (some (GoError.mk ("metric type " ++ formatDecimal 7 ++ " is not supported")),
        exProcess.vars) := by
  refine ⟨rfl, rfl, by decide, by decide, by decide, rfl⟩

end Heimdall
